import Mathlib

/-!
# rbd-mirror `NamespaceReplayer`: lifecycle sequencing

A shallow embedding of `src/tools/rbd_mirror/NamespaceReplayer.cc`.

* Every ownership slot (`std::unique_ptr`) is a `Bool`: `true` means the slot is
  non-empty.
* Every member function is one Lean function on `World`; a failed `ceph_assert`
  or a call through an empty slot is an `Except` error.
* An asynchronous subsystem call does not run its callback: it records the call
  in the trace and leaves an `Async` item in `World.pending`.  `deliver` hands the
  result code of the oldest outstanding item to its callback, and `run` repeats
  that; sixteen rounds are more than any sequence needs.  Result codes come from an
  `Oracle`, one code for every (subsystem, operation) pair, so that a failure can be
  injected at any step.
* `create_context_callback<.., &handle_X>(this)` and the capturing lambdas are the
  constructors of `Callback` and `Context` (defunctionalised closures).
  `create_async_context_callback` only moves a completion onto the work queue and
  is the identity here.
* Within one sequence no operation is issued twice to the same subsystem, so an oracle
  injects any combination of results into a sequence; two sequences run with the same
  oracle see the same injected results.
* `m_lock` is not modelled: `deliver` runs one callback at a time.
-/

namespace rbd.mirror

/-- The seven owned subsystems, one per ownership slot. -/
inductive Subsystem where
  | status_watcher
  | instance_replayer
  | instance_watcher
  | image_map
  | local_pool_watcher
  | remote_pool_watcher
  | image_deleter
  deriving DecidableEq, Repr

/-- Asynchronous subsystem operations (the ones that take a completion). -/
inductive Op where
  | init
  | shut_down
  | stop
  | release_all
  deriving DecidableEq, Repr

/-- Value published to the service daemon: a string or a count. -/
inductive AttributeValue where
  | str (s : String)
  | num (n : Nat)
  deriving DecidableEq, Repr

/-- A `Context*` handed around as `on_finish`. -/
inductive Context where
  /-- a completion supplied by the caller of a public entry point -/
  | caller (tag : Nat)
  /-- the lambda `new LambdaContext([on_finish, r](int) { on_finish->complete(r); })` -/
  | report (r : Int) (on_finish : Context)
  /-- the lambda of `shut_down`: `[this](int r) { stop_instance_replayer(); }` -/
  | stop_replayer
  deriving DecidableEq, Repr

/-- What the collaborators observe, in order. -/
inductive Event where
  /-- an asynchronous operation was issued to a subsystem -/
  | call (s : Subsystem) (op : Op)
  /-- the completion of that operation was delivered with code `r` -/
  | done (s : Subsystem) (op : Op) (r : Int)
  /-- the call `m_instance_watcher->handle_acquire_leader()` -/
  | handle_acquire_leader
  /-- the call `m_instance_watcher->handle_release_leader()` -/
  | handle_release_leader
  /-- the call `m_instance_replayer->add_peer(uuid, io_ctx)`; the pool is named by its id and
  namespace -/
  | add_peer (mirror_uuid : String) (pool_id : Int) (nspace : String)
  /-- the call `m_service_daemon->add_or_update_attribute(pool_id, key, value)` -/
  | add_or_update_attribute (pool_id : Int) (key : String) (value : AttributeValue)
  /-- the call `m_image_map->update_images(mirror_uuid, added, removed)`; each
  `std::set<std::string>` is given by its elements in iteration order -/
  | update_images (mirror_uuid : String) (added removed : List String)
  /-- the call `m_image_map->update_instances_added(instance_ids)` -/
  | update_instances_added (instance_ids : List String)
  /-- the call `m_image_map->update_instances_removed(instance_ids)` -/
  | update_instances_removed (instance_ids : List String)
  /-- the call `m_instance_watcher->notify_peer_image_removed(instance_id, global_image_id,
  mirror_uuid, on_finish)` -/
  | notify_peer_image_removed (instance_id global_image_id mirror_uuid : String)
      (on_finish : Context)
  /-- a caller-supplied completion was invoked with code `r` -/
  | complete (tag : Nat) (r : Int)
  deriving DecidableEq, Repr

/-- The completion handlers a subsystem operation can be given. -/
inductive Callback where
  | handle_init_status_watcher
  | handle_init_instance_replayer
  | handle_init_instance_watcher
  | handle_stop_instance_replayer
  | handle_shut_down_instance_watcher
  | handle_shut_down_instance_replayer
  | handle_shut_down_status_watcher
  | handle_init_image_map (on_finish : Context)
  | handle_init_local_pool_watcher (on_finish : Context)
  | handle_init_remote_pool_watcher (on_finish : Context)
  | handle_init_image_deleter (on_finish : Context)
  | handle_shut_down_image_deleter (on_finish : Context)
  | handle_shut_down_pool_watchers (on_finish : Context)
  | handle_shut_down_image_map (on_finish : Context)
  /-- a plain `Context` (the `on_finish` given to `release_all`) -/
  | context (on_finish : Context)
  deriving DecidableEq, Repr

/-- An outstanding asynchronous item. -/
inductive Async where
  /-- a subsystem operation that has not completed yet -/
  | call (s : Subsystem) (op : Op) (cb : Callback)
  /-- a `C_Gather` over `shut_down` of the listed subsystems; `result` is the first
  negative code seen so far -/
  | gather (subs : List Subsystem) (result : Int) (cb : Callback)
  /-- a context queued by `m_threads->work_queue->queue(ctx, r)` -/
  | queued (ctx : Context) (r : Int)
  deriving DecidableEq, Repr

/-- Why a run stopped abnormally. -/
inductive Fault where
  /-- a `ceph_assert` failed -/
  | assertion
  /-- a member was called through an empty slot -/
  | null_deref
  deriving DecidableEq, Repr

/-- Modelled from the spec: `ImageId` (`Types.h`) is not among the sources; an image id
carries the cluster-independent global id and the pool-local id. -/
structure ImageId where
  global_id : String
  id : String
  deriving DecidableEq, Repr

/-- The pool handle: `get_id()` and `get_namespace()`. -/
structure IoCtx where
  pool_id : Int
  nspace : String
  deriving DecidableEq, Repr

/-- The fields of `NamespaceReplayer<I>`. -/
structure NamespaceReplayer where
  m_local_mirror_uuid : String
  m_remote_mirror_uuid : String
  m_local_io_ctx : IoCtx
  m_remote_io_ctx : IoCtx
  m_status_watcher : Bool
  m_instance_replayer : Bool
  m_instance_watcher : Bool
  m_image_map : Bool
  m_local_pool_watcher : Bool
  m_remote_pool_watcher : Bool
  m_image_deleter : Bool
  m_on_finish : Option Context
  m_ret_val : Int
  deriving DecidableEq, Repr

/-- What the collaborators report about themselves when asked. -/
structure Env where
  /-- what `InstanceWatcher::get_instance_id()` returns -/
  instance_id : String
  /-- what `PoolWatcher::get_image_count()` returns for the local / remote watcher -/
  local_image_count : Nat
  remote_image_count : Nat
  /-- what `PoolWatcher::is_blacklisted()` returns for the local / remote watcher -/
  local_blacklisted : Bool
  remote_blacklisted : Bool
  deriving DecidableEq, Repr

/-- The replayer together with its surroundings. -/
structure World where
  nr : NamespaceReplayer
  env : Env
  /-- outstanding asynchronous items, oldest first -/
  pending : List Async
  /-- everything observed so far, oldest first -/
  trace : List Event
  deriving DecidableEq, Repr

/-- Result codes injected into the subsystem operations. -/
abbrev Oracle := Subsystem → Op → Int

/-- The errno `ENOENT`. -/
def ENOENT : Int := 2

def SERVICE_DAEMON_INSTANCE_ID_KEY : String := "instance_id"
def SERVICE_DAEMON_LOCAL_COUNT_KEY : String := "image_local_count"
def SERVICE_DAEMON_REMOTE_COUNT_KEY : String := "image_remote_count"

/-- Modelled from the spec: the class declaration (`NamespaceReplayer.h`) is not among the
sources, so the initial values of the members that the constructor's initialiser list does
not mention follow the data model: every slot empty, no pending completion, no recorded
error.  The rest is the constructor: the two uuids are stored and both pool handles are
duplicated and narrowed to the namespace `name`. -/
def NamespaceReplayer.create (name : String) (local_io_ctx remote_io_ctx : IoCtx)
    (local_mirror_uuid remote_mirror_uuid : String) : NamespaceReplayer :=
  { m_local_mirror_uuid := local_mirror_uuid
    m_remote_mirror_uuid := remote_mirror_uuid
    m_local_io_ctx := { local_io_ctx with nspace := name }
    m_remote_io_ctx := { remote_io_ctx with nspace := name }
    m_status_watcher := false
    m_instance_replayer := false
    m_instance_watcher := false
    m_image_map := false
    m_local_pool_watcher := false
    m_remote_pool_watcher := false
    m_image_deleter := false
    m_on_finish := none
    m_ret_val := 0 }

/-- The macro `ceph_assert(cond)`. -/
def ceph_assert (cond : Bool) : Except Fault Unit :=
  if cond then pure () else throw Fault.assertion

/-- A call `slot->f(..)`: the slot must be non-empty. -/
def deref (slot : Bool) : Except Fault Unit :=
  if slot then pure () else throw Fault.null_deref

/-- Append an event to the trace. -/
def World.emit (w : World) (e : Event) : World :=
  { w with trace := w.trace ++ [e] }

/-- Issue the asynchronous operation `op` to subsystem `s` with completion `cb`. -/
def World.issue (w : World) (s : Subsystem) (op : Op) (cb : Callback) : World :=
  { w with trace := w.trace ++ [Event.call s op], pending := w.pending ++ [Async.call s op cb] }

/-- The call `m_threads->work_queue->queue(ctx, r)`. -/
def World.queue (w : World) (ctx : Context) (r : Int) : World :=
  { w with pending := w.pending ++ [Async.queued ctx r] }

/-! ## Teardown of the base subsystems (source lines 373-497) -/

def handle_shut_down_status_watcher (_r : Int) (w : World) : Except Fault World := do
  let w := { w with nr.m_status_watcher := false }
  ceph_assert (!w.nr.m_image_map)
  ceph_assert (!w.nr.m_image_deleter)
  ceph_assert (!w.nr.m_local_pool_watcher)
  ceph_assert (!w.nr.m_remote_pool_watcher)
  ceph_assert (!w.nr.m_instance_watcher)
  ceph_assert (!w.nr.m_instance_replayer)
  match w.nr.m_on_finish with
  | none => throw Fault.assertion
  | some on_finish =>
    let w := w.queue on_finish w.nr.m_ret_val
    pure { w with nr.m_on_finish := none, nr.m_ret_val := 0 }

def shut_down_status_watcher (w : World) : Except Fault World := do
  ceph_assert w.nr.m_status_watcher
  pure (w.issue .status_watcher .shut_down .handle_shut_down_status_watcher)

def handle_shut_down_instance_replayer (_r : Int) (w : World) : Except Fault World :=
  let w := { w with nr.m_instance_replayer := false }
  shut_down_status_watcher w

def shut_down_instance_replayer (w : World) : Except Fault World := do
  ceph_assert w.nr.m_instance_replayer
  pure (w.issue .instance_replayer .shut_down .handle_shut_down_instance_replayer)

def handle_shut_down_instance_watcher (_r : Int) (w : World) : Except Fault World :=
  let w := { w with nr.m_instance_watcher := false }
  shut_down_instance_replayer w

def shut_down_instance_watcher (w : World) : Except Fault World := do
  ceph_assert w.nr.m_instance_watcher
  pure (w.issue .instance_watcher .shut_down .handle_shut_down_instance_watcher)

def handle_stop_instance_replayer (_r : Int) (w : World) : Except Fault World :=
  shut_down_instance_watcher w

def stop_instance_replayer (w : World) : Except Fault World := do
  deref w.nr.m_instance_replayer
  pure (w.issue .instance_replayer .stop .handle_stop_instance_replayer)

/-! ## Base startup (source lines 74-84 and 258-371) -/

def handle_init_instance_watcher (r : Int) (w : World) : Except Fault World :=
  if r < 0 then
    let w := { w with nr.m_instance_watcher := false, nr.m_ret_val := r }
    shut_down_instance_replayer w
  else do
    let w ←
      if w.nr.m_local_io_ctx.nspace.isEmpty then do
        deref w.nr.m_instance_watcher
        pure (w.emit (.add_or_update_attribute w.nr.m_local_io_ctx.pool_id
          SERVICE_DAEMON_INSTANCE_ID_KEY (.str w.env.instance_id)))
      else pure w
    match w.nr.m_on_finish with
    | none => throw Fault.assertion
    | some on_finish =>
      let w := w.queue on_finish 0
      pure { w with nr.m_on_finish := none }

def init_instance_watcher (w : World) : Except Fault World := do
  ceph_assert (!w.nr.m_instance_watcher)
  let w := { w with nr.m_instance_watcher := true }
  pure (w.issue .instance_watcher .init .handle_init_instance_watcher)

def handle_init_instance_replayer (r : Int) (w : World) : Except Fault World :=
  if r < 0 then
    let w := { w with nr.m_instance_replayer := false, nr.m_ret_val := r }
    shut_down_status_watcher w
  else do
    deref w.nr.m_instance_replayer
    let w := w.emit (.add_peer w.nr.m_remote_mirror_uuid w.nr.m_remote_io_ctx.pool_id
      w.nr.m_remote_io_ctx.nspace)
    init_instance_watcher w

def init_instance_replayer (w : World) : Except Fault World := do
  ceph_assert (!w.nr.m_instance_replayer)
  let w := { w with nr.m_instance_replayer := true }
  pure (w.issue .instance_replayer .init .handle_init_instance_replayer)

def handle_init_status_watcher (r : Int) (w : World) : Except Fault World :=
  if r < 0 then
    match w.nr.m_on_finish with
    | none => throw Fault.assertion
    | some on_finish =>
      let w := w.queue on_finish r
      pure { w with nr.m_on_finish := none }
  else
    init_instance_replayer w

def init_status_watcher (w : World) : Except Fault World := do
  ceph_assert (!w.nr.m_status_watcher)
  let w := { w with nr.m_status_watcher := true }
  pure (w.issue .status_watcher .init .handle_init_status_watcher)

def init (on_finish : Context) (w : World) : Except Fault World := do
  ceph_assert (w.nr.m_on_finish == none)
  let w := { w with nr.m_on_finish := some on_finish }
  init_status_watcher w

/-! ## Completing a `Context` -/

/-- The call `ctx->complete(r)`. -/
def Context.complete : Context → Int → World → Except Fault World
  | .caller tag, r, w => pure (w.emit (.complete tag r))
  | .report r on_finish, _, w => on_finish.complete r w
  | .stop_replayer, _, w => stop_instance_replayer w

/-! ## Teardown of the leader subsystems (source lines 637-742) -/

def handle_shut_down_image_map (_r : Int) (on_finish : Context) (w : World) :
    Except Fault World := do
  ceph_assert w.nr.m_image_map
  let w := { w with nr.m_image_map := false }
  deref w.nr.m_instance_replayer
  pure (w.issue .instance_replayer .release_all (.context on_finish))

def shut_down_image_map (on_finish : Context) (w : World) : Except Fault World :=
  if w.nr.m_image_map then
    pure (w.issue .image_map .shut_down (.handle_shut_down_image_map on_finish))
  else
    pure (w.queue on_finish 0)

def handle_shut_down_pool_watchers (_r : Int) (on_finish : Context) (w : World) :
    Except Fault World := do
  ceph_assert w.nr.m_local_pool_watcher
  let w := { w with nr.m_local_pool_watcher := false }
  let w := if w.nr.m_remote_pool_watcher then { w with nr.m_remote_pool_watcher := false } else w
  shut_down_image_map on_finish w

def shut_down_pool_watchers (on_finish : Context) (w : World) : Except Fault World :=
  if w.nr.m_local_pool_watcher then
    let subs := Subsystem.local_pool_watcher ::
      (if w.nr.m_remote_pool_watcher then [Subsystem.remote_pool_watcher] else [])
    let w := w.emit (.call .local_pool_watcher .shut_down)
    let w :=
      if w.nr.m_remote_pool_watcher then w.emit (.call .remote_pool_watcher .shut_down) else w
    pure { w with
      pending := w.pending ++ [Async.gather subs 0 (.handle_shut_down_pool_watchers on_finish)] }
  else
    on_finish.complete 0 w

def handle_shut_down_image_deleter (_r : Int) (on_finish : Context) (w : World) :
    Except Fault World := do
  ceph_assert w.nr.m_image_deleter
  let w := { w with nr.m_image_deleter := false }
  shut_down_pool_watchers on_finish w

def shut_down_image_deleter (on_finish : Context) (w : World) : Except Fault World :=
  if w.nr.m_image_deleter then
    pure (w.issue .image_deleter .shut_down (.handle_shut_down_image_deleter on_finish))
  else
    shut_down_pool_watchers on_finish w

/-! ## Startup of the leader subsystems (source lines 499-635) -/

def handle_init_image_deleter (r : Int) (on_finish : Context) (w : World) :
    Except Fault World :=
  if r < 0 then
    shut_down_image_deleter (.report r on_finish) w
  else
    on_finish.complete 0 w

def init_image_deleter (on_finish : Context) (w : World) : Except Fault World := do
  ceph_assert (!w.nr.m_image_deleter)
  let w := { w with nr.m_image_deleter := true }
  pure (w.issue .image_deleter .init (.handle_init_image_deleter on_finish))

def handle_init_remote_pool_watcher (r : Int) (on_finish : Context) (w : World) :
    Except Fault World :=
  if r = -ENOENT then
    init_image_deleter on_finish w
  else if r < 0 then
    shut_down_pool_watchers (.report r on_finish) w
  else
    init_image_deleter on_finish w

def init_remote_pool_watcher (on_finish : Context) (w : World) : Except Fault World := do
  ceph_assert (!w.nr.m_remote_pool_watcher)
  let w := { w with nr.m_remote_pool_watcher := true }
  pure (w.issue .remote_pool_watcher .init (.handle_init_remote_pool_watcher on_finish))

def handle_init_local_pool_watcher (r : Int) (on_finish : Context) (w : World) :
    Except Fault World :=
  if r < 0 then
    shut_down_pool_watchers (.report r on_finish) w
  else
    init_remote_pool_watcher on_finish w

def init_local_pool_watcher (on_finish : Context) (w : World) : Except Fault World := do
  ceph_assert (!w.nr.m_local_pool_watcher)
  let w := { w with nr.m_local_pool_watcher := true }
  pure (w.issue .local_pool_watcher .init (.handle_init_local_pool_watcher on_finish))

def handle_init_image_map (r : Int) (on_finish : Context) (w : World) : Except Fault World :=
  if r < 0 then
    shut_down_image_map (.report r on_finish) w
  else
    init_local_pool_watcher on_finish w

def init_image_map (on_finish : Context) (w : World) : Except Fault World := do
  ceph_assert (!w.nr.m_image_map)
  deref w.nr.m_instance_watcher
  let w := { w with nr.m_image_map := true }
  pure (w.issue .image_map .init (.handle_init_image_map on_finish))

/-! ## Leader role transitions and `shut_down` (source lines 87-109 and 211-226) -/

def handle_acquire_leader (on_finish : Context) (w : World) : Except Fault World := do
  deref w.nr.m_instance_watcher
  let w := w.emit .handle_acquire_leader
  init_image_map on_finish w

def handle_release_leader (on_finish : Context) (w : World) : Except Fault World := do
  deref w.nr.m_instance_watcher
  let w := w.emit .handle_release_leader
  shut_down_image_deleter on_finish w

def shut_down (on_finish : Context) (w : World) : Except Fault World := do
  ceph_assert (w.nr.m_on_finish == none)
  let w := { w with nr.m_on_finish := some on_finish }
  if !w.nr.m_image_map then
    stop_instance_replayer w
  else
    handle_release_leader .stop_replayer w

/-! ## Update forwarding (source lines 169-209) -/

/-- The call `std::set<std::string>::insert`: the set is kept as its elements in increasing
order, each once. -/
def set_insert (x : String) : List String → List String
  | [] => [x]
  | y :: ys =>
    if x < y then x :: y :: ys
    else if x = y then y :: ys
    else y :: set_insert x ys

/-- The loop `for (auto& image_id : image_ids) { global_image_ids.insert(image_id.global_id); }`
started from the empty set. -/
def global_image_ids (image_ids : List ImageId) : List String :=
  image_ids.foldl (fun ids image_id => set_insert image_id.global_id ids) []

def handle_update (mirror_uuid : String) (added_image_ids removed_image_ids : List ImageId)
    (w : World) : Except Fault World :=
  if !w.nr.m_image_map then
    pure w
  else do
    let w ←
      if w.nr.m_local_io_ctx.nspace.isEmpty then do
        deref w.nr.m_local_pool_watcher
        let w := w.emit (.add_or_update_attribute w.nr.m_local_io_ctx.pool_id
          SERVICE_DAEMON_LOCAL_COUNT_KEY (.num w.env.local_image_count))
        pure (if w.nr.m_remote_pool_watcher then
          w.emit (.add_or_update_attribute w.nr.m_local_io_ctx.pool_id
            SERVICE_DAEMON_REMOTE_COUNT_KEY (.num w.env.remote_image_count))
        else w)
      else pure w
    let added_global_image_ids := global_image_ids added_image_ids
    let removed_global_image_ids := global_image_ids removed_image_ids
    pure (w.emit (.update_images mirror_uuid added_global_image_ids removed_global_image_ids))

/-! ## Instance topology, image removal, fencing (source lines 65-72, 236-256, 766-778) -/

def handle_instances_added (instance_ids : List String) (w : World) : Except Fault World := do
  ceph_assert w.nr.m_image_map
  pure (w.emit (.update_instances_added instance_ids))

def handle_instances_removed (instance_ids : List String) (w : World) : Except Fault World := do
  ceph_assert w.nr.m_image_map
  pure (w.emit (.update_instances_removed instance_ids))

def handle_remove_image (mirror_uuid global_image_id instance_id : String)
    (on_finish : Context) (w : World) : Except Fault World := do
  ceph_assert (!mirror_uuid.isEmpty)
  deref w.nr.m_instance_watcher
  pure (w.emit (.notify_peer_image_removed instance_id global_image_id mirror_uuid on_finish))

/-- The `const` member `is_blacklisted()`: each watcher is asked only when its slot is
non-empty (`&&` does not evaluate its right operand otherwise). -/
def is_blacklisted (w : World) : Bool :=
  (w.nr.m_local_pool_watcher && w.env.local_blacklisted) ||
    (w.nr.m_remote_pool_watcher && w.env.remote_blacklisted)

/-! ## The work queue: delivering completions -/

/-- Run the callback `cb` with result code `r`. -/
def dispatch : Callback → Int → World → Except Fault World
  | .handle_init_status_watcher, r, w => handle_init_status_watcher r w
  | .handle_init_instance_replayer, r, w => handle_init_instance_replayer r w
  | .handle_init_instance_watcher, r, w => handle_init_instance_watcher r w
  | .handle_stop_instance_replayer, r, w => handle_stop_instance_replayer r w
  | .handle_shut_down_instance_watcher, r, w => handle_shut_down_instance_watcher r w
  | .handle_shut_down_instance_replayer, r, w => handle_shut_down_instance_replayer r w
  | .handle_shut_down_status_watcher, r, w => handle_shut_down_status_watcher r w
  | .handle_init_image_map on_finish, r, w => handle_init_image_map r on_finish w
  | .handle_init_local_pool_watcher on_finish, r, w => handle_init_local_pool_watcher r on_finish w
  | .handle_init_remote_pool_watcher on_finish, r, w =>
    handle_init_remote_pool_watcher r on_finish w
  | .handle_init_image_deleter on_finish, r, w => handle_init_image_deleter r on_finish w
  | .handle_shut_down_image_deleter on_finish, r, w => handle_shut_down_image_deleter r on_finish w
  | .handle_shut_down_pool_watchers on_finish, r, w => handle_shut_down_pool_watchers r on_finish w
  | .handle_shut_down_image_map on_finish, r, w => handle_shut_down_image_map r on_finish w
  | .context on_finish, r, w => on_finish.complete r w

/-- Modelled from the spec: `C_Gather` (`include/Context.h`) is not among the sources; the
join fires once every sub-completion has completed, and its code is the first negative
code among them.  `handle_shut_down_pool_watchers` ignores that code. -/
def gather_result (result r : Int) : Int :=
  if r < 0 ∧ result = 0 then r else result

/-- Complete the oldest outstanding item: a subsystem operation completes with the
code the oracle injects, a gather completes its subs one at a time (in the order they
were started) and fires after the last one, a queued context runs with its own code. -/
def deliver (orc : Oracle) (w : World) : Except Fault World :=
  match w.pending with
  | [] => pure w
  | .call s op cb :: rest =>
    dispatch cb (orc s op) ({ w with pending := rest }.emit (.done s op (orc s op)))
  | .gather [] result cb :: rest =>
    dispatch cb result { w with pending := rest }
  | .gather [s] result cb :: rest =>
    dispatch cb (gather_result result (orc s .shut_down))
      ({ w with pending := rest }.emit (.done s .shut_down (orc s .shut_down)))
  | .gather (s :: subs) result cb :: rest =>
    pure ({ w with
      pending := .gather subs (gather_result result (orc s .shut_down)) cb :: rest }.emit
        (.done s .shut_down (orc s .shut_down)))
  | .queued ctx r :: rest =>
    ctx.complete r { w with pending := rest }

/-- Let the work queue run: `fuel` rounds of `deliver` (a round with nothing
outstanding changes nothing). -/
def run (orc : Oracle) : Nat → World → Except Fault World
  | 0, w => pure w
  | fuel + 1, w => deliver orc w >>= run orc fuel

/-- A freshly constructed root with nothing outstanding and nothing observed. -/
def World.fresh (nr : NamespaceReplayer) (env : Env) : World :=
  { nr := nr, env := env, pending := [], trace := [] }

/-- The code carried by an event that invokes the completion `tag`. -/
def Event.completion (tag : Nat) : Event → Option Int
  | .complete t r => if t = tag then some r else none
  | _ => none

/-- The codes with which the completion `tag` was invoked, in order. -/
def completions (tag : Nat) (es : List Event) : List Int :=
  es.filterMap (Event.completion tag)

/-! ## Observations on worlds -/

/-- The contents of the seven ownership slots (`true`: non-empty). -/
structure Slots where
  status_watcher : Bool
  instance_replayer : Bool
  instance_watcher : Bool
  image_map : Bool
  local_pool_watcher : Bool
  remote_pool_watcher : Bool
  image_deleter : Bool
  deriving DecidableEq, Repr

def NamespaceReplayer.slots (nr : NamespaceReplayer) : Slots :=
  { status_watcher := nr.m_status_watcher
    instance_replayer := nr.m_instance_replayer
    instance_watcher := nr.m_instance_watcher
    image_map := nr.m_image_map
    local_pool_watcher := nr.m_local_pool_watcher
    remote_pool_watcher := nr.m_remote_pool_watcher
    image_deleter := nr.m_image_deleter }

/-- No subsystem initialized. -/
def Slots.empty : Slots := ⟨false, false, false, false, false, false, false⟩
/-- Only the status watcher slot is non-empty. -/
def Slots.status_only : Slots := ⟨true, false, false, false, false, false, false⟩
/-- Status watcher, instance replayer and instance watcher: the state after `init`. -/
def Slots.base : Slots := ⟨true, true, true, false, false, false, false⟩
/-- All seven: the state while leader. -/
def Slots.all : Slots := ⟨true, true, true, true, true, true, true⟩

/-- The four leader slots are all empty or all non-empty. -/
def Slots.leader_uniform (s : Slots) : Bool :=
  (s.image_map && s.local_pool_watcher && s.remote_pool_watcher && s.image_deleter) ||
  (!s.image_map && !s.local_pool_watcher && !s.remote_pool_watcher && !s.image_deleter)

/-- No sequence is in flight: nothing outstanding and no pending completion. -/
def World.idle (w : World) : Bool :=
  w.pending.isEmpty && w.nr.m_on_finish.isNone

/-- The four lifecycle sequences. -/
inductive Sequence where
  | init
  | shut_down
  | handle_acquire_leader
  | handle_release_leader
  deriving DecidableEq, Repr

/-- Start a sequence with the caller's completion `tag`. -/
def Sequence.start : Sequence → Nat → World → Except Fault World
  | .init, tag, w => rbd.mirror.init (.caller tag) w
  | .shut_down, tag, w => rbd.mirror.shut_down (.caller tag) w
  | .handle_acquire_leader, tag, w => rbd.mirror.handle_acquire_leader (.caller tag) w
  | .handle_release_leader, tag, w => rbd.mirror.handle_release_leader (.caller tag) w

/-- Start a sequence and let every asynchronous step complete. -/
def Sequence.exec (seq : Sequence) (tag : Nat) (orc : Oracle) (w : World) : Except Fault World :=
  seq.start tag w >>= run orc 16

/-- The callers' contract: a sequence starts only when none is in flight; `init` on a root
without subsystems, `handle_acquire_leader` after a successful `init` while not leader,
`handle_release_leader` and `shut_down` after a successful `init`, leader or not. -/
def Sequence.pre : Sequence → World → Bool
  | .init, w => w.idle && w.nr.slots == Slots.empty
  | .shut_down, w => w.idle && (w.nr.slots == Slots.base || w.nr.slots == Slots.all)
  | .handle_acquire_leader, w => w.idle && w.nr.slots == Slots.base
  | .handle_release_leader, w => w.idle && (w.nr.slots == Slots.base || w.nr.slots == Slots.all)

/-- The worlds in which no sequence is in flight that can be reached from a freshly
constructed root by starting a sequence and letting it run to its end, with any injected
result codes.  A call that trips an assertion or goes through an empty slot reaches
nothing. -/
inductive Reachable : World → Prop where
  | fresh (name : String) (local_io_ctx remote_io_ctx : IoCtx)
      (local_mirror_uuid remote_mirror_uuid : String) (env : Env) :
      Reachable (World.fresh (NamespaceReplayer.create name local_io_ctx remote_io_ctx
        local_mirror_uuid remote_mirror_uuid) env)
  | step (w w1 w2 : World) (seq : Sequence) (tag : Nat) (orc : Oracle) (n : Nat) :
      Reachable w → w.idle = true → seq.start tag w = .ok w1 → run orc n w1 = .ok w2 →
      w2.idle = true → Reachable w2

/-- The first init step of `init` that fails does so with code `e`. -/
def init_fails_with (orc : Oracle) (e : Int) : Prop :=
  e < 0 ∧
    (orc .status_watcher .init = e ∨
     (0 ≤ orc .status_watcher .init ∧ orc .instance_replayer .init = e) ∨
     (0 ≤ orc .status_watcher .init ∧ 0 ≤ orc .instance_replayer .init ∧
       orc .instance_watcher .init = e))

/-- The first init step of `handle_acquire_leader` that aborts does so with code `e`
(`-ENOENT` from the remote pool watcher does not abort). -/
def acquire_fails_with (orc : Oracle) (e : Int) : Prop :=
  e < 0 ∧
    (orc .image_map .init = e ∨
     (0 ≤ orc .image_map .init ∧ orc .local_pool_watcher .init = e) ∨
     (0 ≤ orc .image_map .init ∧ 0 ≤ orc .local_pool_watcher .init ∧
       orc .remote_pool_watcher .init = e ∧ e ≠ -ENOENT) ∨
     (0 ≤ orc .image_map .init ∧ 0 ≤ orc .local_pool_watcher .init ∧
       (orc .remote_pool_watcher .init = -ENOENT ∨ 0 ≤ orc .remote_pool_watcher .init) ∧
       orc .image_deleter .init = e))

instance (orc : Oracle) (e : Int) : Decidable (init_fails_with orc e) :=
  inferInstanceAs (Decidable (_ ∧ _))

instance (orc : Oracle) (e : Int) : Decidable (acquire_fails_with orc e) :=
  inferInstanceAs (Decidable (_ ∧ _))

/-- The subsystems on which `shut_down` was called, in call order. -/
def unwound (es : List Event) : List Subsystem :=
  es.filterMap fun
    | .call s .shut_down => some s
    | _ => none

/-- The subsystems whose `init` was issued, in call order. -/
def started (es : List Event) : List Subsystem :=
  es.filterMap fun
    | .call s .init => some s
    | _ => none

/-- The subsystems whose `init` completed without a negative code, in completion order. -/
def succeeded (es : List Event) : List Subsystem :=
  es.filterMap fun
    | .done s .init r => if 0 ≤ r then some s else none
    | _ => none

/-- The order in which the leader unwind calls `shut_down`. -/
def unwind_order : List Subsystem :=
  [.image_deleter, .local_pool_watcher, .remote_pool_watcher, .image_map]

/-- The shutdown and release calls, their completions, and the caller's completion. -/
def teardown_events (es : List Event) : List Event :=
  es.filter fun
    | .call _ .shut_down => true
    | .done _ .shut_down _ => true
    | .call _ .release_all => true
    | .done _ .release_all _ => true
    | .complete _ _ => true
    | _ => false

/-- The startup events: the leadership notice to the instance watcher, the init calls and
their completions, and the registration of the remote peer. -/
def startup_events (es : List Event) : List Event :=
  es.filter fun
    | .handle_acquire_leader => true
    | .call _ .init => true
    | .done _ .init _ => true
    | .add_peer _ _ _ => true
    | _ => false

/-- The calls made to the fleet-health sink. -/
def sink_calls (es : List Event) : List Event :=
  es.filter fun
    | .add_or_update_attribute _ _ _ => true
    | _ => false

/-- The calls made to one of the four leader subsystems. -/
def leader_calls (es : List Event) : List Event :=
  es.filter fun
    | .call .image_map _ => true
    | .call .local_pool_watcher _ => true
    | .call .remote_pool_watcher _ => true
    | .call .image_deleter _ => true
    | .update_images _ _ _ => true
    | .update_instances_added _ => true
    | .update_instances_removed _ => true
    | _ => false

/-- An operation of a subsystem (or a join of such operations) has been issued and has
not completed yet. -/
def World.step_outstanding (w : World) : Bool :=
  w.pending.any fun
    | .call _ _ _ => true
    | .gather _ _ _ => true
    | .queued _ _ => false

/-- The oracle `orc`, except that the remote pool watcher's init returns 0. -/
def with_remote_ok (orc : Oracle) : Oracle :=
  fun s op => if s = .remote_pool_watcher ∧ op = .init then 0 else orc s op

/-- The event `e`, with the code of the remote pool watcher's init completion set to 0. -/
def Event.without_remote_code : Event → Event
  | .done .remote_pool_watcher .init _ => .done .remote_pool_watcher .init 0
  | e => e

/-! ### Sample inputs -/

/-- A freshly constructed root for the namespace `ns1` of pool 1, peer pool 2. -/
def sample_fresh_ns : World :=
  World.fresh (NamespaceReplayer.create "ns1" ⟨1, ""⟩ ⟨2, ""⟩ "local-uuid" "remote-uuid")
    ⟨"instance-1", 0, 0, false, false⟩

/-- A freshly constructed root for the root namespace of pool 1, peer pool 2. -/
def sample_fresh : World :=
  World.fresh (NamespaceReplayer.create "" ⟨1, ""⟩ ⟨2, ""⟩ "local-uuid" "remote-uuid")
    ⟨"instance-1", 0, 0, false, false⟩

/-- Every subsystem operation succeeds. -/
def all_ok : Oracle := fun _ _ => 0

/-- Every operation succeeds except `op` on `s`, which returns `r`. -/
def failing (s : Subsystem) (op : Op) (r : Int) : Oracle :=
  fun s1 op1 => if s1 = s ∧ op1 = op then r else 0

/-- The sample root after a successful `init`. -/
def sample_ready : World :=
  match Sequence.exec .init 1 all_ok sample_fresh with
  | .ok w => w
  | .error _ => sample_fresh

/-- The sample root after a successful `init` and a successful `handle_acquire_leader`. -/
def sample_leader : World :=
  match Sequence.exec .handle_acquire_leader 2 all_ok sample_ready with
  | .ok w => w
  | .error _ => sample_ready

/-- The sample root after `init`, once `handle_acquire_leader` has been called and while
its first step, the image map's init, is still outstanding. -/
def sample_acquiring : World :=
  match Sequence.start .handle_acquire_leader 2 sample_ready with
  | .ok w => w
  | .error _ => sample_ready

/-- The sample root after `init` with the image map present and the other three leader
slots as given: local pool watcher, remote pool watcher, image deleter. -/
def sample_with_image_map (lp rp id : Bool) : World :=
  { sample_ready with
    nr.m_image_map := true
    nr.m_local_pool_watcher := lp
    nr.m_remote_pool_watcher := rp
    nr.m_image_deleter := id }

/-! ## Definitions that support the proofs -/

/-- An operation issued and completed with the injected code. -/
def performed (orc : Oracle) (s : Subsystem) (op : Op) : List Event :=
  [.call s op, .done s op (orc s op)]

/-- The joined shutdown of the pool watchers: the calls are issued one after the other,
then they complete. -/
def joined (orc : Oracle) (remote : Bool) : List Event :=
  if remote then
    [.call .local_pool_watcher .shut_down, .call .remote_pool_watcher .shut_down,
     .done .local_pool_watcher .shut_down (orc .local_pool_watcher .shut_down),
     .done .remote_pool_watcher .shut_down (orc .remote_pool_watcher .shut_down)]
  else
    [.call .local_pool_watcher .shut_down,
     .done .local_pool_watcher .shut_down (orc .local_pool_watcher .shut_down)]

/-- The events of the base teardown. -/
def base_teardown (orc : Oracle) : List Event :=
  performed orc .instance_replayer .stop ++ performed orc .instance_watcher .shut_down ++
    performed orc .instance_replayer .shut_down ++ performed orc .status_watcher .shut_down

/-- The events of the leader teardown. -/
def leader_teardown (orc : Oracle) : List Event :=
  [.handle_release_leader] ++ performed orc .image_deleter .shut_down ++ joined orc true ++
    performed orc .image_map .shut_down ++ performed orc .instance_replayer .release_all

/-- Append the events one at a time. -/
def snoc_all (t : List Event) (es : List Event) : List Event :=
  es.foldl (fun t e => t ++ [e]) t

/-- The world with the given immutable fields, slots, sequencing fields and outstanding
items, in which `events` have been observed after `trace`. -/
@[reducible] def world_of (lu ru : String) (lio rio : IoCtx) (env : Env) (trace : List Event)
    (s : Slots) (fin : Option Context) (rv : Int) (pending : List Async)
    (events : List Event) : World :=
  ⟨⟨lu, ru, lio, rio, s.status_watcher, s.instance_replayer, s.instance_watcher, s.image_map,
    s.local_pool_watcher, s.remote_pool_watcher, s.image_deleter, fin, rv⟩, env, pending,
    snoc_all trace events⟩

/-- Status watcher and instance replayer only (transient during `init`). -/
def Slots.status_replayer : Slots := ⟨true, true, false, false, false, false, false⟩
/-- The base slots and the image map (transient during acquire). -/
def Slots.base_map : Slots := ⟨true, true, true, true, false, false, false⟩
/-- The base slots, the image map and the local pool watcher (transient during acquire). -/
def Slots.base_map_local : Slots := ⟨true, true, true, true, true, false, false⟩
/-- Everything but the image deleter (transient during acquire). -/
def Slots.base_map_pools : Slots := ⟨true, true, true, true, true, true, false⟩

/-- Exactly `n` rounds of `deliver`, then `k`. -/
def steps (orc : Oracle) : Nat → (World → Except Fault World) → World → Except Fault World
  | 0, k => k
  | n + 1, k => fun w => deliver orc w >>= steps orc n k

/-- The events of the first steps of `init`: status watcher init, instance replayer init,
registration of the remote peer, instance watcher init. -/
def base_startup (orc : Oracle) (remote_mirror_uuid : String) (remote_io_ctx : IoCtx) :
    Nat → List Event
  | 0 => []
  | 1 => performed orc .status_watcher .init
  | 2 => performed orc .status_watcher .init ++ performed orc .instance_replayer .init
  | 3 => performed orc .status_watcher .init ++ performed orc .instance_replayer .init ++
      [.add_peer remote_mirror_uuid remote_io_ctx.pool_id remote_io_ctx.nspace]
  | _ => performed orc .status_watcher .init ++ performed orc .instance_replayer .init ++
      [.add_peer remote_mirror_uuid remote_io_ctx.pool_id remote_io_ctx.nspace] ++
      performed orc .instance_watcher .init

/-- The events of the first `n` leader inits. -/
def leader_startup (orc : Oracle) : Nat → List Event
  | 0 => [.handle_acquire_leader]
  | 1 => [.handle_acquire_leader] ++ performed orc .image_map .init
  | 2 => [.handle_acquire_leader] ++ performed orc .image_map .init ++
      performed orc .local_pool_watcher .init
  | 3 => [.handle_acquire_leader] ++ performed orc .image_map .init ++
      performed orc .local_pool_watcher .init ++ performed orc .remote_pool_watcher .init
  | _ => [.handle_acquire_leader] ++ performed orc .image_map .init ++
      performed orc .local_pool_watcher .init ++ performed orc .remote_pool_watcher .init ++
      performed orc .image_deleter .init

/-- The end of every leader unwind: image map shutdown, then release-all. -/
def map_teardown (orc : Oracle) : List Event :=
  performed orc .image_map .shut_down ++ performed orc .instance_replayer .release_all

/-- The world reached from `w` with the given slots, sequencing fields and outstanding
items once `events` have been observed. -/
@[reducible] def World.settle (w : World) (s : Slots) (fin : Option Context) (rv : Int)
    (pending : List Async) (events : List Event) : World :=
  world_of w.nr.m_local_mirror_uuid w.nr.m_remote_mirror_uuid w.nr.m_local_io_ctx
    w.nr.m_remote_io_ctx w.env w.trace s fin rv pending events

/-- The events of `init`, by the first step that fails. -/
def init_trace (orc : Oracle) (tag : Nat) (w : World) : List Event :=
  if orc .status_watcher .init < 0 then
    base_startup orc w.nr.m_remote_mirror_uuid w.nr.m_remote_io_ctx 1 ++
      [.complete tag (orc .status_watcher .init)]
  else if orc .instance_replayer .init < 0 then
    base_startup orc w.nr.m_remote_mirror_uuid w.nr.m_remote_io_ctx 2 ++
      performed orc .status_watcher .shut_down ++ [.complete tag (orc .instance_replayer .init)]
  else if orc .instance_watcher .init < 0 then
    base_startup orc w.nr.m_remote_mirror_uuid w.nr.m_remote_io_ctx 4 ++
      performed orc .instance_replayer .shut_down ++ performed orc .status_watcher .shut_down ++
      [.complete tag (orc .instance_watcher .init)]
  else
    base_startup orc w.nr.m_remote_mirror_uuid w.nr.m_remote_io_ctx 4 ++
      (if w.nr.m_local_io_ctx.nspace.isEmpty then
        [.add_or_update_attribute w.nr.m_local_io_ctx.pool_id SERVICE_DAEMON_INSTANCE_ID_KEY
          (.str w.env.instance_id)] else []) ++
      [.complete tag 0]

/-- The slots `init` leaves behind, by the first step that fails. -/
def init_slots (orc : Oracle) : Slots :=
  if orc .status_watcher .init < 0 then Slots.status_only
  else if orc .instance_replayer .init < 0 then Slots.empty
  else if orc .instance_watcher .init < 0 then Slots.empty
  else Slots.base

/-- The recorded error `init` leaves behind. -/
def init_ret_val (orc : Oracle) (rv : Int) : Int :=
  if orc .status_watcher .init < 0 then rv
  else if orc .instance_replayer .init < 0 then 0
  else if orc .instance_watcher .init < 0 then 0
  else rv

/-- The remote pool watcher's init code aborts the acquire. -/
def remote_aborts (r : Int) : Prop := r < 0 ∧ r ≠ -ENOENT

instance (r : Int) : Decidable (remote_aborts r) :=
  inferInstanceAs (Decidable (_ ∧ _))

/-- The events of `handle_acquire_leader`, by the first init that aborts. -/
def acquire_trace (orc : Oracle) (tag : Nat) : List Event :=
  if orc .image_map .init < 0 then
    leader_startup orc 1 ++ map_teardown orc ++ [.complete tag (orc .image_map .init)]
  else if orc .local_pool_watcher .init < 0 then
    leader_startup orc 2 ++ joined orc false ++ map_teardown orc ++
      [.complete tag (orc .local_pool_watcher .init)]
  else if remote_aborts (orc .remote_pool_watcher .init) then
    leader_startup orc 3 ++ joined orc true ++ map_teardown orc ++
      [.complete tag (orc .remote_pool_watcher .init)]
  else if orc .image_deleter .init < 0 then
    leader_startup orc 4 ++ performed orc .image_deleter .shut_down ++ joined orc true ++
      map_teardown orc ++ [.complete tag (orc .image_deleter .init)]
  else
    leader_startup orc 4 ++ [.complete tag 0]

/-- The slots `handle_acquire_leader` leaves behind. -/
def acquire_slots (orc : Oracle) : Slots :=
  if orc .image_map .init < 0 then Slots.base
  else if orc .local_pool_watcher .init < 0 then Slots.base
  else if remote_aborts (orc .remote_pool_watcher .init) then Slots.base
  else if orc .image_deleter .init < 0 then Slots.base
  else Slots.all

/-- The code `init` completes with. -/
def init_code (orc : Oracle) : Int :=
  if orc .status_watcher .init < 0 then orc .status_watcher .init
  else if orc .instance_replayer .init < 0 then orc .instance_replayer .init
  else if orc .instance_watcher .init < 0 then orc .instance_watcher .init
  else 0

/-- The code `handle_acquire_leader` completes with. -/
def acquire_code (orc : Oracle) : Int :=
  if orc .image_map .init < 0 then orc .image_map .init
  else if orc .local_pool_watcher .init < 0 then orc .local_pool_watcher .init
  else if remote_aborts (orc .remote_pool_watcher .init) then orc .remote_pool_watcher .init
  else if orc .image_deleter .init < 0 then orc .image_deleter .init
  else 0

/-- The states in which no sequence is in flight: no error recorded and one of four slot
configurations. -/
def settled (w : World) : Prop :=
  w.idle = true ∧ w.nr.m_ret_val = 0 ∧
    (w.nr.slots = Slots.empty ∨ w.nr.slots = Slots.status_only ∨ w.nr.slots = Slots.base ∨
      w.nr.slots = Slots.all)

/-! ### The pending completion field -/

/-- The context ends in the lambda of `shut_down` rather than in a caller's completion. -/
def Context.stops : Context → Bool
  | .caller _ => false
  | .report _ on_finish => on_finish.stops
  | .stop_replayer => true

/-- The handler carries no caller's completion: it has no `on_finish` argument, or one
that ends in the lambda of `shut_down`. -/
def Callback.stops : Callback → Bool
  | .handle_init_image_map on_finish => on_finish.stops
  | .handle_init_local_pool_watcher on_finish => on_finish.stops
  | .handle_init_remote_pool_watcher on_finish => on_finish.stops
  | .handle_init_image_deleter on_finish => on_finish.stops
  | .handle_shut_down_image_deleter on_finish => on_finish.stops
  | .handle_shut_down_pool_watchers on_finish => on_finish.stops
  | .handle_shut_down_image_map on_finish => on_finish.stops
  | .context on_finish => on_finish.stops
  | _ => true

/-- The outstanding item carries no caller's completion. -/
def Async.stops : Async → Bool
  | .call _ _ cb => cb.stops
  | .gather _ _ cb => cb.stops
  | .queued ctx _ => ctx.stops

/-- What one handler can do to a world with pending completion `fin`, trace `t` and nothing
else outstanding: leave one item outstanding, invoke a caller's completion, or take the
pending completion out of its field and queue it. -/
def step_effect (stops : Bool) (fin : Option Context) (t : List Event) (w' : World) : Prop :=
  (w'.nr.m_on_finish = fin ∧ (∃ a, w'.pending = [a] ∧ a.stops = stops) ∧
    ∀ tag, completions tag w'.trace = completions tag t) ∨
  (w'.nr.m_on_finish = fin ∧ w'.pending = [] ∧ stops = false) ∨
  (∃ c r, fin = some c ∧ w'.nr.m_on_finish = none ∧ w'.pending = [.queued c r] ∧
    stops = true ∧ ∀ tag, completions tag w'.trace = completions tag t)

/-- The stages of a sequence that keeps its completion in `m_on_finish`: a step is
outstanding and the field holds the completion; the completion has been taken out of the
field and queued; the completion has been invoked.  `cs` are the codes the completion
`tag` had been invoked with before the sequence. -/
def in_flight (tag : Nat) (cs : List Int) (w : World) : Prop :=
  (w.nr.m_on_finish = some (.caller tag) ∧ (∃ a, w.pending = [a] ∧ a.stops = true) ∧
    completions tag w.trace = cs) ∨
  (w.nr.m_on_finish = none ∧ (∃ r, w.pending = [.queued (.caller tag) r]) ∧
    completions tag w.trace = cs) ∨
  (w.nr.m_on_finish = none ∧ w.pending = [])

/-- The pending completion field is empty and at most one item is outstanding. -/
def unset (w : World) : Prop :=
  w.nr.m_on_finish = none ∧ w.pending.length ≤ 1

/-- The slots from which `shut_down` runs to its completion: the three base slots are
non-empty and the leader slots are either all empty or hold at least the image map and
the local pool watcher. -/
def Slots.shut_down_ready (s : Slots) : Bool :=
  s.status_watcher && s.instance_replayer && s.instance_watcher &&
    ((s.image_map && s.local_pool_watcher) ||
      (!s.image_map && !s.local_pool_watcher && !s.remote_pool_watcher && !s.image_deleter))

/-- The events of `shut_down` from the slots `s`, up to the completion. -/
def shut_down_steps (orc : Oracle) (s : Slots) : List Event :=
  (if s.image_map then
    [.handle_release_leader] ++
      (if s.image_deleter then performed orc .image_deleter .shut_down else []) ++
      joined orc s.remote_pool_watcher ++ performed orc .image_map .shut_down ++
      performed orc .instance_replayer .release_all
  else []) ++ base_teardown orc

/-- The order in which `handle_acquire_leader` creates the leader subsystems. -/
def creation_order : List Subsystem :=
  [.image_map, .local_pool_watcher, .remote_pool_watcher, .image_deleter]

end rbd.mirror

/-!
# The plugin registry

A shallow embedding of `add`, `remove` and `get` of `src/common/PluginRegistry.cc`.

* A `std::map<std::string, V>` is the list of its entries; `find`, `count`, `operator[]`
  followed by an assignment, and `erase` are functions on that list.
* A `Plugin*` is an `Option Plugin`: `none` is the null pointer.
* `delete plugin; shared_lib_close(library)` is recorded by appending the library handle
  to `PluginRegistry.closed`.
-/

namespace ceph

/-- The errno `EEXIST`. -/
def EEXIST : Int := 17

/-- The errno `ENOENT`. -/
def ENOENT : Int := 2

/-- A `std::map<std::string, V>`. -/
@[reducible] def StdMap (V : Type) : Type := List (String × V)

/-- The call `m.find(k)`: the value at `k`, or `none` for `m.end()`. -/
def StdMap.find {V : Type} (k : String) : StdMap V → Option V
  | [] => none
  | (k1, v1) :: m => if k = k1 then some v1 else StdMap.find k m

/-- The call `m.count(k)`. -/
def StdMap.count {V : Type} (k : String) (m : StdMap V) : Nat :=
  if (StdMap.find k m).isSome then 1 else 0

/-- The statement `m[k] = v`: the entry at `k` is replaced, or a new entry is inserted at
its place in key order. -/
def StdMap.assign {V : Type} (k : String) (v : V) : StdMap V → StdMap V
  | [] => [(k, v)]
  | (k1, v1) :: m =>
    if k < k1 then (k, v) :: (k1, v1) :: m
    else if k = k1 then (k, v) :: m
    else (k1, v1) :: StdMap.assign k v m

/-- The call `m.erase(m.find(k))`: no entry is left at `k` (a map holds a key once). -/
def StdMap.erase {V : Type} (k : String) : StdMap V → StdMap V
  | [] => []
  | (k1, v1) :: m => if k = k1 then StdMap.erase k m else (k1, v1) :: StdMap.erase k m

/-- Modelled from the spec: `Plugin` (`PluginRegistry.h`) is not among the sources; the
functions use its member `library` only, a `shared_lib_handle_t`. -/
structure Plugin where
  library : Nat
  deriving DecidableEq, Repr

/-- Modelled from the spec: the class declaration (`PluginRegistry.h`) is not among the
sources; the members are the ones the functions and the constructor name. -/
structure PluginRegistry where
  /-- what `ceph_mutex_is_locked(lock)` returns -/
  lock : Bool
  loading : Bool
  disable_dlclose : Bool
  plugins : StdMap (StdMap (Option Plugin))
  /-- the library handles given to `shared_lib_close`, in order -/
  closed : List Nat
  deriving DecidableEq, Repr

/-- The constructor, with the lock taken or not. -/
def PluginRegistry.create (lock : Bool) : PluginRegistry :=
  { lock := lock, loading := false, disable_dlclose := false, plugins := [], closed := [] }

def PluginRegistry.remove (type name : String) (reg : PluginRegistry) :
    Except rbd.mirror.Fault (Int × PluginRegistry) := do
  rbd.mirror.ceph_assert reg.lock
  match StdMap.find type reg.plugins with
  | none => pure (-ENOENT, reg)
  | some names =>
    match StdMap.find name names with
    | none => pure (-ENOENT, reg)
    | some none => throw rbd.mirror.Fault.null_deref
    | some (some plugin) =>
      let library := plugin.library
      let names := StdMap.erase name names
      let plugins :=
        if names.isEmpty then StdMap.erase type reg.plugins
        else StdMap.assign type names reg.plugins
      pure (0, { reg with plugins := plugins, closed := reg.closed ++ [library] })

def PluginRegistry.add (type name : String) (plugin : Option Plugin) (reg : PluginRegistry) :
    Except rbd.mirror.Fault (Int × PluginRegistry) := do
  rbd.mirror.ceph_assert reg.lock
  if StdMap.count type reg.plugins != 0 &&
      StdMap.count name ((StdMap.find type reg.plugins).getD []) != 0 then
    pure (-EEXIST, reg)
  else
    let names := StdMap.assign name plugin ((StdMap.find type reg.plugins).getD [])
    pure (0, { reg with plugins := StdMap.assign type names reg.plugins })

def PluginRegistry.get (type name : String) (reg : PluginRegistry) :
    Except rbd.mirror.Fault (Option Plugin) := do
  rbd.mirror.ceph_assert reg.lock
  match StdMap.find type reg.plugins with
  | none => pure none
  | some names =>
    match StdMap.find name names with
    | none => pure none
    | some plugin => pure plugin

/-! ## Observations on registries -/

/-- The pair `(type, name)` is registered: `plugins` has an entry for `type` whose map has
an entry for `name`. -/
def PluginRegistry.registered (type name : String) (reg : PluginRegistry) : Bool :=
  match StdMap.find type reg.plugins with
  | none => false
  | some names => (StdMap.find name names).isSome

/-- No type maps to an empty name map. -/
def PluginRegistry.no_empty_type (reg : PluginRegistry) : Prop :=
  ∀ entry ∈ reg.plugins, entry.2 ≠ []

/-- A registry with the lock taken in which `erasure-code/jerasure` and `erasure-code/isa`
and `compressor/zlib` are registered. -/
def sample_registry : PluginRegistry :=
  { lock := true, loading := false, disable_dlclose := false
    plugins := [("compressor", [("zlib", some ⟨30⟩)]),
      ("erasure-code", [("isa", some ⟨10⟩), ("jerasure", some ⟨20⟩)])]
    closed := [] }

end ceph

namespace rbd.mirror

/-! ## Evaluation lemmas

Each handler that tests its result code gets one equation per branch; a sequence is
then followed from one test to the next by evaluation. -/

theorem run_idle (orc : Oracle) (n : Nat) (w : World) (h : w.pending = []) :
    run orc n w = .ok w := by
  induction n with
  | zero => rfl
  | succ n ih =>
    have hd : deliver orc w = .ok w := by simp only [deliver, h]; rfl
    show (deliver orc w >>= run orc n) = .ok w
    rw [hd]; exact ih

theorem run_steps (orc : Oracle) (m n : Nat) : run orc (n + m) = steps orc m (run orc n) := by
  induction m with
  | zero => rfl
  | succ m ih =>
    funext w
    show (deliver orc w >>= run orc (n + m)) = (deliver orc w >>= steps orc m (run orc n))
    rw [ih]

theorem run_add (orc : Oracle) (m n : Nat) (w : World) :
    run orc (m + n) w = (run orc m w >>= run orc n) := by
  induction m generalizing w with
  | zero => simp only [Nat.zero_add]; rfl
  | succ m ih =>
    rw [Nat.succ_add]
    show (deliver orc w >>= run orc (m + n)) = ((deliver orc w >>= run orc m) >>= run orc n)
    cases deliver orc w with
    | error e => rfl
    | ok w1 => exact ih w1

/-- A sequence that is over after `m` rounds stays over. -/
theorem finish (orc : Oracle) (m n : Nat) {x : Except Fault World} {w : World}
    (hx : (x >>= run orc m) = .ok w) (h : w.pending = []) :
    (x >>= run orc (m + n)) = .ok w := by
  cases x with
  | error e => cases hx
  | ok w1 =>
    show run orc (m + n) w1 = .ok w
    rw [run_add]
    have hx1 : run orc m w1 = .ok w := hx
    rw [hx1]
    exact run_idle orc n w h

theorem snoc_all_eq (t es : List Event) : snoc_all t es = t ++ es := by
  induction es generalizing t with
  | nil => simp [snoc_all]
  | cons e es ih =>
    have h := ih (t ++ [e])
    simp only [snoc_all, List.foldl_cons, List.append_assoc, List.singleton_append] at h ⊢
    exact h

theorem handle_init_status_watcher_neg {r : Int} (h : r < 0) (w : World) :
    handle_init_status_watcher r w =
      match w.nr.m_on_finish with
      | none => throw Fault.assertion
      | some on_finish => pure { w.queue on_finish r with nr.m_on_finish := none } :=
  if_pos h

theorem handle_init_status_watcher_ok {r : Int} (h : 0 ≤ r) (w : World) :
    handle_init_status_watcher r w = init_instance_replayer w :=
  if_neg (not_lt.mpr h)

theorem handle_init_instance_replayer_neg {r : Int} (h : r < 0) (w : World) :
    handle_init_instance_replayer r w =
      shut_down_status_watcher { w with nr.m_instance_replayer := false, nr.m_ret_val := r } :=
  if_pos h

theorem handle_init_instance_replayer_ok {r : Int} (h : 0 ≤ r) (w : World) :
    handle_init_instance_replayer r w =
      (deref w.nr.m_instance_replayer >>= fun _ =>
        init_instance_watcher (w.emit (.add_peer w.nr.m_remote_mirror_uuid
          w.nr.m_remote_io_ctx.pool_id w.nr.m_remote_io_ctx.nspace))) :=
  if_neg (not_lt.mpr h)

theorem handle_init_instance_watcher_neg {r : Int} (h : r < 0) (w : World) :
    handle_init_instance_watcher r w =
      shut_down_instance_replayer { w with nr.m_instance_watcher := false, nr.m_ret_val := r } :=
  if_pos h

theorem handle_init_instance_watcher_root {r : Int} (h : 0 ≤ r) (w : World)
    (hns : w.nr.m_local_io_ctx.nspace.isEmpty = true) (hiw : w.nr.m_instance_watcher = true)
    (c : Context) (hfin : w.nr.m_on_finish = some c) :
    handle_init_instance_watcher r w =
      .ok { (w.emit (.add_or_update_attribute w.nr.m_local_io_ctx.pool_id
        SERVICE_DAEMON_INSTANCE_ID_KEY (.str w.env.instance_id))).queue c 0 with
          nr.m_on_finish := none } := by
  simp only [handle_init_instance_watcher, if_neg (not_lt.mpr h), hns, if_true, deref, hiw,
    bind, Except.bind, pure, Except.pure, World.emit, hfin]

theorem handle_init_instance_watcher_sub {r : Int} (h : 0 ≤ r) (w : World)
    (hns : w.nr.m_local_io_ctx.nspace.isEmpty = false)
    (c : Context) (hfin : w.nr.m_on_finish = some c) :
    handle_init_instance_watcher r w = .ok { w.queue c 0 with nr.m_on_finish := none } := by
  simp only [handle_init_instance_watcher, if_neg (not_lt.mpr h), hns, Bool.false_eq_true,
    if_false, bind, Except.bind, pure, Except.pure, hfin]

theorem handle_init_image_map_neg {r : Int} (h : r < 0) (c : Context) (w : World) :
    handle_init_image_map r c w = shut_down_image_map (.report r c) w :=
  if_pos h

theorem handle_init_image_map_ok {r : Int} (h : 0 ≤ r) (c : Context) (w : World) :
    handle_init_image_map r c w = init_local_pool_watcher c w :=
  if_neg (not_lt.mpr h)

theorem handle_init_local_pool_watcher_neg {r : Int} (h : r < 0) (c : Context) (w : World) :
    handle_init_local_pool_watcher r c w = shut_down_pool_watchers (.report r c) w :=
  if_pos h

theorem handle_init_local_pool_watcher_ok {r : Int} (h : 0 ≤ r) (c : Context) (w : World) :
    handle_init_local_pool_watcher r c w = init_remote_pool_watcher c w :=
  if_neg (not_lt.mpr h)

theorem handle_init_remote_pool_watcher_neg {r : Int} (h : r < 0) (hne : r ≠ -ENOENT)
    (c : Context) (w : World) :
    handle_init_remote_pool_watcher r c w = shut_down_pool_watchers (.report r c) w := by
  simp only [handle_init_remote_pool_watcher, if_neg hne, if_pos h]

theorem handle_init_remote_pool_watcher_ok {r : Int} (h : r = -ENOENT ∨ 0 ≤ r)
    (c : Context) (w : World) :
    handle_init_remote_pool_watcher r c w = init_image_deleter c w := by
  rcases h with h | h
  · simp only [handle_init_remote_pool_watcher, if_pos h]
  · by_cases he : r = -ENOENT
    · simp only [handle_init_remote_pool_watcher, if_pos he]
    · simp only [handle_init_remote_pool_watcher, if_neg he, if_neg (not_lt.mpr h)]

theorem handle_init_image_deleter_neg {r : Int} (h : r < 0) (c : Context) (w : World) :
    handle_init_image_deleter r c w = shut_down_image_deleter (.report r c) w :=
  if_pos h

theorem handle_init_image_deleter_ok {r : Int} (h : 0 ≤ r) (c : Context) (w : World) :
    handle_init_image_deleter r c w = c.complete 0 w :=
  if_neg (not_lt.mpr h)

/-! ### `init` from the state in which every slot is empty -/

theorem init_stage1 (orc : Oracle) (tag : Nat) (lu ru : String) (lio rio : IoCtx) (env : Env)
    (trace : List Event) (rv : Int)
    (k : World → Except Fault World) :
    (init (.caller tag) (world_of lu ru lio rio env trace Slots.empty none rv []
          []) >>= steps orc 1 k) =
      (handle_init_status_watcher (orc .status_watcher .init)
        (world_of lu ru lio rio env trace Slots.status_only (some (.caller tag)) rv []
          (base_startup orc ru rio 1)) >>= k) := rfl

theorem init_stage2 (orc : Oracle) (tag : Nat) (lu ru : String) (lio rio : IoCtx) (env : Env)
    (trace : List Event) (rv : Int)
    (k : World → Except Fault World) :
    (init_instance_replayer
        (world_of lu ru lio rio env trace Slots.status_only (some (.caller tag)) rv []
          (base_startup orc ru rio 1)) >>= steps orc 1 k) =
      (handle_init_instance_replayer (orc .instance_replayer .init)
        (world_of lu ru lio rio env trace Slots.status_replayer (some (.caller tag)) rv []
          (base_startup orc ru rio 2)) >>= k) := rfl

theorem init_peer (orc : Oracle) (tag : Nat) (lu ru : String) (lio rio : IoCtx) (env : Env)
    (trace : List Event) (rv : Int)
    (h2 : 0 ≤ orc .instance_replayer .init) :
    handle_init_instance_replayer (orc .instance_replayer .init)
        (world_of lu ru lio rio env trace Slots.status_replayer (some (.caller tag)) rv []
          (base_startup orc ru rio 2)) =
      init_instance_watcher
        (world_of lu ru lio rio env trace Slots.status_replayer (some (.caller tag)) rv []
          (base_startup orc ru rio 3)) :=
  (handle_init_instance_replayer_ok h2 _).trans rfl

theorem init_stage3 (orc : Oracle) (tag : Nat) (lu ru : String) (lio rio : IoCtx) (env : Env)
    (trace : List Event) (rv : Int)
    (k : World → Except Fault World) :
    (init_instance_watcher
        (world_of lu ru lio rio env trace Slots.status_replayer (some (.caller tag)) rv []
          (base_startup orc ru rio 3)) >>= steps orc 1 k) =
      (handle_init_instance_watcher (orc .instance_watcher .init)
        (world_of lu ru lio rio env trace Slots.base (some (.caller tag)) rv []
          (base_startup orc ru rio 4)) >>= k) := rfl

/-- The status watcher fails to initialize: its slot stays non-empty. -/
theorem init_fail1 (orc : Oracle) (tag : Nat) (lu ru : String) (lio rio : IoCtx) (env : Env)
    (trace : List Event) (rv : Int)
    (h1 : orc .status_watcher .init < 0) :
    (init (.caller tag) (world_of lu ru lio rio env trace Slots.empty none rv []
          []) >>= run orc 16) =
      .ok (world_of lu ru lio rio env trace Slots.status_only none rv []
          (base_startup orc ru rio 1 ++ [.complete tag (orc .status_watcher .init)])) := by
  rw [run_steps orc 1 15, init_stage1, handle_init_status_watcher_neg h1]
  exact finish orc 1 14 (by rfl) rfl

/-- The instance replayer fails to initialize: the status watcher is shut down. -/
theorem init_fail2 (orc : Oracle) (tag : Nat) (lu ru : String) (lio rio : IoCtx) (env : Env)
    (trace : List Event) (rv : Int)
    (h1 : 0 ≤ orc .status_watcher .init) (h2 : orc .instance_replayer .init < 0) :
    (init (.caller tag) (world_of lu ru lio rio env trace Slots.empty none rv []
          []) >>= run orc 16) =
      .ok (world_of lu ru lio rio env trace Slots.empty none 0 []
          ((base_startup orc ru rio 2) ++ performed orc .status_watcher .shut_down ++
            [.complete tag (orc .instance_replayer .init)])) := by
  rw [run_steps orc 1 15, init_stage1, handle_init_status_watcher_ok h1,
    run_steps orc 1 14, init_stage2, handle_init_instance_replayer_neg h2]
  exact finish orc 2 12 (by rfl) rfl

/-- The instance watcher fails to initialize: replayer and status watcher are shut down. -/
theorem init_fail3 (orc : Oracle) (tag : Nat) (lu ru : String) (lio rio : IoCtx) (env : Env)
    (trace : List Event) (rv : Int)
    (h1 : 0 ≤ orc .status_watcher .init) (h2 : 0 ≤ orc .instance_replayer .init)
    (h3 : orc .instance_watcher .init < 0) :
    (init (.caller tag) (world_of lu ru lio rio env trace Slots.empty none rv []
          []) >>= run orc 16) =
      .ok (world_of lu ru lio rio env trace Slots.empty none 0 []
          ((base_startup orc ru rio 4) ++ performed orc .instance_replayer .shut_down ++
            performed orc .status_watcher .shut_down ++
            [.complete tag (orc .instance_watcher .init)])) := by
  rw [run_steps orc 1 15, init_stage1, handle_init_status_watcher_ok h1,
    run_steps orc 1 14, init_stage2, init_peer orc tag lu ru lio rio env trace rv h2,
    run_steps orc 1 13, init_stage3, handle_init_instance_watcher_neg h3]
  exact finish orc 3 10 (by rfl) rfl

/-- Every step succeeds; the instance id is published for the root namespace only. -/
theorem init_pass (orc : Oracle) (tag : Nat) (lu ru : String) (lio rio : IoCtx) (env : Env)
    (trace : List Event) (rv : Int)
    (h1 : 0 ≤ orc .status_watcher .init) (h2 : 0 ≤ orc .instance_replayer .init)
    (h3 : 0 ≤ orc .instance_watcher .init) :
    (init (.caller tag) (world_of lu ru lio rio env trace Slots.empty none rv []
          []) >>= run orc 16) =
      .ok (world_of lu ru lio rio env trace Slots.base none rv []
          ((base_startup orc ru rio 4) ++
            (if lio.nspace.isEmpty then
            [.add_or_update_attribute lio.pool_id SERVICE_DAEMON_INSTANCE_ID_KEY
              (.str env.instance_id)] else []) ++
            [.complete tag 0])) := by
  rw [run_steps orc 1 15, init_stage1, handle_init_status_watcher_ok h1,
    run_steps orc 1 14, init_stage2, init_peer orc tag lu ru lio rio env trace rv h2,
    run_steps orc 1 13, init_stage3]
  cases hns : lio.nspace.isEmpty
  · rw [handle_init_instance_watcher_sub h3 _ hns (.caller tag) rfl]
    exact finish orc 1 12 (by rfl) rfl
  · rw [handle_init_instance_watcher_root h3 _ hns rfl (.caller tag) rfl]
    exact finish orc 1 12 (by rfl) rfl

/-! ### `shut_down` and `handle_release_leader` -/

theorem shut_down_base (orc : Oracle) (tag : Nat) (lu ru : String) (lio rio : IoCtx) (env : Env)
    (trace : List Event) (rv : Int) :
    (shut_down (.caller tag) (world_of lu ru lio rio env trace Slots.base none rv []
          []) >>= run orc 16) =
      .ok (world_of lu ru lio rio env trace Slots.empty none 0 []
          (base_teardown orc ++ [.complete tag rv])) :=
  finish orc 5 11 (by rfl) rfl

theorem shut_down_leader (orc : Oracle) (tag : Nat) (lu ru : String) (lio rio : IoCtx) (env : Env)
    (trace : List Event) (rv : Int) :
    (shut_down (.caller tag) (world_of lu ru lio rio env trace Slots.all none rv []
          []) >>= run orc 16) =
      .ok (world_of lu ru lio rio env trace Slots.empty none 0 []
          (leader_teardown orc ++ base_teardown orc ++ [.complete tag rv])) :=
  finish orc 10 6 (by rfl) rfl

theorem release_leader (orc : Oracle) (tag : Nat) (lu ru : String) (lio rio : IoCtx) (env : Env)
    (trace : List Event) (rv : Int) :
    (handle_release_leader (.caller tag) (world_of lu ru lio rio env trace Slots.all none rv []
          []) >>= run orc 16) =
      .ok (world_of lu ru lio rio env trace Slots.base none rv []
          (leader_teardown orc ++
            [.complete tag (orc .instance_replayer .release_all)])) :=
  finish orc 5 11 (by rfl) rfl

theorem release_base (orc : Oracle) (tag : Nat) (lu ru : String) (lio rio : IoCtx) (env : Env)
    (trace : List Event) (rv : Int) :
    (handle_release_leader (.caller tag) (world_of lu ru lio rio env trace Slots.base none rv []
          []) >>= run orc 16) =
      .ok (world_of lu ru lio rio env trace Slots.base none rv []
          [.handle_release_leader, .complete tag 0]) :=
  finish orc 0 16 (by rfl) rfl

/-! ### `handle_acquire_leader` from the state after `init` -/

theorem acquire_stage1 (orc : Oracle) (tag : Nat) (lu ru : String) (lio rio : IoCtx) (env : Env)
    (trace : List Event) (rv : Int)
    (k : World → Except Fault World) :
    (handle_acquire_leader (.caller tag) (world_of lu ru lio rio env trace Slots.base none rv []
          []) >>= steps orc 1 k) =
      (handle_init_image_map (orc .image_map .init) (.caller tag)
        (world_of lu ru lio rio env trace Slots.base_map none rv []
          (leader_startup orc 1)) >>= k) := rfl

theorem acquire_stage2 (orc : Oracle) (tag : Nat) (lu ru : String) (lio rio : IoCtx) (env : Env)
    (trace : List Event) (rv : Int)
    (k : World → Except Fault World) :
    (init_local_pool_watcher (.caller tag)
        (world_of lu ru lio rio env trace Slots.base_map none rv []
          (leader_startup orc 1)) >>= steps orc 1 k) =
      (handle_init_local_pool_watcher (orc .local_pool_watcher .init) (.caller tag)
        (world_of lu ru lio rio env trace Slots.base_map_local none rv []
          (leader_startup orc 2)) >>= k) := rfl

theorem acquire_stage3 (orc : Oracle) (tag : Nat) (lu ru : String) (lio rio : IoCtx) (env : Env)
    (trace : List Event) (rv : Int)
    (k : World → Except Fault World) :
    (init_remote_pool_watcher (.caller tag)
        (world_of lu ru lio rio env trace Slots.base_map_local none rv []
          (leader_startup orc 2)) >>= steps orc 1 k) =
      (handle_init_remote_pool_watcher (orc .remote_pool_watcher .init) (.caller tag)
        (world_of lu ru lio rio env trace Slots.base_map_pools none rv []
          (leader_startup orc 3)) >>= k) := rfl

theorem acquire_stage4 (orc : Oracle) (tag : Nat) (lu ru : String) (lio rio : IoCtx) (env : Env)
    (trace : List Event) (rv : Int)
    (k : World → Except Fault World) :
    (init_image_deleter (.caller tag)
        (world_of lu ru lio rio env trace Slots.base_map_pools none rv []
          (leader_startup orc 3)) >>= steps orc 1 k) =
      (handle_init_image_deleter (orc .image_deleter .init) (.caller tag)
        (world_of lu ru lio rio env trace Slots.all none rv []
          (leader_startup orc 4)) >>= k) := rfl

/-- The image map fails to initialize. -/
theorem acquire_fail1 (orc : Oracle) (tag : Nat) (lu ru : String) (lio rio : IoCtx) (env : Env)
    (trace : List Event) (rv : Int)
    (h1 : orc .image_map .init < 0) :
    (handle_acquire_leader (.caller tag) (world_of lu ru lio rio env trace Slots.base none rv []
          []) >>= run orc 16) =
      .ok (world_of lu ru lio rio env trace Slots.base none rv []
          (leader_startup orc 1 ++ map_teardown orc ++
            [.complete tag (orc .image_map .init)])) := by
  rw [run_steps orc 1 15, acquire_stage1, handle_init_image_map_neg h1]
  exact finish orc 2 13 (by rfl) rfl

/-- The local pool watcher fails to initialize. -/
theorem acquire_fail2 (orc : Oracle) (tag : Nat) (lu ru : String) (lio rio : IoCtx) (env : Env)
    (trace : List Event) (rv : Int)
    (h1 : 0 ≤ orc .image_map .init) (h2 : orc .local_pool_watcher .init < 0) :
    (handle_acquire_leader (.caller tag) (world_of lu ru lio rio env trace Slots.base none rv []
          []) >>= run orc 16) =
      .ok (world_of lu ru lio rio env trace Slots.base none rv []
          (leader_startup orc 2 ++ joined orc false ++ map_teardown orc ++
            [.complete tag (orc .local_pool_watcher .init)])) := by
  rw [run_steps orc 1 15, acquire_stage1, handle_init_image_map_ok h1,
    run_steps orc 1 14, acquire_stage2, handle_init_local_pool_watcher_neg h2]
  exact finish orc 3 11 (by rfl) rfl

/-- The remote pool watcher fails to initialize with a code other than `-ENOENT`. -/
theorem acquire_fail3 (orc : Oracle) (tag : Nat) (lu ru : String) (lio rio : IoCtx) (env : Env)
    (trace : List Event) (rv : Int)
    (h1 : 0 ≤ orc .image_map .init) (h2 : 0 ≤ orc .local_pool_watcher .init)
    (h3 : orc .remote_pool_watcher .init < 0) (h3e : orc .remote_pool_watcher .init ≠ -ENOENT) :
    (handle_acquire_leader (.caller tag) (world_of lu ru lio rio env trace Slots.base none rv []
          []) >>= run orc 16) =
      .ok (world_of lu ru lio rio env trace Slots.base none rv []
          (leader_startup orc 3 ++ joined orc true ++ map_teardown orc ++
            [.complete tag (orc .remote_pool_watcher .init)])) := by
  rw [run_steps orc 1 15, acquire_stage1, handle_init_image_map_ok h1,
    run_steps orc 1 14, acquire_stage2, handle_init_local_pool_watcher_ok h2,
    run_steps orc 1 13, acquire_stage3, handle_init_remote_pool_watcher_neg h3 h3e]
  exact finish orc 4 9 (by rfl) rfl

/-- The image deleter fails to initialize. -/
theorem acquire_fail4 (orc : Oracle) (tag : Nat) (lu ru : String) (lio rio : IoCtx) (env : Env)
    (trace : List Event) (rv : Int)
    (h1 : 0 ≤ orc .image_map .init) (h2 : 0 ≤ orc .local_pool_watcher .init)
    (h3 : orc .remote_pool_watcher .init = -ENOENT ∨ 0 ≤ orc .remote_pool_watcher .init)
    (h4 : orc .image_deleter .init < 0) :
    (handle_acquire_leader (.caller tag) (world_of lu ru lio rio env trace Slots.base none rv []
          []) >>= run orc 16) =
      .ok (world_of lu ru lio rio env trace Slots.base none rv []
          (leader_startup orc 4 ++ performed orc .image_deleter .shut_down ++
            joined orc true ++ map_teardown orc ++
            [.complete tag (orc .image_deleter .init)])) := by
  rw [run_steps orc 1 15, acquire_stage1, handle_init_image_map_ok h1,
    run_steps orc 1 14, acquire_stage2, handle_init_local_pool_watcher_ok h2,
    run_steps orc 1 13, acquire_stage3, handle_init_remote_pool_watcher_ok h3,
    run_steps orc 1 12, acquire_stage4, handle_init_image_deleter_neg h4]
  exact finish orc 5 7 (by rfl) rfl

/-- Every leader init goes through (the remote one possibly with `-ENOENT`). -/
theorem acquire_pass (orc : Oracle) (tag : Nat) (lu ru : String) (lio rio : IoCtx) (env : Env)
    (trace : List Event) (rv : Int)
    (h1 : 0 ≤ orc .image_map .init) (h2 : 0 ≤ orc .local_pool_watcher .init)
    (h3 : orc .remote_pool_watcher .init = -ENOENT ∨ 0 ≤ orc .remote_pool_watcher .init)
    (h4 : 0 ≤ orc .image_deleter .init) :
    (handle_acquire_leader (.caller tag) (world_of lu ru lio rio env trace Slots.base none rv []
          []) >>= run orc 16) =
      .ok (world_of lu ru lio rio env trace Slots.all none rv []
          (leader_startup orc 4 ++ [.complete tag 0])) := by
  rw [run_steps orc 1 15, acquire_stage1, handle_init_image_map_ok h1,
    run_steps orc 1 14, acquire_stage2, handle_init_local_pool_watcher_ok h2,
    run_steps orc 1 13, acquire_stage3, handle_init_remote_pool_watcher_ok h3,
    run_steps orc 1 12, acquire_stage4, handle_init_image_deleter_ok h4]
  exact finish orc 0 12 (by rfl) rfl

/-! ### Calls outside the callers' contract -/

theorem shut_down_empty (tag : Nat) (lu ru : String) (lio rio : IoCtx) (env : Env)
    (trace : List Event) (rv : Int) :
    shut_down (.caller tag) (world_of lu ru lio rio env trace Slots.empty none rv []
          []) = .error .null_deref := rfl

theorem acquire_empty (tag : Nat) (lu ru : String) (lio rio : IoCtx) (env : Env)
    (trace : List Event) (rv : Int) :
    handle_acquire_leader (.caller tag) (world_of lu ru lio rio env trace Slots.empty none rv []
          []) = .error .null_deref := rfl

theorem release_empty (tag : Nat) (lu ru : String) (lio rio : IoCtx) (env : Env)
    (trace : List Event) (rv : Int) :
    handle_release_leader (.caller tag) (world_of lu ru lio rio env trace Slots.empty none rv []
          []) = .error .null_deref := rfl

theorem init_status_only (tag : Nat) (lu ru : String) (lio rio : IoCtx) (env : Env)
    (trace : List Event) (rv : Int) :
    init (.caller tag) (world_of lu ru lio rio env trace Slots.status_only none rv []
          []) = .error .assertion := rfl

theorem shut_down_status_only (tag : Nat) (lu ru : String) (lio rio : IoCtx) (env : Env)
    (trace : List Event) (rv : Int) :
    shut_down (.caller tag) (world_of lu ru lio rio env trace Slots.status_only none rv []
          []) = .error .null_deref := rfl

theorem acquire_status_only (tag : Nat) (lu ru : String) (lio rio : IoCtx) (env : Env)
    (trace : List Event) (rv : Int) :
    handle_acquire_leader (.caller tag)
        (world_of lu ru lio rio env trace Slots.status_only none rv []
          []) = .error .null_deref := rfl

theorem release_status_only (tag : Nat) (lu ru : String) (lio rio : IoCtx) (env : Env)
    (trace : List Event) (rv : Int) :
    handle_release_leader (.caller tag)
        (world_of lu ru lio rio env trace Slots.status_only none rv []
          []) = .error .null_deref := rfl

theorem init_base (tag : Nat) (lu ru : String) (lio rio : IoCtx) (env : Env)
    (trace : List Event) (rv : Int) :
    init (.caller tag) (world_of lu ru lio rio env trace Slots.base none rv []
          []) = .error .assertion := rfl

theorem init_leader (tag : Nat) (lu ru : String) (lio rio : IoCtx) (env : Env)
    (trace : List Event) (rv : Int) :
    init (.caller tag) (world_of lu ru lio rio env trace Slots.all none rv []
          []) = .error .assertion := rfl

theorem acquire_leader (tag : Nat) (lu ru : String) (lio rio : IoCtx) (env : Env)
    (trace : List Event) (rv : Int) :
    handle_acquire_leader (.caller tag) (world_of lu ru lio rio env trace Slots.all none rv []
          []) = .error .assertion := rfl

/-! ### Closed forms

The path lemmas above, collected: for every oracle the world a sequence ends in. -/

theorem settle_self (w : World) :
    w.settle w.nr.slots w.nr.m_on_finish w.nr.m_ret_val w.pending [] = w := rfl

theorem settle_of (w : World) (s : Slots) (hs : w.nr.slots = s) (hidle : w.idle = true) :
    w = w.settle s none w.nr.m_ret_val [] [] := by
  have h := settle_self w
  simp only [World.idle, Bool.and_eq_true, List.isEmpty_iff, Option.isNone_iff_eq_none] at hidle
  rw [hs, hidle.1, hidle.2] at h
  exact h.symm

theorem at_settled {α : Type} (f : World → α) {w : World} {s : Slots} (hs : w.nr.slots = s)
    (hidle : w.idle = true) {res : α}
    (h : f (w.settle s none w.nr.m_ret_val [] []) = res) : f w = res := by
  have hw := settle_of w s hs hidle
  rw [hw]
  exact h

theorem settle_trace (w : World) (s : Slots) (fin : Option Context) (rv : Int)
    (pending : List Async) (events : List Event) :
    (w.settle s fin rv pending events).trace = w.trace ++ events :=
  snoc_all_eq w.trace events

theorem init_run (orc : Oracle) (tag : Nat) (w : World) (hs : w.nr.slots = Slots.empty)
    (hidle : w.idle = true) :
    (init (.caller tag) w >>= run orc 16) =
      .ok (w.settle (init_slots orc) none (init_ret_val orc w.nr.m_ret_val) []
        (init_trace orc tag w)) := by
  refine at_settled (fun x => init (.caller tag) x >>= run orc 16) hs hidle ?_
  unfold init_slots init_ret_val init_trace
  split_ifs with h1 h2 h3 h4
  · exact init_fail1 orc tag _ _ _ _ _ _ _ h1
  · exact init_fail2 orc tag _ _ _ _ _ _ _ (not_lt.mp h1) h2
  · exact init_fail3 orc tag _ _ _ _ _ _ _ (not_lt.mp h1) (not_lt.mp h2) h3
  · have h := init_pass orc tag w.nr.m_local_mirror_uuid w.nr.m_remote_mirror_uuid
      w.nr.m_local_io_ctx w.nr.m_remote_io_ctx w.env w.trace w.nr.m_ret_val
      (not_lt.mp h1) (not_lt.mp h2) (not_lt.mp h3)
    rw [if_pos h4] at h
    exact h
  · have h := init_pass orc tag w.nr.m_local_mirror_uuid w.nr.m_remote_mirror_uuid
      w.nr.m_local_io_ctx w.nr.m_remote_io_ctx w.env w.trace w.nr.m_ret_val
      (not_lt.mp h1) (not_lt.mp h2) (not_lt.mp h3)
    rw [if_neg h4] at h
    exact h

theorem remote_passes {r : Int} (h : ¬ remote_aborts r) : r = -ENOENT ∨ 0 ≤ r := by
  unfold remote_aborts at h
  by_cases he : r = -ENOENT
  · exact Or.inl he
  · right
    by_contra hneg
    exact h ⟨not_le.mp hneg, he⟩

theorem acquire_run (orc : Oracle) (tag : Nat) (w : World) (hs : w.nr.slots = Slots.base)
    (hidle : w.idle = true) :
    (handle_acquire_leader (.caller tag) w >>= run orc 16) =
      .ok (w.settle (acquire_slots orc) none w.nr.m_ret_val [] (acquire_trace orc tag)) := by
  refine at_settled (fun x => handle_acquire_leader (.caller tag) x >>= run orc 16) hs hidle ?_
  unfold acquire_slots acquire_trace
  split_ifs with h1 h2 h3 h4
  · exact acquire_fail1 orc tag _ _ _ _ _ _ _ h1
  · exact acquire_fail2 orc tag _ _ _ _ _ _ _ (not_lt.mp h1) h2
  · exact acquire_fail3 orc tag _ _ _ _ _ _ _ (not_lt.mp h1) (not_lt.mp h2) h3.1 h3.2
  · exact acquire_fail4 orc tag _ _ _ _ _ _ _ (not_lt.mp h1) (not_lt.mp h2) (remote_passes h3) h4
  · exact acquire_pass orc tag _ _ _ _ _ _ _ (not_lt.mp h1) (not_lt.mp h2) (remote_passes h3)
      (not_lt.mp h4)

theorem shut_down_base_run (orc : Oracle) (tag : Nat) (w : World) (hs : w.nr.slots = Slots.base)
    (hidle : w.idle = true) :
    (shut_down (.caller tag) w >>= run orc 16) =
      .ok (w.settle Slots.empty none 0 []
        (base_teardown orc ++ [.complete tag w.nr.m_ret_val])) :=
  at_settled (fun x => shut_down (.caller tag) x >>= run orc 16) hs hidle
    (shut_down_base orc tag _ _ _ _ _ _ _)

theorem shut_down_leader_run (orc : Oracle) (tag : Nat) (w : World) (hs : w.nr.slots = Slots.all)
    (hidle : w.idle = true) :
    (shut_down (.caller tag) w >>= run orc 16) =
      .ok (w.settle Slots.empty none 0 []
        (leader_teardown orc ++ base_teardown orc ++ [.complete tag w.nr.m_ret_val])) :=
  at_settled (fun x => shut_down (.caller tag) x >>= run orc 16) hs hidle
    (shut_down_leader orc tag _ _ _ _ _ _ _)

theorem release_leader_run (orc : Oracle) (tag : Nat) (w : World) (hs : w.nr.slots = Slots.all)
    (hidle : w.idle = true) :
    (handle_release_leader (.caller tag) w >>= run orc 16) =
      .ok (w.settle Slots.base none w.nr.m_ret_val []
        (leader_teardown orc ++ [.complete tag (orc .instance_replayer .release_all)])) :=
  at_settled (fun x => handle_release_leader (.caller tag) x >>= run orc 16) hs hidle
    (release_leader orc tag _ _ _ _ _ _ _)

theorem release_base_run (orc : Oracle) (tag : Nat) (w : World) (hs : w.nr.slots = Slots.base)
    (hidle : w.idle = true) :
    (handle_release_leader (.caller tag) w >>= run orc 16) =
      .ok (w.settle Slots.base none w.nr.m_ret_val []
        [.handle_release_leader, .complete tag 0]) :=
  at_settled (fun x => handle_release_leader (.caller tag) x >>= run orc 16) hs hidle
    (release_base orc tag _ _ _ _ _ _ _)

/-! ## What the completion of each sequence carries -/

theorem completions_append (tag : Nat) (a b : List Event) :
    completions tag (a ++ b) = completions tag a ++ completions tag b := by
  simp [completions]

theorem completions_performed (tag : Nat) (orc : Oracle) (s : Subsystem) (op : Op) :
    completions tag (performed orc s op) = [] := by
  simp [completions, performed, Event.completion]

theorem completions_joined (tag : Nat) (orc : Oracle) (b : Bool) :
    completions tag (joined orc b) = [] := by
  cases b <;> simp [completions, joined, Event.completion]

theorem completions_complete (tag : Nat) (r : Int) :
    completions tag [Event.complete tag r] = [r] := by
  simp [completions, Event.completion]

theorem completions_base_teardown (tag : Nat) (orc : Oracle) :
    completions tag (base_teardown orc) = [] := by
  simp [base_teardown, completions_append, completions_performed]

theorem completions_leader_teardown (tag : Nat) (orc : Oracle) :
    completions tag (leader_teardown orc) = [] := by
  simp only [leader_teardown, completions_append, completions_performed, completions_joined]
  simp [completions, Event.completion]

theorem completions_map_teardown (tag : Nat) (orc : Oracle) :
    completions tag (map_teardown orc) = [] := by
  simp [map_teardown, completions_append, completions_performed]

theorem completions_leader_startup (tag : Nat) (orc : Oracle) (n : Nat) :
    completions tag (leader_startup orc n) = [] := by
  unfold leader_startup
  split <;> simp [completions, performed, Event.completion]

theorem completions_base_startup (tag : Nat) (orc : Oracle) (u : String) (io : IoCtx)
    (n : Nat) : completions tag (base_startup orc u io n) = [] := by
  unfold base_startup
  split <;> simp [completions, performed, Event.completion]

theorem completions_init_trace (tag : Nat) (orc : Oracle) (w : World) :
    completions tag (init_trace orc tag w) = [init_code orc] := by
  have hattr : ∀ a b c, completions tag [Event.add_or_update_attribute a b c] = [] := by
    intro a b c; simp [completions, Event.completion]
  have hnil : completions tag [] = [] := rfl
  unfold init_trace init_code
  split_ifs <;>
    simp only [completions_append, completions_performed, completions_complete,
      completions_base_startup, hattr, hnil, List.nil_append, List.append_nil]

theorem completions_acquire_trace (tag : Nat) (orc : Oracle) :
    completions tag (acquire_trace orc tag) = [acquire_code orc] := by
  unfold acquire_trace acquire_code
  split_ifs <;>
    simp only [completions_append, completions_performed, completions_complete,
      completions_joined, completions_map_teardown, completions_leader_startup,
      List.nil_append, List.append_nil]

theorem pre_init {w : World} (h : Sequence.pre .init w = true) :
    w.idle = true ∧ w.nr.slots = Slots.empty := by
  simpa [Sequence.pre] using h

theorem pre_acquire {w : World} (h : Sequence.pre .handle_acquire_leader w = true) :
    w.idle = true ∧ w.nr.slots = Slots.base := by
  simpa [Sequence.pre] using h

theorem pre_shut_down {w : World} (h : Sequence.pre .shut_down w = true) :
    w.idle = true ∧ (w.nr.slots = Slots.base ∨ w.nr.slots = Slots.all) := by
  simpa [Sequence.pre] using h

theorem pre_release {w : World} (h : Sequence.pre .handle_release_leader w = true) :
    w.idle = true ∧ (w.nr.slots = Slots.base ∨ w.nr.slots = Slots.all) := by
  simpa [Sequence.pre] using h

/-! ## Failing sequences -/

theorem init_code_of_fails {orc : Oracle} {e : Int} (h : init_fails_with orc e) :
    init_code orc = e := by
  obtain ⟨he, h | ⟨h1, h⟩ | ⟨h1, h2, h⟩⟩ := h
  · subst h; simp only [init_code, if_pos he]
  · subst h; simp only [init_code, if_neg (not_lt.mpr h1), if_pos he]
  · subst h; simp only [init_code, if_neg (not_lt.mpr h1), if_neg (not_lt.mpr h2), if_pos he]

theorem acquire_trace_of_fails {orc : Oracle} {e : Int} (tag : Nat)
    (h : acquire_fails_with orc e) :
    ∃ events, acquire_trace orc tag = events ++ [.complete tag e] ∧
      completions tag events = [] ∧
      Event.done .image_map .shut_down (orc .image_map .shut_down) ∈ events ∧
      (0 ≤ orc .image_map .init →
        Event.done .local_pool_watcher .shut_down (orc .local_pool_watcher .shut_down)
          ∈ events) ∧
      acquire_slots orc = Slots.base := by
  obtain ⟨he, h | ⟨h1, h⟩ | ⟨h1, h2, h, hne⟩ | ⟨h1, h2, h3, h⟩⟩ := h
  · subst h
    refine ⟨leader_startup orc 1 ++ map_teardown orc, ?_, ?_, ?_, ?_, ?_⟩
    · simp only [acquire_trace, if_pos he]
    · simp only [completions_append, completions_leader_startup, completions_map_teardown,
        List.append_nil]
    · simp [map_teardown, performed]
    · intro h0; exact absurd he (not_lt.mpr h0)
    · simp only [acquire_slots, if_pos he]
  · subst h
    refine ⟨leader_startup orc 2 ++ joined orc false ++ map_teardown orc, ?_, ?_, ?_, ?_, ?_⟩
    · simp only [acquire_trace, if_neg (not_lt.mpr h1), if_pos he]
    · simp only [completions_append, completions_leader_startup, completions_map_teardown,
        completions_joined, List.append_nil]
    · simp [map_teardown, performed]
    · intro _; simp [joined]
    · simp only [acquire_slots, if_neg (not_lt.mpr h1), if_pos he]
  · subst h
    have hab : remote_aborts (orc .remote_pool_watcher .init) := ⟨he, hne⟩
    refine ⟨leader_startup orc 3 ++ joined orc true ++ map_teardown orc, ?_, ?_, ?_, ?_, ?_⟩
    · simp only [acquire_trace, if_neg (not_lt.mpr h1), if_neg (not_lt.mpr h2), if_pos hab]
    · simp only [completions_append, completions_leader_startup, completions_map_teardown,
        completions_joined, List.append_nil]
    · simp [map_teardown, performed]
    · intro _; simp [joined]
    · simp only [acquire_slots, if_neg (not_lt.mpr h1), if_neg (not_lt.mpr h2), if_pos hab]
  · subst h
    have hab : ¬ remote_aborts (orc .remote_pool_watcher .init) := by
      rintro ⟨hlt, hne⟩
      rcases h3 with h3 | h3
      · exact hne h3
      · exact absurd hlt (not_lt.mpr h3)
    refine ⟨leader_startup orc 4 ++ performed orc .image_deleter .shut_down ++
      joined orc true ++ map_teardown orc, ?_, ?_, ?_, ?_, ?_⟩
    · simp only [acquire_trace, if_neg (not_lt.mpr h1), if_neg (not_lt.mpr h2), if_neg hab,
        if_pos he]
    · simp only [completions_append, completions_leader_startup, completions_map_teardown,
        completions_joined, completions_performed, List.append_nil]
    · simp [map_teardown, performed]
    · intro _; simp [joined]
    · simp only [acquire_slots, if_neg (not_lt.mpr h1), if_neg (not_lt.mpr h2), if_neg hab,
        if_pos he]

theorem unwound_of_fails {orc : Oracle} {e : Int} (tag : Nat) (h : acquire_fails_with orc e) :
    unwound (acquire_trace orc tag) =
      unwind_order.filter (fun s => decide (s ∈ started (acquire_trace orc tag))) := by
  obtain ⟨he, h | ⟨h1, h⟩ | ⟨h1, h2, h, hne⟩ | ⟨h1, h2, h3, h⟩⟩ := h
  · subst h
    simp only [acquire_trace, if_pos he]
    rfl
  · subst h
    simp only [acquire_trace, if_neg (not_lt.mpr h1), if_pos he]
    rfl
  · subst h
    have hab : remote_aborts (orc .remote_pool_watcher .init) := ⟨he, hne⟩
    simp only [acquire_trace, if_neg (not_lt.mpr h1), if_neg (not_lt.mpr h2), if_pos hab]
    rfl
  · subst h
    have hab : ¬ remote_aborts (orc .remote_pool_watcher .init) := by
      rintro ⟨hlt, hne⟩
      rcases h3 with h3 | h3
      · exact hne h3
      · exact absurd hlt (not_lt.mpr h3)
    simp only [acquire_trace, if_neg (not_lt.mpr h1), if_neg (not_lt.mpr h2), if_neg hab,
      if_pos he]
    rfl

theorem completions_other (tag tag' : Nat) (r : Int) (h : tag' ≠ tag) :
    completions tag [Event.complete tag' r] = [] := by
  simp [completions, Event.completion, h]

/-! ## Reachable states -/

theorem run_det (orc : Oracle) (n m : Nat) (w w2 w3 : World) (h2 : run orc n w = .ok w2)
    (hp2 : w2.pending = []) (h3 : run orc m w = .ok w3) (hp3 : w3.pending = []) : w2 = w3 := by
  have e1 : run orc (n + m) w = .ok w2 := by
    rw [run_add, h2]; exact run_idle orc m w2 hp2
  have e2 : run orc (m + n) w = .ok w3 := by
    rw [run_add, h3]; exact run_idle orc n w3 hp3
  rw [Nat.add_comm] at e1
  rw [e1] at e2
  exact Except.ok.inj e2

theorem idle_pending {w : World} (h : w.idle = true) : w.pending = [] := by
  simp only [World.idle, Bool.and_eq_true, List.isEmpty_iff] at h
  exact h.1

/-- A sequence that was started and ran until idle ended where any other run of it ends. -/
theorem step_eq {f : World → Except Fault World} {orc : Oracle} {n m : Nat}
    {w w1 w2 wf : World}
    (hstart : f w = .ok w1) (hrun : run orc n w1 = .ok w2) (hidle : w2.idle = true)
    (hexec : (f w >>= run orc m) = .ok wf) (hf : wf.pending = []) : w2 = wf := by
  rw [hstart] at hexec
  exact run_det orc n m w1 w2 wf hrun (idle_pending hidle) hexec hf

theorem init_slots_cases (orc : Oracle) :
    init_slots orc = Slots.empty ∨ init_slots orc = Slots.status_only ∨
      init_slots orc = Slots.base ∨ init_slots orc = Slots.all := by
  unfold init_slots
  split_ifs <;> simp

theorem acquire_slots_cases (orc : Oracle) :
    acquire_slots orc = Slots.base ∨ acquire_slots orc = Slots.all := by
  unfold acquire_slots
  split_ifs <;> simp

theorem init_ret_val_zero (orc : Oracle) : init_ret_val orc 0 = 0 := by
  unfold init_ret_val
  split_ifs <;> rfl

theorem settled_step (w w1 w2 : World) (seq : Sequence) (tag : Nat) (orc : Oracle) (n : Nat)
    (hw : settled w) (hstart : seq.start tag w = .ok w1) (hrun : run orc n w1 = .ok w2)
    (hidle2 : w2.idle = true) : settled w2 := by
  obtain ⟨hidle, hrv, hs | hs | hs | hs⟩ := hw
  · -- no subsystem
    cases seq with
    | init =>
      have h := step_eq hstart hrun hidle2 (init_run orc tag w hs hidle) rfl
      subst h
      refine ⟨rfl, ?_, ?_⟩
      · show init_ret_val orc w.nr.m_ret_val = 0
        rw [hrv]; exact init_ret_val_zero orc
      · exact init_slots_cases orc
    | shut_down =>
      have h := at_settled (fun x => shut_down (.caller tag) x) hs hidle
        (shut_down_empty tag _ _ _ _ _ _ _)
      exact absurd (h.symm.trans hstart) (by simp)
    | handle_acquire_leader =>
      have h := at_settled (fun x => handle_acquire_leader (.caller tag) x) hs hidle
        (acquire_empty tag _ _ _ _ _ _ _)
      exact absurd (h.symm.trans hstart) (by simp)
    | handle_release_leader =>
      have h := at_settled (fun x => handle_release_leader (.caller tag) x) hs hidle
        (release_empty tag _ _ _ _ _ _ _)
      exact absurd (h.symm.trans hstart) (by simp)
  · -- the status watcher only
    cases seq with
    | init =>
      have h := at_settled (fun x => init (.caller tag) x) hs hidle
        (init_status_only tag _ _ _ _ _ _ _)
      exact absurd (h.symm.trans hstart) (by simp)
    | shut_down =>
      have h := at_settled (fun x => shut_down (.caller tag) x) hs hidle
        (shut_down_status_only tag _ _ _ _ _ _ _)
      exact absurd (h.symm.trans hstart) (by simp)
    | handle_acquire_leader =>
      have h := at_settled (fun x => handle_acquire_leader (.caller tag) x) hs hidle
        (acquire_status_only tag _ _ _ _ _ _ _)
      exact absurd (h.symm.trans hstart) (by simp)
    | handle_release_leader =>
      have h := at_settled (fun x => handle_release_leader (.caller tag) x) hs hidle
        (release_status_only tag _ _ _ _ _ _ _)
      exact absurd (h.symm.trans hstart) (by simp)
  · -- after `init`
    cases seq with
    | init =>
      have h := at_settled (fun x => init (.caller tag) x) hs hidle
        (init_base tag _ _ _ _ _ _ _)
      exact absurd (h.symm.trans hstart) (by simp)
    | shut_down =>
      have h := step_eq hstart hrun hidle2 (shut_down_base_run orc tag w hs hidle) rfl
      subst h
      exact ⟨rfl, rfl, Or.inl rfl⟩
    | handle_acquire_leader =>
      have h := step_eq hstart hrun hidle2 (acquire_run orc tag w hs hidle) rfl
      subst h
      refine ⟨rfl, hrv, ?_⟩
      rcases acquire_slots_cases orc with h | h
      · exact Or.inr (Or.inr (Or.inl h))
      · exact Or.inr (Or.inr (Or.inr h))
    | handle_release_leader =>
      have h := step_eq hstart hrun hidle2 (release_base_run orc tag w hs hidle) rfl
      subst h
      exact ⟨rfl, hrv, Or.inr (Or.inr (Or.inl rfl))⟩
  · -- leader
    cases seq with
    | init =>
      have h := at_settled (fun x => init (.caller tag) x) hs hidle
        (init_leader tag _ _ _ _ _ _ _)
      exact absurd (h.symm.trans hstart) (by simp)
    | shut_down =>
      have h := step_eq hstart hrun hidle2 (shut_down_leader_run orc tag w hs hidle) rfl
      subst h
      exact ⟨rfl, rfl, Or.inl rfl⟩
    | handle_acquire_leader =>
      have h := at_settled (fun x => handle_acquire_leader (.caller tag) x) hs hidle
        (acquire_leader tag _ _ _ _ _ _ _)
      exact absurd (h.symm.trans hstart) (by simp)
    | handle_release_leader =>
      have h := step_eq hstart hrun hidle2 (release_leader_run orc tag w hs hidle) rfl
      subst h
      exact ⟨rfl, hrv, Or.inr (Or.inr (Or.inl rfl))⟩

theorem reachable_settled {w : World} (h : Reachable w) : settled w := by
  induction h with
  | fresh name lio rio lu ru env => exact ⟨rfl, rfl, Or.inl rfl⟩
  | step w w1 w2 seq tag orc n _ _ hstart hrun hidle2 ih =>
    exact settled_step w w1 w2 seq tag orc n ih hstart hrun hidle2

theorem sample_ready_reachable : Reachable sample_ready :=
  Reachable.step sample_fresh _ sample_ready .init 1 all_ok 16
    (Reachable.fresh "" ⟨1, ""⟩ ⟨2, ""⟩ "local-uuid" "remote-uuid"
      ⟨"instance-1", 0, 0, false, false⟩)
    (by decide) rfl rfl (by decide)

theorem sample_leader_reachable : Reachable sample_leader :=
  Reachable.step sample_ready _ sample_leader .handle_acquire_leader 2 all_ok 16
    sample_ready_reachable (by decide) rfl rfl (by decide)

/-! ## The claims -/

/-- C1: every sequence (`init`, `shut_down`, `handle_acquire_leader`,
`handle_release_leader`) started from a state satisfying its precondition runs until
nothing is outstanding, whatever result codes are injected into the subsystem steps, and
invokes the caller's completion exactly once. -/
theorem completion_fires_exactly_once (seq : Sequence) (tag : Nat) (orc : Oracle) (w : World)
    (hpre : seq.pre w = true) :
    ∃ w' events, seq.exec tag orc w = .ok w' ∧ w'.idle = true ∧
      w'.trace = w.trace ++ events ∧ (completions tag events).length = 1 := by
  cases seq with
  | init =>
    obtain ⟨hidle, hs⟩ := pre_init hpre
    exact ⟨_, _, init_run orc tag w hs hidle, rfl, settle_trace _ _ _ _ _ _,
      by rw [completions_init_trace]; rfl⟩
  | shut_down =>
    obtain ⟨hidle, hs | hs⟩ := pre_shut_down hpre
    · exact ⟨_, _, shut_down_base_run orc tag w hs hidle, rfl, settle_trace _ _ _ _ _ _,
        by simp [completions_append, completions_base_teardown, completions_complete]⟩
    · exact ⟨_, _, shut_down_leader_run orc tag w hs hidle, rfl, settle_trace _ _ _ _ _ _,
        by simp [completions_append, completions_base_teardown, completions_leader_teardown,
          completions_complete]⟩
  | handle_acquire_leader =>
    obtain ⟨hidle, hs⟩ := pre_acquire hpre
    exact ⟨_, _, acquire_run orc tag w hs hidle, rfl, settle_trace _ _ _ _ _ _,
      by rw [completions_acquire_trace]; rfl⟩
  | handle_release_leader =>
    obtain ⟨hidle, hs | hs⟩ := pre_release hpre
    · exact ⟨_, _, release_base_run orc tag w hs hidle, rfl, settle_trace _ _ _ _ _ _,
        by simp [completions, Event.completion]⟩
    · exact ⟨_, _, release_leader_run orc tag w hs hidle, rfl, settle_trace _ _ _ _ _ _,
        by simp [completions_append, completions_leader_teardown, completions_complete]⟩

/-- C1 at a concrete input: `init` on the sample root with a failing instance watcher. -/
theorem completion_fires_exactly_once_witness :
    ∃ w' events, Sequence.exec .init 5 (failing .instance_watcher .init (-5)) sample_fresh
        = .ok w' ∧ w'.idle = true ∧
      w'.trace = sample_fresh.trace ++ events ∧ (completions 5 events).length = 1 :=
  completion_fires_exactly_once .init 5 (failing .instance_watcher .init (-5)) sample_fresh
    (by decide)

/-- C2, as stated, fails: on the sample root after a successful `init`, a `shut_down`
whose instance watcher shutdown completes with -5 (the only negative code of the sequence)
invokes the completion with 0, not with -5. -/
theorem shut_down_hides_teardown_error :
    ∃ w', Sequence.exec .shut_down 7 (failing .instance_watcher .shut_down (-5)) sample_ready
        = .ok w' ∧
      Event.done .instance_watcher .shut_down (-5) ∈ w'.trace ∧
      completions 7 w'.trace = [0] ∧ completions 7 w'.trace ≠ [-5] :=
  ⟨_, rfl, by decide, by decide, by decide⟩

/-- C2, amended: every `shut_down` (leader or not) invokes its completion with the value
the pending-error field held when `shut_down` was called, whatever result codes the
teardown steps return; on a root reached through completed sequences that value is 0. -/
theorem shut_down_completes_with_recorded_error (tag : Nat) (orc : Oracle) (w : World)
    (hpre : Sequence.pre .shut_down w = true) :
    ∃ w' events, Sequence.exec .shut_down tag orc w = .ok w' ∧ w'.idle = true ∧
      w'.trace = w.trace ++ events ∧ completions tag events = [w.nr.m_ret_val] ∧
      (Reachable w → w.nr.m_ret_val = 0) := by
  obtain ⟨hidle, hs | hs⟩ := pre_shut_down hpre
  · exact ⟨_, _, shut_down_base_run orc tag w hs hidle, rfl, settle_trace _ _ _ _ _ _,
      by simp [completions_append, completions_base_teardown, completions_complete],
      fun h => (reachable_settled h).2.1⟩
  · exact ⟨_, _, shut_down_leader_run orc tag w hs hidle, rfl, settle_trace _ _ _ _ _ _,
      by simp [completions_append, completions_base_teardown, completions_leader_teardown,
        completions_complete],
      fun h => (reachable_settled h).2.1⟩

/-- C2, amended, at a concrete input: the sample root after `init`, where the shutdown of
the instance watcher fails. -/
theorem shut_down_completes_with_recorded_error_witness :
    ∃ w' events, Sequence.exec .shut_down 7 (failing .instance_watcher .shut_down (-5))
        sample_ready = .ok w' ∧ w'.idle = true ∧
      w'.trace = sample_ready.trace ++ events ∧
      completions 7 events = [sample_ready.nr.m_ret_val] ∧
      (Reachable sample_ready → sample_ready.nr.m_ret_val = 0) :=
  shut_down_completes_with_recorded_error 7 (failing .instance_watcher .shut_down (-5))
    sample_ready (by decide)

/-- C3, as stated, fails: on the sample leader, a `handle_release_leader` whose image
deleter shutdown completes with -5 (the only negative code of the sequence) invokes the
completion with 0, not with -5. -/
theorem release_hides_shutdown_error :
    ∃ w', Sequence.exec .handle_release_leader 7 (failing .image_deleter .shut_down (-5))
        sample_leader = .ok w' ∧
      Event.done .image_deleter .shut_down (-5) ∈ w'.trace ∧
      completions 7 w'.trace = [0] ∧ completions 7 w'.trace ≠ [-5] :=
  ⟨_, rfl, by decide, by decide, by decide⟩

/-- C3, amended: every `handle_release_leader` started while leader invokes its completion
with the result code of the instance replayer's release-all, whatever codes the image
deleter, pool watcher and image map shutdowns return. -/
theorem release_completes_with_release_all_code (tag : Nat) (orc : Oracle) (w : World)
    (hidle : w.idle = true) (hs : w.nr.slots = Slots.all) :
    ∃ w' events, Sequence.exec .handle_release_leader tag orc w = .ok w' ∧ w'.idle = true ∧
      w'.trace = w.trace ++ events ∧
      completions tag events = [orc .instance_replayer .release_all] :=
  ⟨_, _, release_leader_run orc tag w hs hidle, rfl, settle_trace _ _ _ _ _ _,
    by simp [completions_append, completions_leader_teardown, completions_complete]⟩

/-- C3, amended, at a concrete input: the sample leader with a failing release-all and a
failing image deleter shutdown. -/
theorem release_completes_with_release_all_code_witness :
    ∃ w' events, Sequence.exec .handle_release_leader 7
        (fun s op => if s = .instance_replayer ∧ op = .release_all then -7 else -5)
        sample_leader = .ok w' ∧ w'.idle = true ∧
      w'.trace = sample_leader.trace ++ events ∧ completions 7 events = [-7] :=
  release_completes_with_release_all_code 7
    (fun s op => if s = .instance_replayer ∧ op = .release_all then -7 else -5)
    sample_leader (by decide) (by decide)

/-- C4: when a step of `init` fails with `e` (the init of the status watcher, of the instance
replayer or of the instance watcher), the completion is invoked with exactly `e`, whatever
result codes the unwind shutdown steps return. -/
theorem init_reports_first_error (tag : Nat) (orc : Oracle) (w : World) (e : Int)
    (hpre : Sequence.pre .init w = true) (hfail : init_fails_with orc e) :
    ∃ w' events, Sequence.exec .init tag orc w = .ok w' ∧ w'.idle = true ∧
      w'.trace = w.trace ++ events ∧ completions tag events = [e] := by
  obtain ⟨hidle, hs⟩ := pre_init hpre
  exact ⟨_, _, init_run orc tag w hs hidle, rfl, settle_trace _ _ _ _ _ _,
    by rw [completions_init_trace, init_code_of_fails hfail]⟩

/-- C4 at a concrete input: the instance watcher fails with -5 and every unwind shutdown
fails with -9. -/
theorem init_reports_first_error_witness :
    ∃ w' events, Sequence.exec .init 7
        (fun s op => if op = .shut_down then -9 else if s = .instance_watcher then -5 else 0)
        sample_fresh = .ok w' ∧ w'.idle = true ∧
      w'.trace = sample_fresh.trace ++ events ∧ completions 7 events = [-5] :=
  init_reports_first_error 7
    (fun s op => if op = .shut_down then -9 else if s = .instance_watcher then -5 else 0)
    sample_fresh (-5) (by decide) (by decide)

/-- C5: when an init step of `handle_acquire_leader` aborts with a negative `e` (other
than the remote pool watcher returning `-ENOENT`), the completion is invoked once, with
exactly `e`, whatever the unwind steps return, and it is the last event: the image map
shutdown has completed before it, and so has the local pool watcher shutdown whenever the
local pool watcher had been created; both slots are empty afterwards. -/
theorem acquire_reports_first_error (tag : Nat) (orc : Oracle) (w : World) (e : Int)
    (hpre : Sequence.pre .handle_acquire_leader w = true) (hfail : acquire_fails_with orc e) :
    ∃ w' events, Sequence.exec .handle_acquire_leader tag orc w = .ok w' ∧ w'.idle = true ∧
      w'.trace = w.trace ++ events ++ [.complete tag e] ∧ completions tag events = [] ∧
      Event.done .image_map .shut_down (orc .image_map .shut_down) ∈ events ∧
      (0 ≤ orc .image_map .init →
        Event.done .local_pool_watcher .shut_down (orc .local_pool_watcher .shut_down)
          ∈ events) ∧
      w'.nr.m_image_map = false ∧ w'.nr.m_local_pool_watcher = false := by
  obtain ⟨hidle, hs⟩ := pre_acquire hpre
  obtain ⟨events, htrace, hnone, hmap, hlocal, hslots⟩ := acquire_trace_of_fails tag hfail
  refine ⟨_, events, acquire_run orc tag w hs hidle, rfl, ?_, hnone, hmap, hlocal, ?_, ?_⟩
  · rw [settle_trace, htrace, List.append_assoc]
  · show (acquire_slots orc).image_map = false
    rw [hslots]; rfl
  · show (acquire_slots orc).local_pool_watcher = false
    rw [hslots]; rfl

/-- C5 at a concrete input: the remote pool watcher fails with -5 and every unwind step
fails with -9. -/
theorem acquire_reports_first_error_witness :
    ∃ w' events, Sequence.exec .handle_acquire_leader 7
        (fun s op => if op = .shut_down ∨ op = .release_all then -9
          else if s = .remote_pool_watcher then -5 else 0)
        sample_ready = .ok w' ∧ w'.idle = true ∧
      w'.trace = sample_ready.trace ++ events ++ [.complete 7 (-5)] ∧
      completions 7 events = [] ∧
      Event.done .image_map .shut_down (-9) ∈ events ∧
      ((0 : Int) ≤ 0 → Event.done .local_pool_watcher .shut_down (-9) ∈ events) ∧
      w'.nr.m_image_map = false ∧ w'.nr.m_local_pool_watcher = false :=
  acquire_reports_first_error 7
    (fun s op => if op = .shut_down ∨ op = .release_all then -9
      else if s = .remote_pool_watcher then -5 else 0)
    sample_ready (-5) (by decide) (by decide)

/-- C6: in every state reachable from a freshly constructed root through completed
sequences (`init`, `handle_acquire_leader`, `handle_release_leader`, `shut_down`, with any
injected step results), the image map, local pool watcher, remote pool watcher and image
deleter slots are all empty or all non-empty. -/
theorem leader_slots_all_or_none (w : World) (h : Reachable w) :
    w.nr.slots.leader_uniform = true := by
  obtain ⟨_, _, hs | hs | hs | hs⟩ := reachable_settled h <;> rw [hs] <;> rfl

/-- C6 at a concrete input: the sample root after `init` and `handle_acquire_leader`. -/
theorem leader_slots_all_or_none_witness :
    Reachable sample_leader ∧ sample_leader.nr.slots.leader_uniform = true :=
  ⟨sample_leader_reachable, leader_slots_all_or_none sample_leader sample_leader_reachable⟩

/-- C7, the code at the failing input: `init` on a fresh root whose status watcher init
returns -1 completes with -1 and leaves the status watcher slot non-empty, where a failing
init of the instance replayer or of the instance watcher leaves every slot empty. -/
theorem init_status_failure_keeps_status_watcher :
    (∃ w', Sequence.exec .init 7 (failing .status_watcher .init (-1)) sample_fresh = .ok w' ∧
      w'.idle = true ∧ completions 7 w'.trace = [-1] ∧
      w'.nr.slots = Slots.status_only ∧ w'.nr.m_status_watcher = true) ∧
    (∃ w', Sequence.exec .init 7 (failing .instance_replayer .init (-1)) sample_fresh = .ok w' ∧
      completions 7 w'.trace = [-1] ∧ w'.nr.slots = Slots.empty) ∧
    (∃ w', Sequence.exec .init 7 (failing .instance_watcher .init (-1)) sample_fresh = .ok w' ∧
      completions 7 w'.trace = [-1] ∧ w'.nr.slots = Slots.empty) :=
  ⟨⟨_, rfl, by decide, by decide, by decide, by decide⟩, ⟨_, rfl, by decide, by decide⟩,
    ⟨_, rfl, by decide, by decide⟩⟩

/-- C8, as stated, fails: when the image map init fails with -5 on the sample root after
`init`, no leader subsystem has been initialized successfully, yet `shut_down` is called
on the image map, the subsystem whose init failed. -/
theorem unwind_includes_failed_subsystem :
    ∃ w', Sequence.exec .handle_acquire_leader 7 (failing .image_map .init (-5)) sample_ready
        = .ok w' ∧
      Event.done .image_map .init (-5) ∈ w'.trace ∧
      succeeded (w'.trace.drop sample_ready.trace.length) = [] ∧
      unwound (w'.trace.drop sample_ready.trace.length) = [.image_map] ∧
      unwound (w'.trace.drop sample_ready.trace.length) ≠
        succeeded (w'.trace.drop sample_ready.trace.length) :=
  ⟨_, rfl, by decide, by decide, by decide, by decide⟩

/-- C8, amended: when an init step of `handle_acquire_leader` aborts, `shut_down` is
called during the unwind on exactly the leader subsystems whose init had been issued (the
one whose init failed included), each once, in the order image deleter, local pool
watcher, remote pool watcher, image map. -/
theorem unwind_covers_started_subsystems (tag : Nat) (orc : Oracle) (w : World) (e : Int)
    (hpre : Sequence.pre .handle_acquire_leader w = true) (hfail : acquire_fails_with orc e) :
    ∃ w' events, Sequence.exec .handle_acquire_leader tag orc w = .ok w' ∧
      w'.trace = w.trace ++ events ∧
      unwound events = unwind_order.filter (fun s => decide (s ∈ started events)) := by
  obtain ⟨hidle, hs⟩ := pre_acquire hpre
  exact ⟨_, _, acquire_run orc tag w hs hidle, settle_trace _ _ _ _ _ _,
    unwound_of_fails tag hfail⟩

/-- C8, amended, at a concrete input: the remote pool watcher init fails with -5. -/
theorem unwind_covers_started_subsystems_witness :
    ∃ w' events, Sequence.exec .handle_acquire_leader 7 (failing .remote_pool_watcher .init (-5))
        sample_ready = .ok w' ∧
      w'.trace = sample_ready.trace ++ events ∧
      unwound events = unwind_order.filter (fun s => decide (s ∈ started events)) :=
  unwind_covers_started_subsystems 7 (failing .remote_pool_watcher .init (-5)) sample_ready (-5)
    (by decide) (by decide)

/-- C9: for every injected step results, `shut_down` called while leader ends in the same
replayer state and invokes its completion with the same code as `handle_release_leader`
run to completion followed by `shut_down` as a non-leader. -/
theorem shut_down_leader_matches_release_then_shut_down (tag tag' : Nat) (orc : Oracle)
    (w : World) (hidle : w.idle = true) (hs : w.nr.slots = Slots.all) (hne : tag' ≠ tag) :
    ∃ w1 w2 w3 e1 e3,
      Sequence.exec .shut_down tag orc w = .ok w1 ∧
      Sequence.exec .handle_release_leader tag' orc w = .ok w2 ∧
      w2.idle = true ∧ w2.nr.slots = Slots.base ∧
      Sequence.exec .shut_down tag orc w2 = .ok w3 ∧
      w3.nr = w1.nr ∧ w1.nr.slots = Slots.empty ∧
      w1.trace = w.trace ++ e1 ∧ w3.trace = w.trace ++ e3 ∧
      completions tag e1 = completions tag e3 := by
  refine ⟨_, _, _, _,
    (leader_teardown orc ++ [.complete tag' (orc .instance_replayer .release_all)]) ++
      (base_teardown orc ++ [.complete tag w.nr.m_ret_val]),
    shut_down_leader_run orc tag w hs hidle, release_leader_run orc tag' w hs hidle, rfl, rfl,
    shut_down_base_run orc tag _ rfl rfl, rfl, rfl, settle_trace _ _ _ _ _ _, ?_, ?_⟩
  · rw [settle_trace, settle_trace, List.append_assoc]
  · simp only [completions_append, completions_leader_teardown, completions_base_teardown,
      completions_complete, completions_other tag tag' _ hne, List.nil_append, List.append_nil]

/-- C9 at a concrete input: the sample leader, every teardown step failing with -9. -/
theorem shut_down_leader_matches_release_then_shut_down_witness :
    ∃ w1 w2 w3 e1 e3,
      Sequence.exec .shut_down 7 (fun _ _ => -9) sample_leader = .ok w1 ∧
      Sequence.exec .handle_release_leader 8 (fun _ _ => -9) sample_leader = .ok w2 ∧
      w2.idle = true ∧ w2.nr.slots = Slots.base ∧
      Sequence.exec .shut_down 7 (fun _ _ => -9) w2 = .ok w3 ∧
      w3.nr = w1.nr ∧ w1.nr.slots = Slots.empty ∧
      w1.trace = sample_leader.trace ++ e1 ∧ w3.trace = sample_leader.trace ++ e3 ∧
      completions 7 e1 = completions 7 e3 :=
  shut_down_leader_matches_release_then_shut_down 7 8 (fun _ _ => -9) sample_leader
    (by decide) (by decide) (by decide)

/-- C10: `shut_down` called while leader issues its shutdown and release calls in the
order image deleter shutdown, local and remote pool watcher shutdown (joined), image map
shutdown, instance replayer release-all, instance watcher shutdown, instance replayer
shutdown, status watcher shutdown, each after the previous one has completed, and then
invokes the completion.  The full trace also shows the instance watcher being told of the
release first and the instance replayer being stopped after release-all. -/
theorem shut_down_leader_call_order (tag : Nat) (orc : Oracle) (w : World)
    (hidle : w.idle = true) (hs : w.nr.slots = Slots.all) :
    ∃ w' events, Sequence.exec .shut_down tag orc w = .ok w' ∧ w'.idle = true ∧
      w'.trace = w.trace ++ events ∧
      teardown_events events =
        [.call .image_deleter .shut_down,
         .done .image_deleter .shut_down (orc .image_deleter .shut_down),
         .call .local_pool_watcher .shut_down,
         .call .remote_pool_watcher .shut_down,
         .done .local_pool_watcher .shut_down (orc .local_pool_watcher .shut_down),
         .done .remote_pool_watcher .shut_down (orc .remote_pool_watcher .shut_down),
         .call .image_map .shut_down,
         .done .image_map .shut_down (orc .image_map .shut_down),
         .call .instance_replayer .release_all,
         .done .instance_replayer .release_all (orc .instance_replayer .release_all),
         .call .instance_watcher .shut_down,
         .done .instance_watcher .shut_down (orc .instance_watcher .shut_down),
         .call .instance_replayer .shut_down,
         .done .instance_replayer .shut_down (orc .instance_replayer .shut_down),
         .call .status_watcher .shut_down,
         .done .status_watcher .shut_down (orc .status_watcher .shut_down),
         .complete tag w.nr.m_ret_val] ∧
      events =
        [.handle_release_leader,
         .call .image_deleter .shut_down,
         .done .image_deleter .shut_down (orc .image_deleter .shut_down),
         .call .local_pool_watcher .shut_down,
         .call .remote_pool_watcher .shut_down,
         .done .local_pool_watcher .shut_down (orc .local_pool_watcher .shut_down),
         .done .remote_pool_watcher .shut_down (orc .remote_pool_watcher .shut_down),
         .call .image_map .shut_down,
         .done .image_map .shut_down (orc .image_map .shut_down),
         .call .instance_replayer .release_all,
         .done .instance_replayer .release_all (orc .instance_replayer .release_all),
         .call .instance_replayer .stop,
         .done .instance_replayer .stop (orc .instance_replayer .stop),
         .call .instance_watcher .shut_down,
         .done .instance_watcher .shut_down (orc .instance_watcher .shut_down),
         .call .instance_replayer .shut_down,
         .done .instance_replayer .shut_down (orc .instance_replayer .shut_down),
         .call .status_watcher .shut_down,
         .done .status_watcher .shut_down (orc .status_watcher .shut_down),
         .complete tag w.nr.m_ret_val] :=
  ⟨_, _, shut_down_leader_run orc tag w hs hidle, rfl, settle_trace _ _ _ _ _ _, rfl, rfl⟩

/-- C10 at a concrete input: the sample leader, every step succeeding. -/
theorem shut_down_leader_call_order_witness :
    ∃ w' events, Sequence.exec .shut_down 7 all_ok sample_leader = .ok w' ∧ w'.idle = true ∧
      w'.trace = sample_leader.trace ++ events ∧
      teardown_events events =
        [.call .image_deleter .shut_down, .done .image_deleter .shut_down 0,
         .call .local_pool_watcher .shut_down, .call .remote_pool_watcher .shut_down,
         .done .local_pool_watcher .shut_down 0, .done .remote_pool_watcher .shut_down 0,
         .call .image_map .shut_down, .done .image_map .shut_down 0,
         .call .instance_replayer .release_all, .done .instance_replayer .release_all 0,
         .call .instance_watcher .shut_down, .done .instance_watcher .shut_down 0,
         .call .instance_replayer .shut_down, .done .instance_replayer .shut_down 0,
         .call .status_watcher .shut_down, .done .status_watcher .shut_down 0,
         .complete 7 0] ∧
      events =
        [.handle_release_leader,
         .call .image_deleter .shut_down, .done .image_deleter .shut_down 0,
         .call .local_pool_watcher .shut_down, .call .remote_pool_watcher .shut_down,
         .done .local_pool_watcher .shut_down 0, .done .remote_pool_watcher .shut_down 0,
         .call .image_map .shut_down, .done .image_map .shut_down 0,
         .call .instance_replayer .release_all, .done .instance_replayer .release_all 0,
         .call .instance_replayer .stop, .done .instance_replayer .stop 0,
         .call .instance_watcher .shut_down, .done .instance_watcher .shut_down 0,
         .call .instance_replayer .shut_down, .done .instance_replayer .shut_down 0,
         .call .status_watcher .shut_down, .done .status_watcher .shut_down 0,
         .complete 7 0] :=
  shut_down_leader_call_order 7 all_ok sample_leader (by decide) (by decide)

/-! ## Successful startup -/

theorem init_code_of_pass {orc : Oracle} (h1 : 0 ≤ orc .status_watcher .init)
    (h2 : 0 ≤ orc .instance_replayer .init) (h3 : 0 ≤ orc .instance_watcher .init) :
    init_code orc = 0 ∧ init_slots orc = Slots.base := by
  simp only [init_code, init_slots, if_neg (not_lt.mpr h1), if_neg (not_lt.mpr h2),
    if_neg (not_lt.mpr h3), and_self]

theorem init_trace_of_pass {orc : Oracle} (tag : Nat) (w : World)
    (h1 : 0 ≤ orc .status_watcher .init) (h2 : 0 ≤ orc .instance_replayer .init)
    (h3 : 0 ≤ orc .instance_watcher .init) :
    init_trace orc tag w =
      base_startup orc w.nr.m_remote_mirror_uuid w.nr.m_remote_io_ctx 4 ++
        (if w.nr.m_local_io_ctx.nspace.isEmpty then
          [.add_or_update_attribute w.nr.m_local_io_ctx.pool_id SERVICE_DAEMON_INSTANCE_ID_KEY
            (.str w.env.instance_id)] else []) ++
        [.complete tag 0] := by
  simp only [init_trace, if_neg (not_lt.mpr h1), if_neg (not_lt.mpr h2), if_neg (not_lt.mpr h3)]

theorem startup_init_trace (orc : Oracle) (tag : Nat) (w : World) :
    startup_events (init_trace orc tag w) =
      [.call .status_watcher .init, .done .status_watcher .init (orc .status_watcher .init)] ++
        (if orc .status_watcher .init < 0 then [] else
          [.call .instance_replayer .init,
           .done .instance_replayer .init (orc .instance_replayer .init)] ++
          (if orc .instance_replayer .init < 0 then [] else
            [.add_peer w.nr.m_remote_mirror_uuid w.nr.m_remote_io_ctx.pool_id
               w.nr.m_remote_io_ctx.nspace,
             .call .instance_watcher .init,
             .done .instance_watcher .init (orc .instance_watcher .init)])) := by
  unfold init_trace
  split_ifs <;> rfl

theorem sink_calls_base_startup (orc : Oracle) (u : String) (io : IoCtx) (n : Nat) :
    sink_calls (base_startup orc u io n) = [] := by
  unfold base_startup
  split <;> rfl

theorem acquire_code_of_pass {orc : Oracle} (h1 : 0 ≤ orc .image_map .init)
    (h2 : 0 ≤ orc .local_pool_watcher .init)
    (h3 : ¬ remote_aborts (orc .remote_pool_watcher .init))
    (h4 : 0 ≤ orc .image_deleter .init) :
    acquire_code orc = 0 ∧ acquire_slots orc = Slots.all := by
  simp only [acquire_code, acquire_slots, if_neg (not_lt.mpr h1),
    if_neg (not_lt.mpr h2), if_neg h3, if_neg (not_lt.mpr h4), and_self]

theorem startup_acquire_trace (orc : Oracle) (tag : Nat) :
    startup_events (acquire_trace orc tag) =
      [.handle_acquire_leader,
       .call .image_map .init, .done .image_map .init (orc .image_map .init)] ++
        (if orc .image_map .init < 0 then [] else
          [.call .local_pool_watcher .init,
           .done .local_pool_watcher .init (orc .local_pool_watcher .init)] ++
          (if orc .local_pool_watcher .init < 0 then [] else
            [.call .remote_pool_watcher .init,
             .done .remote_pool_watcher .init (orc .remote_pool_watcher .init)] ++
            (if remote_aborts (orc .remote_pool_watcher .init) then [] else
              [.call .image_deleter .init,
               .done .image_deleter .init (orc .image_deleter .init)]))) := by
  unfold acquire_trace
  split_ifs <;> rfl

/-! ## The claims on startup -/

/-- C11: every `init` on a fresh root issues its startup calls in the order status watcher
init, instance replayer init, `add_peer` of the remote mirror uuid and remote pool handle
on the instance replayer, instance watcher init; each is issued after the completion of
the previous one, and only when that completion carried no negative code. -/
theorem init_call_order (tag : Nat) (orc : Oracle) (w : World)
    (hpre : Sequence.pre .init w = true) :
    ∃ w' events, Sequence.exec .init tag orc w = .ok w' ∧ w'.trace = w.trace ++ events ∧
      startup_events events =
        [.call .status_watcher .init, .done .status_watcher .init (orc .status_watcher .init)] ++
          (if orc .status_watcher .init < 0 then [] else
            [.call .instance_replayer .init,
             .done .instance_replayer .init (orc .instance_replayer .init)] ++
            (if orc .instance_replayer .init < 0 then [] else
              [.add_peer w.nr.m_remote_mirror_uuid w.nr.m_remote_io_ctx.pool_id
                 w.nr.m_remote_io_ctx.nspace,
               .call .instance_watcher .init,
               .done .instance_watcher .init (orc .instance_watcher .init)])) := by
  obtain ⟨hidle, hs⟩ := pre_init hpre
  exact ⟨_, _, init_run orc tag w hs hidle, settle_trace _ _ _ _ _ _,
    startup_init_trace orc tag w⟩

/-- C11 at a concrete input: the sample root, the instance replayer init failing with -5. -/
theorem init_call_order_witness :
    ∃ w' events, Sequence.exec .init 7 (failing .instance_replayer .init (-5)) sample_fresh
        = .ok w' ∧ w'.trace = sample_fresh.trace ++ events ∧
      startup_events events =
        [.call .status_watcher .init, .done .status_watcher .init 0] ++
          (if (0 : Int) < 0 then [] else
            [.call .instance_replayer .init, .done .instance_replayer .init (-5)] ++
            (if (-5 : Int) < 0 then [] else
              [.add_peer "remote-uuid" 2 "", .call .instance_watcher .init,
               .done .instance_watcher .init 0])) :=
  init_call_order 7 (failing .instance_replayer .init (-5)) sample_fresh (by decide)

/-- C12: an `init` on a fresh root in which every step succeeds invokes the completion
with 0; afterwards the status watcher, instance replayer and instance watcher slots are
non-empty, the four leader slots are empty and the pending completion is null. -/
theorem init_success (tag : Nat) (orc : Oracle) (w : World)
    (hpre : Sequence.pre .init w = true) (h1 : 0 ≤ orc .status_watcher .init)
    (h2 : 0 ≤ orc .instance_replayer .init) (h3 : 0 ≤ orc .instance_watcher .init) :
    ∃ w' events, Sequence.exec .init tag orc w = .ok w' ∧ w'.trace = w.trace ++ events ∧
      completions tag events = [0] ∧ w'.nr.slots = Slots.base ∧
      w'.nr.m_on_finish = none ∧ w'.pending = [] := by
  obtain ⟨hidle, hs⟩ := pre_init hpre
  refine ⟨_, _, init_run orc tag w hs hidle, settle_trace _ _ _ _ _ _, ?_, ?_, rfl, rfl⟩
  · rw [completions_init_trace, (init_code_of_pass h1 h2 h3).1]
  · exact (init_code_of_pass h1 h2 h3).2

/-- C12 at a concrete input: the sample root, every step succeeding. -/
theorem init_success_witness :
    ∃ w' events, Sequence.exec .init 7 all_ok sample_fresh = .ok w' ∧
      w'.trace = sample_fresh.trace ++ events ∧
      completions 7 events = [0] ∧ w'.nr.slots = Slots.base ∧
      w'.nr.m_on_finish = none ∧ w'.pending = [] :=
  init_success 7 all_ok sample_fresh (by decide) (by decide) (by decide) (by decide)

/-- C13, as stated, fails: on a fresh root for the namespace `ns1` an `init` in which every
step succeeds invokes the completion with 0 without any call to the fleet-health sink. -/
theorem init_in_namespace_publishes_nothing :
    ∃ w', Sequence.exec .init 7 all_ok sample_fresh_ns = .ok w' ∧
      completions 7 w'.trace = [0] ∧ sink_calls w'.trace = [] :=
  ⟨_, rfl, by decide, by decide⟩

/-- C13, amended: an `init` that succeeds on a root for the root namespace (empty name)
publishes the instance watcher's instance id to the fleet-health sink, under
`instance_id` and the local pool id, as its only sink call and as the last event before
the completion is invoked with 0; for a non-empty namespace it makes no sink call and
still invokes the completion with 0. -/
theorem init_publishes_instance_id_for_root_namespace (tag : Nat) (orc : Oracle) (w : World)
    (hpre : Sequence.pre .init w = true) (h1 : 0 ≤ orc .status_watcher .init)
    (h2 : 0 ≤ orc .instance_replayer .init) (h3 : 0 ≤ orc .instance_watcher .init) :
    ∃ w' events, Sequence.exec .init tag orc w = .ok w' ∧ w'.trace = w.trace ++ events ∧
      (w.nr.m_local_io_ctx.nspace.isEmpty = true →
        ∃ before, events = before ++
            [.add_or_update_attribute w.nr.m_local_io_ctx.pool_id "instance_id"
              (.str w.env.instance_id), .complete tag 0] ∧
          sink_calls before = [] ∧ completions tag before = []) ∧
      (w.nr.m_local_io_ctx.nspace.isEmpty = false →
        sink_calls events = [] ∧ completions tag events = [0]) := by
  obtain ⟨hidle, hs⟩ := pre_init hpre
  refine ⟨_, _, init_run orc tag w hs hidle, settle_trace _ _ _ _ _ _, ?_, ?_⟩
  · intro hns
    refine ⟨base_startup orc w.nr.m_remote_mirror_uuid w.nr.m_remote_io_ctx 4, ?_,
      sink_calls_base_startup _ _ _ _, completions_base_startup _ _ _ _ _⟩
    rw [init_trace_of_pass tag w h1 h2 h3, hns]
    simp only [if_true, List.append_assoc, List.singleton_append]
    rfl
  · intro hns
    rw [init_trace_of_pass tag w h1 h2 h3, hns]
    refine ⟨?_, ?_⟩
    · simp only [Bool.false_eq_true, if_false, List.append_nil, sink_calls,
        List.filter_append]
      have h := sink_calls_base_startup orc w.nr.m_remote_mirror_uuid w.nr.m_remote_io_ctx 4
      simp only [sink_calls] at h
      rw [h]; rfl
    · simp only [Bool.false_eq_true, if_false, List.append_nil, completions_append,
        completions_base_startup, completions_complete, List.nil_append]

/-- C13, amended, at a concrete input: the sample root (root namespace of pool 1). -/
theorem init_publishes_instance_id_for_root_namespace_witness :
    ∃ w' events, Sequence.exec .init 7 all_ok sample_fresh = .ok w' ∧
      w'.trace = sample_fresh.trace ++ events ∧
      ∃ before, events = before ++
          [.add_or_update_attribute 1 "instance_id" (.str "instance-1"), .complete 7 0] ∧
        sink_calls before = [] ∧ completions 7 before = [] :=
  let ⟨w', events, hexec, htrace, hroot, _⟩ :=
    init_publishes_instance_id_for_root_namespace 7 all_ok sample_fresh (by decide) (by decide)
      (by decide) (by decide)
  ⟨w', events, hexec, htrace, hroot (by decide)⟩

/-- C14: every `handle_acquire_leader` called after a successful `init` while not leader
first tells the instance watcher, then issues the inits in the order image map, local pool
watcher, remote pool watcher, image deleter, each after the completion of the previous
one and only when that completion did not abort the sequence (a negative code aborts,
except `-ENOENT` from the remote pool watcher); when none aborts, the completion is
invoked with 0 and all four leader slots are non-empty. -/
theorem acquire_call_order (tag : Nat) (orc : Oracle) (w : World)
    (hpre : Sequence.pre .handle_acquire_leader w = true) :
    ∃ w' events, Sequence.exec .handle_acquire_leader tag orc w = .ok w' ∧
      w'.trace = w.trace ++ events ∧
      startup_events events =
        [.handle_acquire_leader,
         .call .image_map .init, .done .image_map .init (orc .image_map .init)] ++
          (if orc .image_map .init < 0 then [] else
            [.call .local_pool_watcher .init,
             .done .local_pool_watcher .init (orc .local_pool_watcher .init)] ++
            (if orc .local_pool_watcher .init < 0 then [] else
              [.call .remote_pool_watcher .init,
               .done .remote_pool_watcher .init (orc .remote_pool_watcher .init)] ++
              (if remote_aborts (orc .remote_pool_watcher .init) then [] else
                [.call .image_deleter .init,
                 .done .image_deleter .init (orc .image_deleter .init)]))) ∧
      (0 ≤ orc .image_map .init → 0 ≤ orc .local_pool_watcher .init →
        ¬ remote_aborts (orc .remote_pool_watcher .init) → 0 ≤ orc .image_deleter .init →
        completions tag events = [0] ∧ w'.nr.slots = Slots.all ∧
          unwound events = []) := by
  obtain ⟨hidle, hs⟩ := pre_acquire hpre
  refine ⟨_, _, acquire_run orc tag w hs hidle, settle_trace _ _ _ _ _ _,
    startup_acquire_trace orc tag, ?_⟩
  intro h1 h2 h3 h4
  refine ⟨?_, (acquire_code_of_pass h1 h2 h3 h4).2, ?_⟩
  · rw [completions_acquire_trace, (acquire_code_of_pass h1 h2 h3 h4).1]
  · simp only [acquire_trace, if_neg (not_lt.mpr h1), if_neg (not_lt.mpr h2), if_neg h3,
      if_neg (not_lt.mpr h4)]
    rfl

/-- C14 at a concrete input: the sample root after `init`, every leader init succeeding. -/
theorem acquire_call_order_witness :
    ∃ w' events, Sequence.exec .handle_acquire_leader 7 all_ok sample_ready = .ok w' ∧
      w'.trace = sample_ready.trace ++ events ∧
      startup_events events =
        [.handle_acquire_leader, .call .image_map .init, .done .image_map .init 0,
         .call .local_pool_watcher .init, .done .local_pool_watcher .init 0,
         .call .remote_pool_watcher .init, .done .remote_pool_watcher .init 0,
         .call .image_deleter .init, .done .image_deleter .init 0] ∧
      completions 7 events = [0] ∧ w'.nr.slots = Slots.all ∧ unwound events = [] :=
  let ⟨w', events, hexec, htrace, horder, hpass⟩ :=
    acquire_call_order 7 all_ok sample_ready (by decide)
  ⟨w', events, hexec, htrace, horder, hpass (by decide) (by decide) (by decide) (by decide)⟩

/-! ## The benign remote failure -/

theorem with_remote_ok_acquire_trace {orc : Oracle} (tag : Nat)
    (h1 : 0 ≤ orc .image_map .init) (h2 : 0 ≤ orc .local_pool_watcher .init)
    (h3 : orc .remote_pool_watcher .init = -ENOENT) :
    (acquire_trace orc tag).map Event.without_remote_code =
        acquire_trace (with_remote_ok orc) tag ∧
      acquire_slots orc = acquire_slots (with_remote_ok orc) ∧
      startup_events (acquire_trace orc tag) =
        [.handle_acquire_leader,
         .call .image_map .init, .done .image_map .init (orc .image_map .init),
         .call .local_pool_watcher .init,
         .done .local_pool_watcher .init (orc .local_pool_watcher .init),
         .call .remote_pool_watcher .init, .done .remote_pool_watcher .init (-ENOENT),
         .call .image_deleter .init, .done .image_deleter .init (orc .image_deleter .init)] ∧
      (0 ≤ orc .image_deleter .init →
        acquire_code orc = 0 ∧ acquire_slots orc = Slots.all ∧
          unwound (acquire_trace orc tag) = []) := by
  have hab : ¬ remote_aborts (orc .remote_pool_watcher .init) := fun h => h.2 h3
  have hab0 : ¬ remote_aborts (0 : Int) := fun h => absurd h.1 (by decide)
  have e1 : with_remote_ok orc .image_map .init = orc .image_map .init := rfl
  have e2 : with_remote_ok orc .local_pool_watcher .init = orc .local_pool_watcher .init := rfl
  have e3 : with_remote_ok orc .remote_pool_watcher .init = 0 := rfl
  have e4 : with_remote_ok orc .image_deleter .init = orc .image_deleter .init := rfl
  by_cases h4 : orc .image_deleter .init < 0
  · simp only [acquire_trace, acquire_slots, e1, e2, e3, e4, if_neg (not_lt.mpr h1),
      if_neg (not_lt.mpr h2), if_neg hab, if_neg hab0, if_pos h4]
    refine ⟨rfl, trivial, ?_, fun h => absurd h4 (not_lt.mpr h)⟩
    simp only [leader_startup, performed, h3]
    rfl
  · simp only [acquire_trace, acquire_slots, acquire_code, e1, e2, e3, e4,
      if_neg (not_lt.mpr h1), if_neg (not_lt.mpr h2), if_neg hab, if_neg hab0, if_neg h4]
    refine ⟨rfl, trivial, ?_, fun _ => ⟨trivial, trivial, rfl⟩⟩
    simp only [leader_startup, performed, h3]
    rfl

/-- C15: when the remote pool watcher's init completes with `-ENOENT` during
`handle_acquire_leader`, no unwind is started: the image deleter init is issued next and
the sequence runs exactly as with a remote init returning 0 (same events but for that one
code, same final replayer state); if the image deleter init succeeds the completion is
invoked with 0, no `shut_down` has been called and all four leader slots, the remote pool
watcher's included, are non-empty. -/
theorem remote_enoent_is_benign (tag : Nat) (orc : Oracle) (w : World)
    (hpre : Sequence.pre .handle_acquire_leader w = true)
    (h1 : 0 ≤ orc .image_map .init) (h2 : 0 ≤ orc .local_pool_watcher .init)
    (h3 : orc .remote_pool_watcher .init = -ENOENT) :
    ∃ w' w0 events events0,
      Sequence.exec .handle_acquire_leader tag orc w = .ok w' ∧
      Sequence.exec .handle_acquire_leader tag (with_remote_ok orc) w = .ok w0 ∧
      w'.trace = w.trace ++ events ∧ w0.trace = w.trace ++ events0 ∧
      events.map Event.without_remote_code = events0 ∧ w'.nr = w0.nr ∧
      startup_events events =
        [.handle_acquire_leader,
         .call .image_map .init, .done .image_map .init (orc .image_map .init),
         .call .local_pool_watcher .init,
         .done .local_pool_watcher .init (orc .local_pool_watcher .init),
         .call .remote_pool_watcher .init, .done .remote_pool_watcher .init (-ENOENT),
         .call .image_deleter .init, .done .image_deleter .init (orc .image_deleter .init)] ∧
      (0 ≤ orc .image_deleter .init →
        completions tag events = [0] ∧ w'.nr.slots = Slots.all ∧
          w'.nr.m_remote_pool_watcher = true ∧ unwound events = []) := by
  obtain ⟨hidle, hs⟩ := pre_acquire hpre
  obtain ⟨hmap, hslots, hstart, hpass⟩ := with_remote_ok_acquire_trace tag h1 h2 h3
  refine ⟨_, _, _, _, acquire_run orc tag w hs hidle,
    acquire_run (with_remote_ok orc) tag w hs hidle, settle_trace _ _ _ _ _ _,
    settle_trace _ _ _ _ _ _, hmap, ?_, hstart, ?_⟩
  · show (w.settle (acquire_slots orc) none w.nr.m_ret_val [] _).nr =
      (w.settle (acquire_slots (with_remote_ok orc)) none w.nr.m_ret_val [] _).nr
    rw [hslots]
  · intro h4
    obtain ⟨hcode, hall, hunw⟩ := hpass h4
    refine ⟨?_, hall, ?_, hunw⟩
    · rw [completions_acquire_trace, hcode]
    · show (acquire_slots orc).remote_pool_watcher = true
      rw [hall]; rfl

/-- C15 at a concrete input: the sample root after `init`, the remote pool watcher's init
returning `-ENOENT` (-2). -/
theorem remote_enoent_is_benign_witness :
    ∃ w' w0 events events0,
      Sequence.exec .handle_acquire_leader 7 (failing .remote_pool_watcher .init (-2))
        sample_ready = .ok w' ∧
      Sequence.exec .handle_acquire_leader 7
        (with_remote_ok (failing .remote_pool_watcher .init (-2))) sample_ready = .ok w0 ∧
      w'.trace = sample_ready.trace ++ events ∧ w0.trace = sample_ready.trace ++ events0 ∧
      events.map Event.without_remote_code = events0 ∧ w'.nr = w0.nr ∧
      startup_events events =
        [.handle_acquire_leader, .call .image_map .init, .done .image_map .init 0,
         .call .local_pool_watcher .init, .done .local_pool_watcher .init 0,
         .call .remote_pool_watcher .init, .done .remote_pool_watcher .init (-2),
         .call .image_deleter .init, .done .image_deleter .init 0] ∧
      completions 7 events = [0] ∧ w'.nr.slots = Slots.all ∧
        w'.nr.m_remote_pool_watcher = true ∧ unwound events = [] :=
  let ⟨w', w0, events, events0, hexec, hexec0, htrace, htrace0, hmap, hnr, horder, hpass⟩ :=
    remote_enoent_is_benign 7 (failing .remote_pool_watcher .init (-2)) sample_ready
      (by decide) (by decide) (by decide) (by decide)
  ⟨w', w0, events, events0, hexec, hexec0, htrace, htrace0, hmap, hnr, horder,
    hpass (by decide)⟩

/-! ## The claims on teardown order -/

/-- C16: every `handle_release_leader` called while leader tells the instance watcher,
then issues image deleter shutdown, local and remote pool watcher shutdown (both issued,
the next step only after both completed), image map shutdown and instance replayer
`release_all`, each after the completion of the previous one and whatever its result
code; at completion the four leader slots are empty and the three base slots are still
non-empty. -/
theorem release_call_order (tag : Nat) (orc : Oracle) (w : World)
    (hidle : w.idle = true) (hs : w.nr.slots = Slots.all) :
    ∃ w' events, Sequence.exec .handle_release_leader tag orc w = .ok w' ∧
      w'.idle = true ∧ w'.trace = w.trace ++ events ∧
      events =
        [.handle_release_leader,
         .call .image_deleter .shut_down,
         .done .image_deleter .shut_down (orc .image_deleter .shut_down),
         .call .local_pool_watcher .shut_down,
         .call .remote_pool_watcher .shut_down,
         .done .local_pool_watcher .shut_down (orc .local_pool_watcher .shut_down),
         .done .remote_pool_watcher .shut_down (orc .remote_pool_watcher .shut_down),
         .call .image_map .shut_down,
         .done .image_map .shut_down (orc .image_map .shut_down),
         .call .instance_replayer .release_all,
         .done .instance_replayer .release_all (orc .instance_replayer .release_all),
         .complete tag (orc .instance_replayer .release_all)] ∧
      w'.nr.slots = Slots.base :=
  ⟨_, _, release_leader_run orc tag w hs hidle, rfl, settle_trace _ _ _ _ _ _, rfl, rfl⟩

/-- C16 at a concrete input: the sample leader, every teardown step failing with -9. -/
theorem release_call_order_witness :
    ∃ w' events, Sequence.exec .handle_release_leader 7 (fun _ _ => -9) sample_leader
        = .ok w' ∧
      w'.idle = true ∧ w'.trace = sample_leader.trace ++ events ∧
      events =
        [.handle_release_leader,
         .call .image_deleter .shut_down, .done .image_deleter .shut_down (-9),
         .call .local_pool_watcher .shut_down, .call .remote_pool_watcher .shut_down,
         .done .local_pool_watcher .shut_down (-9),
         .done .remote_pool_watcher .shut_down (-9),
         .call .image_map .shut_down, .done .image_map .shut_down (-9),
         .call .instance_replayer .release_all, .done .instance_replayer .release_all (-9),
         .complete 7 (-9)] ∧
      w'.nr.slots = Slots.base :=
  release_call_order 7 (fun _ _ => -9) sample_leader (by decide) (by decide)

/-- C17: every `shut_down` called after a successful `init` while not leader makes no call
to a leader subsystem and issues instance replayer stop, instance watcher shutdown,
instance replayer shutdown and status watcher shutdown, each after the completion of the
previous one and whatever its result code; at completion all seven slots are empty. -/
theorem shut_down_base_call_order (tag : Nat) (orc : Oracle) (w : World)
    (hidle : w.idle = true) (hs : w.nr.slots = Slots.base) :
    ∃ w' events, Sequence.exec .shut_down tag orc w = .ok w' ∧
      w'.idle = true ∧ w'.trace = w.trace ++ events ∧
      events =
        [.call .instance_replayer .stop,
         .done .instance_replayer .stop (orc .instance_replayer .stop),
         .call .instance_watcher .shut_down,
         .done .instance_watcher .shut_down (orc .instance_watcher .shut_down),
         .call .instance_replayer .shut_down,
         .done .instance_replayer .shut_down (orc .instance_replayer .shut_down),
         .call .status_watcher .shut_down,
         .done .status_watcher .shut_down (orc .status_watcher .shut_down),
         .complete tag w.nr.m_ret_val] ∧
      leader_calls events = [] ∧ w'.nr.slots = Slots.empty :=
  ⟨_, _, shut_down_base_run orc tag w hs hidle, rfl, settle_trace _ _ _ _ _ _, rfl, rfl, rfl⟩

/-- C17 at a concrete input: the sample root after `init`, every teardown step failing
with -9. -/
theorem shut_down_base_call_order_witness :
    ∃ w' events, Sequence.exec .shut_down 7 (fun _ _ => -9) sample_ready = .ok w' ∧
      w'.idle = true ∧ w'.trace = sample_ready.trace ++ events ∧
      events =
        [.call .instance_replayer .stop, .done .instance_replayer .stop (-9),
         .call .instance_watcher .shut_down, .done .instance_watcher .shut_down (-9),
         .call .instance_replayer .shut_down, .done .instance_replayer .shut_down (-9),
         .call .status_watcher .shut_down, .done .status_watcher .shut_down (-9),
         .complete 7 0] ∧
      leader_calls events = [] ∧ w'.nr.slots = Slots.empty :=
  shut_down_base_call_order 7 (fun _ _ => -9) sample_ready (by decide) (by decide)

/-! ## The pending completion field, step by step -/

theorem assert_bind {c : Bool} {f : Unit → Except Fault World} {w' : World}
    (h : (ceph_assert c >>= f) = .ok w') : c = true ∧ f () = .ok w' := by
  cases c with
  | false => cases h
  | true => exact ⟨rfl, h⟩

theorem deref_bind {c : Bool} {f : Unit → Except Fault World} {w' : World}
    (h : (deref c >>= f) = .ok w') : c = true ∧ f () = .ok w' := by
  cases c with
  | false => cases h
  | true => exact ⟨rfl, h⟩

theorem completions_snoc (e : Event) (he : ∀ tag, Event.completion tag e = none) (tag : Nat)
    (t : List Event) : completions tag (t ++ [e]) = completions tag t := by
  simp [completions, he tag]

theorem step_effect_snoc {stops : Bool} {fin : Option Context} {t : List Event} (e : Event)
    {w' : World} (he : ∀ tag, Event.completion tag e = none)
    (h : step_effect stops fin (t ++ [e]) w') : step_effect stops fin t w' := by
  rcases h with ⟨h1, h2, h3⟩ | h | ⟨c, r, h1, h2, h3, h4, h5⟩
  · exact Or.inl ⟨h1, h2, fun tag => (h3 tag).trans (completions_snoc e he tag t)⟩
  · exact Or.inr (Or.inl h)
  · exact Or.inr (Or.inr ⟨c, r, h1, h2, h3, h4,
      fun tag => (h5 tag).trans (completions_snoc e he tag t)⟩)

theorem step_effect_issue (w : World) (s : Subsystem) (op : Op) (cb : Callback)
    (hp : w.pending = []) :
    step_effect cb.stops w.nr.m_on_finish w.trace (w.issue s op cb) := by
  refine Or.inl ⟨rfl, ⟨Async.call s op cb, ?_, rfl⟩,
    fun tag => completions_snoc (Event.call s op) (fun _ => rfl) tag _⟩
  · show w.pending ++ [Async.call s op cb] = [Async.call s op cb]
    rw [hp]; rfl

theorem step_effect_queue (w : World) (ctx : Context) (r : Int) (hp : w.pending = []) :
    step_effect ctx.stops w.nr.m_on_finish w.trace (w.queue ctx r) := by
  refine Or.inl ⟨rfl, ⟨Async.queued ctx r, ?_, rfl⟩, fun tag => rfl⟩
  · show w.pending ++ [Async.queued ctx r] = [Async.queued ctx r]
    rw [hp]; rfl

theorem shut_down_status_watcher_effect {w w' : World}
    (h : shut_down_status_watcher w = .ok w') (hp : w.pending = []) :
    step_effect true w.nr.m_on_finish w.trace w' := by
  obtain ⟨_, h⟩ := assert_bind h
  cases h
  exact step_effect_issue w _ _ .handle_shut_down_status_watcher hp

theorem handle_shut_down_status_watcher_effect (r : Int) {w w' : World}
    (h : handle_shut_down_status_watcher r w = .ok w') (hp : w.pending = []) :
    step_effect true w.nr.m_on_finish w.trace w' := by
  obtain ⟨_, h⟩ := assert_bind h
  obtain ⟨_, h⟩ := assert_bind h
  obtain ⟨_, h⟩ := assert_bind h
  obtain ⟨_, h⟩ := assert_bind h
  obtain ⟨_, h⟩ := assert_bind h
  obtain ⟨_, h⟩ := assert_bind h
  cases hf : w.nr.m_on_finish with
  | none =>
    have h0 : (throw Fault.assertion : Except Fault World) = .ok w' := by
      simpa only [hf] using h
    cases h0
  | some c =>
    have h0 : (pure { ({ w with nr.m_status_watcher := false }.queue c w.nr.m_ret_val) with
        nr.m_on_finish := none, nr.m_ret_val := 0 } : Except Fault World) = .ok w' := by
      simpa only [hf] using h
    cases h0
    refine Or.inr (Or.inr ⟨c, w.nr.m_ret_val, rfl, rfl, ?_, rfl, fun tag => rfl⟩)
    show w.pending ++ [Async.queued c w.nr.m_ret_val] = [Async.queued c w.nr.m_ret_val]
    rw [hp]; rfl

theorem handle_shut_down_instance_replayer_effect (r : Int) {w w' : World}
    (h : handle_shut_down_instance_replayer r w = .ok w') (hp : w.pending = []) :
    step_effect true w.nr.m_on_finish w.trace w' :=
  (shut_down_status_watcher_effect h hp :)

theorem shut_down_instance_replayer_effect {w w' : World}
    (h : shut_down_instance_replayer w = .ok w') (hp : w.pending = []) :
    step_effect true w.nr.m_on_finish w.trace w' := by
  obtain ⟨_, h⟩ := assert_bind h
  cases h
  exact step_effect_issue w _ _ .handle_shut_down_instance_replayer hp

theorem handle_shut_down_instance_watcher_effect (r : Int) {w w' : World}
    (h : handle_shut_down_instance_watcher r w = .ok w') (hp : w.pending = []) :
    step_effect true w.nr.m_on_finish w.trace w' :=
  (shut_down_instance_replayer_effect h hp :)

theorem shut_down_instance_watcher_effect {w w' : World}
    (h : shut_down_instance_watcher w = .ok w') (hp : w.pending = []) :
    step_effect true w.nr.m_on_finish w.trace w' := by
  obtain ⟨_, h⟩ := assert_bind h
  cases h
  exact step_effect_issue w _ _ .handle_shut_down_instance_watcher hp

theorem handle_stop_instance_replayer_effect (r : Int) {w w' : World}
    (h : handle_stop_instance_replayer r w = .ok w') (hp : w.pending = []) :
    step_effect true w.nr.m_on_finish w.trace w' :=
  (shut_down_instance_watcher_effect h hp :)

theorem stop_instance_replayer_effect {w w' : World}
    (h : stop_instance_replayer w = .ok w') (hp : w.pending = []) :
    step_effect true w.nr.m_on_finish w.trace w' := by
  obtain ⟨_, h⟩ := deref_bind h
  cases h
  exact step_effect_issue w _ _ .handle_stop_instance_replayer hp

theorem handle_init_instance_watcher_effect (r : Int) {w w' : World}
    (h : handle_init_instance_watcher r w = .ok w') (hp : w.pending = []) :
    step_effect true w.nr.m_on_finish w.trace w' := by
  unfold handle_init_instance_watcher at h
  split at h
  · exact (shut_down_instance_replayer_effect h hp :)
  · cases hf : w.nr.m_on_finish with
    | none =>
      exfalso
      split at h
      · obtain ⟨_, h⟩ := deref_bind h
        have h0 : (throw Fault.assertion : Except Fault World) = .ok w' := by
          simpa only [World.emit, hf, pure_bind] using h
        cases h0
      · have h0 : (throw Fault.assertion : Except Fault World) = .ok w' := by
          simpa only [hf, pure_bind] using h
        cases h0
    | some c =>
      split at h
      · obtain ⟨_, h⟩ := deref_bind h
        have h0 : (pure { ((w.emit (.add_or_update_attribute w.nr.m_local_io_ctx.pool_id
              SERVICE_DAEMON_INSTANCE_ID_KEY (.str w.env.instance_id))).queue c 0) with
            nr.m_on_finish := none } : Except Fault World) = .ok w' := by
          simpa only [World.emit, hf, pure_bind] using h
        cases h0
        refine Or.inr (Or.inr ⟨c, 0, rfl, rfl, ?_, rfl, fun tag => ?_⟩)
        · show w.pending ++ [Async.queued c 0] = [Async.queued c 0]
          rw [hp]; rfl
        · exact completions_snoc _ (fun _ => by rfl) tag _
      · have h0 : (pure { (w.queue c 0) with nr.m_on_finish := none } : Except Fault World)
            = .ok w' := by
          simpa only [hf, pure_bind] using h
        cases h0
        refine Or.inr (Or.inr ⟨c, 0, rfl, rfl, ?_, rfl, fun tag => rfl⟩)
        show w.pending ++ [Async.queued c 0] = [Async.queued c 0]
        rw [hp]; rfl

theorem init_instance_watcher_effect {w w' : World}
    (h : init_instance_watcher w = .ok w') (hp : w.pending = []) :
    step_effect true w.nr.m_on_finish w.trace w' := by
  obtain ⟨_, h⟩ := assert_bind h
  cases h
  exact step_effect_issue { w with nr.m_instance_watcher := true } _ _
    .handle_init_instance_watcher hp

theorem handle_init_instance_replayer_effect (r : Int) {w w' : World}
    (h : handle_init_instance_replayer r w = .ok w') (hp : w.pending = []) :
    step_effect true w.nr.m_on_finish w.trace w' := by
  unfold handle_init_instance_replayer at h
  split at h
  · exact (shut_down_status_watcher_effect h hp :)
  · obtain ⟨_, h⟩ := deref_bind h
    exact step_effect_snoc _ (fun _ => by rfl) (init_instance_watcher_effect h hp :)

theorem init_instance_replayer_effect {w w' : World}
    (h : init_instance_replayer w = .ok w') (hp : w.pending = []) :
    step_effect true w.nr.m_on_finish w.trace w' := by
  obtain ⟨_, h⟩ := assert_bind h
  cases h
  exact step_effect_issue { w with nr.m_instance_replayer := true } _ _
    .handle_init_instance_replayer hp

theorem handle_init_status_watcher_effect (r : Int) {w w' : World}
    (h : handle_init_status_watcher r w = .ok w') (hp : w.pending = []) :
    step_effect true w.nr.m_on_finish w.trace w' := by
  unfold handle_init_status_watcher at h
  split at h
  · cases hf : w.nr.m_on_finish with
    | none =>
      simp only [hf] at h
      cases h
    | some c =>
      simp only [hf] at h
      cases h
      refine Or.inr (Or.inr ⟨c, r, rfl, rfl, ?_, rfl, fun tag => rfl⟩)
      show w.pending ++ [Async.queued c r] = [Async.queued c r]
      rw [hp]; rfl
  · exact (init_instance_replayer_effect h hp :)

theorem init_status_watcher_effect {w w' : World}
    (h : init_status_watcher w = .ok w') (hp : w.pending = []) :
    step_effect true w.nr.m_on_finish w.trace w' := by
  obtain ⟨_, h⟩ := assert_bind h
  cases h
  exact step_effect_issue { w with nr.m_status_watcher := true } _ _
    .handle_init_status_watcher hp

theorem init_effect {on_finish : Context} {w w' : World}
    (h : init on_finish w = .ok w') (hp : w.pending = []) :
    step_effect true (some on_finish) w.trace w' := by
  obtain ⟨_, h⟩ := assert_bind h
  exact (init_status_watcher_effect h hp :)

theorem complete_effect (ctx : Context) {r : Int} {w w' : World}
    (h : ctx.complete r w = .ok w') (hp : w.pending = []) :
    step_effect ctx.stops w.nr.m_on_finish w.trace w' := by
  induction ctx generalizing r with
  | caller tag =>
    cases h
    exact Or.inr (Or.inl ⟨rfl, hp, rfl⟩)
  | report r1 on_finish ih => exact (ih h :)
  | stop_replayer => exact (stop_instance_replayer_effect h hp :)

theorem handle_shut_down_image_map_effect (r : Int) {on_finish : Context} {w w' : World}
    (h : handle_shut_down_image_map r on_finish w = .ok w') (hp : w.pending = []) :
    step_effect on_finish.stops w.nr.m_on_finish w.trace w' := by
  obtain ⟨_, h⟩ := assert_bind h
  obtain ⟨_, h⟩ := deref_bind h
  cases h
  exact step_effect_issue { w with nr.m_image_map := false } _ _ (.context on_finish) hp

theorem shut_down_image_map_effect {on_finish : Context} {w w' : World}
    (h : shut_down_image_map on_finish w = .ok w') (hp : w.pending = []) :
    step_effect on_finish.stops w.nr.m_on_finish w.trace w' := by
  unfold shut_down_image_map at h
  split at h
  · cases h
    exact step_effect_issue w _ _ (.handle_shut_down_image_map on_finish) hp
  · cases h
    exact step_effect_queue w on_finish 0 hp

theorem handle_shut_down_pool_watchers_effect (r : Int) {on_finish : Context} {w w' : World}
    (h : handle_shut_down_pool_watchers r on_finish w = .ok w') (hp : w.pending = []) :
    step_effect on_finish.stops w.nr.m_on_finish w.trace w' := by
  obtain ⟨_, h⟩ := assert_bind h
  by_cases hr : w.nr.m_remote_pool_watcher = true
  · have h0 : shut_down_image_map on_finish
        { w with nr.m_local_pool_watcher := false, nr.m_remote_pool_watcher := false }
        = .ok w' := by
      simpa only [hr, if_true] using h
    exact (shut_down_image_map_effect h0 hp :)
  · have h0 : shut_down_image_map on_finish { w with nr.m_local_pool_watcher := false }
        = .ok w' := by
      simpa only [hr, if_false] using h
    exact (shut_down_image_map_effect h0 hp :)

theorem shut_down_pool_watchers_effect {on_finish : Context} {w w' : World}
    (h : shut_down_pool_watchers on_finish w = .ok w') (hp : w.pending = []) :
    step_effect on_finish.stops w.nr.m_on_finish w.trace w' := by
  unfold shut_down_pool_watchers at h
  split at h
  · cases h
    by_cases hr : w.nr.m_remote_pool_watcher = true
    · simp only [World.emit, hr, if_true, hp, List.nil_append]
      exact Or.inl ⟨rfl, ⟨_, rfl, rfl⟩, fun tag =>
        (completions_snoc _ (fun _ => by rfl) tag _).trans
          (completions_snoc _ (fun _ => by rfl) tag _)⟩
    · simp only [World.emit, hr, if_false, hp, List.nil_append]
      exact Or.inl ⟨rfl, ⟨_, rfl, rfl⟩,
        fun tag => completions_snoc _ (fun _ => by rfl) tag _⟩
  · exact (complete_effect on_finish h hp :)

theorem handle_shut_down_image_deleter_effect (r : Int) {on_finish : Context} {w w' : World}
    (h : handle_shut_down_image_deleter r on_finish w = .ok w') (hp : w.pending = []) :
    step_effect on_finish.stops w.nr.m_on_finish w.trace w' := by
  obtain ⟨_, h⟩ := assert_bind h
  exact (shut_down_pool_watchers_effect h hp :)

theorem shut_down_image_deleter_effect {on_finish : Context} {w w' : World}
    (h : shut_down_image_deleter on_finish w = .ok w') (hp : w.pending = []) :
    step_effect on_finish.stops w.nr.m_on_finish w.trace w' := by
  unfold shut_down_image_deleter at h
  split at h
  · cases h
    exact step_effect_issue w _ _ (.handle_shut_down_image_deleter on_finish) hp
  · exact (shut_down_pool_watchers_effect h hp :)

theorem handle_init_image_deleter_effect (r : Int) {on_finish : Context} {w w' : World}
    (h : handle_init_image_deleter r on_finish w = .ok w') (hp : w.pending = []) :
    step_effect on_finish.stops w.nr.m_on_finish w.trace w' := by
  unfold handle_init_image_deleter at h
  split at h
  · exact (shut_down_image_deleter_effect h hp :)
  · exact (complete_effect on_finish h hp :)

theorem init_image_deleter_effect {on_finish : Context} {w w' : World}
    (h : init_image_deleter on_finish w = .ok w') (hp : w.pending = []) :
    step_effect on_finish.stops w.nr.m_on_finish w.trace w' := by
  obtain ⟨_, h⟩ := assert_bind h
  cases h
  exact step_effect_issue { w with nr.m_image_deleter := true } _ _
    (.handle_init_image_deleter on_finish) hp

theorem handle_init_remote_pool_watcher_effect (r : Int) {on_finish : Context} {w w' : World}
    (h : handle_init_remote_pool_watcher r on_finish w = .ok w') (hp : w.pending = []) :
    step_effect on_finish.stops w.nr.m_on_finish w.trace w' := by
  unfold handle_init_remote_pool_watcher at h
  split at h
  · exact (init_image_deleter_effect h hp :)
  · split at h
    · exact (shut_down_pool_watchers_effect h hp :)
    · exact (init_image_deleter_effect h hp :)

theorem init_remote_pool_watcher_effect {on_finish : Context} {w w' : World}
    (h : init_remote_pool_watcher on_finish w = .ok w') (hp : w.pending = []) :
    step_effect on_finish.stops w.nr.m_on_finish w.trace w' := by
  obtain ⟨_, h⟩ := assert_bind h
  cases h
  exact step_effect_issue { w with nr.m_remote_pool_watcher := true } _ _
    (.handle_init_remote_pool_watcher on_finish) hp

theorem handle_init_local_pool_watcher_effect (r : Int) {on_finish : Context} {w w' : World}
    (h : handle_init_local_pool_watcher r on_finish w = .ok w') (hp : w.pending = []) :
    step_effect on_finish.stops w.nr.m_on_finish w.trace w' := by
  unfold handle_init_local_pool_watcher at h
  split at h
  · exact (shut_down_pool_watchers_effect h hp :)
  · exact (init_remote_pool_watcher_effect h hp :)

theorem init_local_pool_watcher_effect {on_finish : Context} {w w' : World}
    (h : init_local_pool_watcher on_finish w = .ok w') (hp : w.pending = []) :
    step_effect on_finish.stops w.nr.m_on_finish w.trace w' := by
  obtain ⟨_, h⟩ := assert_bind h
  cases h
  exact step_effect_issue { w with nr.m_local_pool_watcher := true } _ _
    (.handle_init_local_pool_watcher on_finish) hp

theorem handle_init_image_map_effect (r : Int) {on_finish : Context} {w w' : World}
    (h : handle_init_image_map r on_finish w = .ok w') (hp : w.pending = []) :
    step_effect on_finish.stops w.nr.m_on_finish w.trace w' := by
  unfold handle_init_image_map at h
  split at h
  · exact (shut_down_image_map_effect h hp :)
  · exact (init_local_pool_watcher_effect h hp :)

theorem init_image_map_effect {on_finish : Context} {w w' : World}
    (h : init_image_map on_finish w = .ok w') (hp : w.pending = []) :
    step_effect on_finish.stops w.nr.m_on_finish w.trace w' := by
  obtain ⟨_, h⟩ := assert_bind h
  obtain ⟨_, h⟩ := deref_bind h
  cases h
  exact step_effect_issue { w with nr.m_image_map := true } _ _
    (.handle_init_image_map on_finish) hp

theorem handle_acquire_leader_effect {on_finish : Context} {w w' : World}
    (h : handle_acquire_leader on_finish w = .ok w') (hp : w.pending = []) :
    step_effect on_finish.stops w.nr.m_on_finish w.trace w' := by
  obtain ⟨_, h⟩ := deref_bind h
  exact step_effect_snoc _ (fun _ => by rfl) (init_image_map_effect h hp :)

theorem handle_release_leader_effect {on_finish : Context} {w w' : World}
    (h : handle_release_leader on_finish w = .ok w') (hp : w.pending = []) :
    step_effect on_finish.stops w.nr.m_on_finish w.trace w' := by
  obtain ⟨_, h⟩ := deref_bind h
  exact step_effect_snoc _ (fun _ => by rfl) (shut_down_image_deleter_effect h hp :)

theorem shut_down_effect {on_finish : Context} {w w' : World}
    (h : shut_down on_finish w = .ok w') (hp : w.pending = []) :
    step_effect true (some on_finish) w.trace w' := by
  obtain ⟨_, h⟩ := assert_bind h
  by_cases hm : w.nr.m_image_map = true
  · have h0 : handle_release_leader .stop_replayer
        { w with nr.m_on_finish := some on_finish } = .ok w' := by
      simpa only [hm, Bool.not_true, Bool.false_eq_true, if_false] using h
    exact (handle_release_leader_effect h0 hp :)
  · have h0 : stop_instance_replayer { w with nr.m_on_finish := some on_finish } = .ok w' := by
      simpa only [hm, Bool.not_false, if_true] using h
    exact (stop_instance_replayer_effect h0 hp :)

theorem dispatch_effect {cb : Callback} {r : Int} {w w' : World}
    (h : dispatch cb r w = .ok w') (hp : w.pending = []) :
    step_effect cb.stops w.nr.m_on_finish w.trace w' := by
  cases cb with
  | handle_init_status_watcher => exact (handle_init_status_watcher_effect r h hp :)
  | handle_init_instance_replayer => exact (handle_init_instance_replayer_effect r h hp :)
  | handle_init_instance_watcher => exact (handle_init_instance_watcher_effect r h hp :)
  | handle_stop_instance_replayer => exact (handle_stop_instance_replayer_effect r h hp :)
  | handle_shut_down_instance_watcher => exact (handle_shut_down_instance_watcher_effect r h hp :)
  | handle_shut_down_instance_replayer => exact (handle_shut_down_instance_replayer_effect r h hp :)
  | handle_shut_down_status_watcher => exact (handle_shut_down_status_watcher_effect r h hp :)
  | handle_init_image_map c => exact (handle_init_image_map_effect r h hp :)
  | handle_init_local_pool_watcher c => exact (handle_init_local_pool_watcher_effect r h hp :)
  | handle_init_remote_pool_watcher c => exact (handle_init_remote_pool_watcher_effect r h hp :)
  | handle_init_image_deleter c => exact (handle_init_image_deleter_effect r h hp :)
  | handle_shut_down_image_deleter c => exact (handle_shut_down_image_deleter_effect r h hp :)
  | handle_shut_down_pool_watchers c => exact (handle_shut_down_pool_watchers_effect r h hp :)
  | handle_shut_down_image_map c => exact (handle_shut_down_image_map_effect r h hp :)
  | context c => exact (complete_effect c h hp :)

theorem deliver_effect {orc : Oracle} {a : Async} {w w' : World}
    (h : deliver orc w = .ok w') (hp : w.pending = [a]) :
    step_effect a.stops w.nr.m_on_finish w.trace w' := by
  unfold deliver at h
  rw [hp] at h
  match a, h with
  | .call s op cb, h =>
    exact step_effect_snoc _ (fun _ => by rfl) (dispatch_effect h rfl :)
  | .gather [] result cb, h => exact (dispatch_effect h rfl :)
  | .gather [s] result cb, h =>
    exact step_effect_snoc _ (fun _ => by rfl) (dispatch_effect h rfl :)
  | .gather (s :: s1 :: subs) result cb, h =>
    cases h
    exact Or.inl ⟨rfl, ⟨_, rfl, rfl⟩, fun tag => completions_snoc _ (fun _ => by rfl) tag _⟩
  | .queued ctx r, h => exact (complete_effect ctx h rfl :)

theorem deliver_idle {orc : Oracle} {w w' : World} (h : deliver orc w = .ok w')
    (hp : w.pending = []) : w' = w := by
  unfold deliver at h
  rw [hp] at h
  exact (Except.ok.inj h).symm

theorem in_flight_of_effect {tag : Nat} {t : List Event} {w' : World}
    (h : step_effect true (some (.caller tag)) t w') :
    in_flight tag (completions tag t) w' := by
  rcases h with ⟨h1, h2, h3⟩ | ⟨_, _, h3⟩ | ⟨c, r, h1, h2, h3, _, h5⟩
  · exact Or.inl ⟨h1, h2, h3 tag⟩
  · cases h3
  · cases h1
    exact Or.inr (Or.inl ⟨h2, ⟨r, h3⟩, h5 tag⟩)

theorem in_flight_step {orc : Oracle} {tag : Nat} {cs : List Int} {w w' : World}
    (hw : in_flight tag cs w) (h : deliver orc w = .ok w') : in_flight tag cs w' := by
  rcases hw with ⟨h1, ⟨a, h2, h3⟩, h4⟩ | ⟨h1, ⟨r, h2⟩, _⟩ | ⟨h1, h2⟩
  · have e := deliver_effect h h2
    rw [h3, h1] at e
    rw [← h4]
    exact in_flight_of_effect e
  · unfold deliver at h
    rw [h2] at h
    cases h
    exact Or.inr (Or.inr ⟨h1, rfl⟩)
  · rw [deliver_idle h h2]
    exact Or.inr (Or.inr ⟨h1, h2⟩)

theorem unset_of_effect {stops : Bool} {t : List Event} {w' : World}
    (h : step_effect stops none t w') : unset w' := by
  rcases h with ⟨h1, ⟨a, h2, _⟩, _⟩ | ⟨h1, h2, _⟩ | ⟨c, r, h1, _⟩
  · exact ⟨h1, by rw [h2]; exact Nat.le_refl 1⟩
  · exact ⟨h1, by rw [h2]; exact Nat.zero_le 1⟩
  · cases h1

theorem unset_step {orc : Oracle} {w w' : World} (hw : unset w)
    (h : deliver orc w = .ok w') : unset w' := by
  obtain ⟨h1, h2⟩ := hw
  cases hp : w.pending with
  | nil =>
    rw [deliver_idle h hp]
    exact ⟨h1, by rw [hp]; exact Nat.zero_le 1⟩
  | cons a rest =>
    cases rest with
    | nil =>
      have e := deliver_effect h hp
      rw [h1] at e
      exact unset_of_effect e
    | cons b rest =>
      rw [hp] at h2
      exact absurd h2 (by simp)

theorem run_keeps {P : World → Prop} {orc : Oracle}
    (hstep : ∀ w w', P w → deliver orc w = .ok w' → P w') :
    ∀ (n : Nat) (w w' : World), P w → run orc n w = .ok w' → P w' := by
  intro n
  induction n with
  | zero =>
    intro w w' hw h
    cases h
    exact hw
  | succ n ih =>
    intro w w' hw h
    have h0 : (deliver orc w >>= run orc n) = .ok w' := h
    cases hd : deliver orc w with
    | error e => rw [hd] at h0; cases h0
    | ok w1 =>
      rw [hd] at h0
      exact ih w1 w' (hstep w w1 hw hd) h0

/-- A sequence that ends without a fault has met none on the way. -/
theorem run_prefix {orc : Oracle} {m : Nat} {x : Except Fault World} {wf : World}
    (hx : (x >>= run orc m) = .ok wf) (hf : wf.pending = []) (n : Nat) :
    ∃ w1 w', x = .ok w1 ∧ run orc n w1 = .ok w' := by
  cases x with
  | error e => cases hx
  | ok w1 =>
    have hm : run orc m w1 = .ok wf := hx
    refine ⟨w1, ?_⟩
    rcases Nat.le_total n m with hle | hle
    · obtain ⟨k, rfl⟩ := Nat.exists_eq_add_of_le hle
      rw [run_add] at hm
      cases hr : run orc n w1 with
      | error e => rw [hr] at hm; cases hm
      | ok w' => exact ⟨w', rfl, rfl⟩
    · obtain ⟨k, rfl⟩ := Nat.exists_eq_add_of_le hle
      refine ⟨wf, rfl, ?_⟩
      rw [run_add, hm]
      exact run_idle orc k wf hf

theorem idle_on_finish {w : World} (h : w.idle = true) : w.nr.m_on_finish = none := by
  simp only [World.idle, Bool.and_eq_true, Option.isNone_iff_eq_none] at h
  exact h.2

/-- Every sequence started under the callers' contract runs to its end without a fault. -/
theorem exec_total (seq : Sequence) (tag : Nat) (orc : Oracle) (w : World)
    (hpre : Sequence.pre seq w = true) :
    ∃ wf, (seq.start tag w >>= run orc 16) = .ok wf ∧ wf.pending = [] := by
  cases seq with
  | init =>
    obtain ⟨hidle, hs⟩ := pre_init hpre
    exact ⟨_, init_run orc tag w hs hidle, rfl⟩
  | shut_down =>
    obtain ⟨hidle, hs | hs⟩ := pre_shut_down hpre
    · exact ⟨_, shut_down_base_run orc tag w hs hidle, rfl⟩
    · exact ⟨_, shut_down_leader_run orc tag w hs hidle, rfl⟩
  | handle_acquire_leader =>
    obtain ⟨hidle, hs⟩ := pre_acquire hpre
    exact ⟨_, acquire_run orc tag w hs hidle, rfl⟩
  | handle_release_leader =>
    obtain ⟨hidle, hs | hs⟩ := pre_release hpre
    · exact ⟨_, release_base_run orc tag w hs hidle, rfl⟩
    · exact ⟨_, release_leader_run orc tag w hs hidle, rfl⟩

theorem in_flight_field {tag : Nat} {cs : List Int} {w : World} (h : in_flight tag cs w) :
    (w.step_outstanding = true → w.nr.m_on_finish = some (.caller tag)) ∧
      (completions tag w.trace ≠ cs → w.nr.m_on_finish = none) := by
  rcases h with ⟨h1, _, h3⟩ | ⟨h1, ⟨r, h2⟩, _⟩ | ⟨h1, h2⟩
  · exact ⟨fun _ => h1, fun hne => absurd h3 hne⟩
  · refine ⟨fun ho => ?_, fun _ => h1⟩
    rw [World.step_outstanding, h2] at ho
    cases ho
  · refine ⟨fun ho => ?_, fun _ => h1⟩
    rw [World.step_outstanding, h2] at ho
    cases ho

/-! ## The claims on release during acquire, the pending completion and updates -/

/-- C19 as stated fails for `handle_acquire_leader`: after it has been called on the
sample root, the image map's init is outstanding and the pending completion field is
null. -/
theorem acquire_outstanding_with_null_pending_completion :
    ∃ w', Sequence.start .handle_acquire_leader 2 sample_ready = .ok w' ∧
      w'.step_outstanding = true ∧ w'.nr.m_on_finish = none :=
  ⟨sample_acquiring, rfl, rfl, rfl⟩

/-- C19, amended: at every point (after any number `n` of completed steps) of an `init` or
a `shut_down` started under the callers' contract, the pending completion field holds the
caller's completion while an asynchronous step is outstanding, and it is null once that
completion has been invoked; `handle_acquire_leader` and `handle_release_leader` never
store their completion in the field (the callbacks carry it), so the field is null at
every point of them. -/
theorem pending_completion_while_outstanding (seq : Sequence) (tag : Nat) (orc : Oracle)
    (w : World) (hpre : Sequence.pre seq w = true) (n : Nat) :
    ∃ w', (seq.start tag w >>= run orc n) = .ok w' ∧
      ((seq = .init ∨ seq = .shut_down) →
        (w'.step_outstanding = true → w'.nr.m_on_finish = some (.caller tag)) ∧
        (completions tag w'.trace ≠ completions tag w.trace → w'.nr.m_on_finish = none)) ∧
      ((seq = .handle_acquire_leader ∨ seq = .handle_release_leader) →
        w'.nr.m_on_finish = none) := by
  obtain ⟨wf, hexec, hf⟩ := exec_total seq tag orc w hpre
  obtain ⟨w1, w', hstart, hrun⟩ := run_prefix hexec hf n
  have hidle : w.idle = true := by
    cases seq
    · exact (pre_init hpre).1
    · exact (pre_shut_down hpre).1
    · exact (pre_acquire hpre).1
    · exact (pre_release hpre).1
  have hp := idle_pending hidle
  have hnone := idle_on_finish hidle
  refine ⟨w', by rw [hstart]; exact hrun, fun hseq => ?_, fun hseq => ?_⟩
  · have h1 : in_flight tag (completions tag w.trace) w1 := by
      rcases hseq with rfl | rfl
      · exact in_flight_of_effect (init_effect hstart hp)
      · exact in_flight_of_effect (shut_down_effect hstart hp)
    exact in_flight_field (run_keeps (fun _ _ hw hd => in_flight_step hw hd) n w1 w' h1 hrun)
  · have h1 : unset w1 := by
      rcases hseq with rfl | rfl
      · have e := handle_acquire_leader_effect hstart hp
        rw [hnone] at e
        exact unset_of_effect e
      · have e := handle_release_leader_effect hstart hp
        rw [hnone] at e
        exact unset_of_effect e
    exact (run_keeps (fun _ _ hw hd => unset_step hw hd) n w1 w' h1 hrun).1

/-- C19, amended, at a concrete input: `init` on the sample root after one completed
step (the status watcher's init), the instance replayer's init being outstanding. -/
theorem pending_completion_while_outstanding_witness :
    ∃ w', (Sequence.start .init 7 sample_fresh >>= run all_ok 1) = .ok w' ∧
      (w'.step_outstanding = true → w'.nr.m_on_finish = some (.caller 7)) ∧
      (completions 7 w'.trace ≠ completions 7 sample_fresh.trace →
        w'.nr.m_on_finish = none) :=
  let ⟨w', hrun, hinit, _⟩ :=
    pending_completion_while_outstanding .init 7 all_ok sample_fresh (by decide) 1
  ⟨w', hrun, hinit (Or.inl rfl)⟩

/-- C20: for every mirror uuid and every added and removed id lists, `handle_update`
called while the image map slot is empty returns with the world as it was: nothing is
added to the trace (no call to the service daemon, no call to an image map) and every
slot and field is unchanged. -/
theorem handle_update_without_image_map (mirror_uuid : String)
    (added_image_ids removed_image_ids : List ImageId) (w : World)
    (h : w.nr.m_image_map = false) :
    handle_update mirror_uuid added_image_ids removed_image_ids w = .ok w := by
  unfold handle_update
  rw [h]
  rfl

/-- C20 at a concrete input: the sample root after `init`, not leader. -/
theorem handle_update_without_image_map_witness :
    sample_ready.nr.m_image_map = false ∧
      handle_update "remote-uuid" [⟨"g1", "a"⟩, ⟨"g2", "b"⟩] [⟨"g3", "c"⟩] sample_ready
        = .ok sample_ready :=
  ⟨by decide, handle_update_without_image_map "remote-uuid" [⟨"g1", "a"⟩, ⟨"g2", "b"⟩]
    [⟨"g3", "c"⟩] sample_ready (by decide)⟩

/-! ## Updates from the pool watchers -/

theorem mem_set_insert (a x : String) (l : List String) :
    a ∈ set_insert x l ↔ a = x ∨ a ∈ l := by
  induction l with
  | nil => simp [set_insert]
  | cons y ys ih =>
    unfold set_insert
    split_ifs with h1 h2
    · simp
    · subst h2; simp
    · simp only [List.mem_cons, ih]
      tauto

theorem sorted_set_insert (x : String) (l : List String) (h : l.Sorted (· < ·)) :
    (set_insert x l).Sorted (· < ·) := by
  induction l with
  | nil => simp [set_insert]
  | cons y ys ih =>
    unfold set_insert
    split_ifs with h1 h2
    · refine List.sorted_cons.mpr ⟨fun b hb => ?_, h⟩
      rcases List.mem_cons.mp hb with rfl | hb
      · exact h1
      · exact lt_trans h1 (List.rel_of_sorted_cons h b hb)
    · exact h
    · refine List.sorted_cons.mpr ⟨fun b hb => ?_, ih (List.sorted_cons.mp h).2⟩
      rcases (mem_set_insert b x ys).mp hb with rfl | hb
      · exact lt_of_le_of_ne (not_lt.mp h1) (Ne.symm h2)
      · exact List.rel_of_sorted_cons h b hb

theorem foldl_set_insert_mem (g : String) (image_ids : List ImageId) (acc : List String) :
    g ∈ image_ids.foldl (fun ids image_id => set_insert image_id.global_id ids) acc ↔
      g ∈ acc ∨ ∃ image_id ∈ image_ids, image_id.global_id = g := by
  induction image_ids generalizing acc with
  | nil => simp
  | cons i is ih =>
    simp only [List.foldl_cons, ih, mem_set_insert, List.mem_cons, exists_eq_or_imp]
    constructor
    · rintro ((h | h) | h)
      · exact Or.inr (Or.inl h.symm)
      · exact Or.inl h
      · exact Or.inr (Or.inr h)
    · rintro (h | h | h)
      · exact Or.inl (Or.inr h)
      · exact Or.inl (Or.inl h.symm)
      · exact Or.inr h

theorem foldl_set_insert_sorted (image_ids : List ImageId) (acc : List String)
    (h : acc.Sorted (· < ·)) :
    (image_ids.foldl (fun ids image_id => set_insert image_id.global_id ids) acc).Sorted
      (· < ·) := by
  induction image_ids generalizing acc with
  | nil => exact h
  | cons i is ih => exact ih _ (sorted_set_insert _ _ h)

/-- The set built by `handle_update` holds exactly the global ids of the list, each once,
in increasing order. -/
theorem global_image_ids_spec (image_ids : List ImageId) :
    (global_image_ids image_ids).Sorted (· < ·) ∧ (global_image_ids image_ids).Nodup ∧
      ∀ g, g ∈ global_image_ids image_ids ↔ ∃ image_id ∈ image_ids, image_id.global_id = g := by
  have hs := foldl_set_insert_sorted image_ids [] List.sorted_nil
  refine ⟨hs, hs.nodup, fun g => ?_⟩
  unfold global_image_ids
  rw [foldl_set_insert_mem]
  simp

/-- What `handle_update` does while leader, by the namespace and the remote slot. -/
theorem handle_update_leader (mirror_uuid : String) (added removed : List ImageId) (w : World)
    (him : w.nr.m_image_map = true) (hlp : w.nr.m_local_pool_watcher = true) :
    handle_update mirror_uuid added removed w = .ok { w with trace := w.trace ++
      ((if w.nr.m_local_io_ctx.nspace.isEmpty then
          [Event.add_or_update_attribute w.nr.m_local_io_ctx.pool_id "image_local_count"
            (.num w.env.local_image_count)] ++
          (if w.nr.m_remote_pool_watcher then
            [Event.add_or_update_attribute w.nr.m_local_io_ctx.pool_id "image_remote_count"
              (.num w.env.remote_image_count)] else [])
        else []) ++
        [.update_images mirror_uuid (global_image_ids added) (global_image_ids removed)]) } := by
  unfold handle_update
  rw [him]
  by_cases hns : w.nr.m_local_io_ctx.nspace.isEmpty = true
  · by_cases hrp : w.nr.m_remote_pool_watcher = true
    · simp [hns, hrp, hlp, deref, World.emit, SERVICE_DAEMON_LOCAL_COUNT_KEY,
        SERVICE_DAEMON_REMOTE_COUNT_KEY]
      rfl
    · simp [hns, hrp, hlp, deref, World.emit, SERVICE_DAEMON_LOCAL_COUNT_KEY,
        SERVICE_DAEMON_REMOTE_COUNT_KEY]
      rfl
  · simp [hns, World.emit]
    rfl

/-- The entries of `handle_update` in the list of leader calls and of sink calls. -/
theorem handle_update_calls (mirror_uuid : String) (added removed : List String)
    (pool_id : Int) (local_count remote_count : Nat) (ns rp : Bool) :
    leader_calls
        ((if ns then
            [Event.add_or_update_attribute pool_id "image_local_count" (.num local_count)] ++
            (if rp then
              [Event.add_or_update_attribute pool_id "image_remote_count" (.num remote_count)]
            else [])
          else []) ++ [.update_images mirror_uuid added removed]) =
        [.update_images mirror_uuid added removed] ∧
      sink_calls
        ((if ns then
            [Event.add_or_update_attribute pool_id "image_local_count" (.num local_count)] ++
            (if rp then
              [Event.add_or_update_attribute pool_id "image_remote_count" (.num remote_count)]
            else [])
          else []) ++ [.update_images mirror_uuid added removed]) =
        if ns then
          [Event.add_or_update_attribute pool_id "image_local_count" (.num local_count)] ++
          (if rp then
            [Event.add_or_update_attribute pool_id "image_remote_count" (.num remote_count)]
          else [])
        else [] := by
  cases ns <;> cases rp <;> exact ⟨rfl, rfl⟩

/-! ## The claims on updates, topology changes, image removal and fencing -/

/-- C21: for every mirror uuid and every added and removed image-id lists (duplicates and
order arbitrary), `handle_update` called while leader calls the image map's
`update_images` exactly once, with that mirror uuid and two sets: the global ids that
occur in the added list and those that occur in the removed list, each global id once
(the sets are given in increasing order), nothing added and nothing dropped. -/
theorem handle_update_forwards_global_id_sets (mirror_uuid : String)
    (added_image_ids removed_image_ids : List ImageId) (w : World)
    (him : w.nr.m_image_map = true) (hlp : w.nr.m_local_pool_watcher = true) :
    ∃ w' events added removed,
      handle_update mirror_uuid added_image_ids removed_image_ids w = .ok w' ∧
      w'.trace = w.trace ++ events ∧
      leader_calls events = [.update_images mirror_uuid added removed] ∧
      (added.Sorted (· < ·) ∧ added.Nodup ∧
        ∀ g, g ∈ added ↔ ∃ image_id ∈ added_image_ids, image_id.global_id = g) ∧
      (removed.Sorted (· < ·) ∧ removed.Nodup ∧
        ∀ g, g ∈ removed ↔ ∃ image_id ∈ removed_image_ids, image_id.global_id = g) ∧
      w'.nr = w.nr ∧ w'.pending = w.pending :=
  ⟨_, _, _, _, handle_update_leader mirror_uuid added_image_ids removed_image_ids w him hlp, rfl,
    (handle_update_calls mirror_uuid _ _ _ _ _ _ _).1, global_image_ids_spec added_image_ids,
    global_image_ids_spec removed_image_ids, rfl, rfl⟩

/-- C21 at a concrete input: the sample leader, the added list naming `img-2` twice and
out of order. -/
theorem handle_update_forwards_global_id_sets_witness :
    ∃ w' events added removed,
      handle_update "remote-uuid" [⟨"img-2", "a"⟩, ⟨"img-1", "b"⟩, ⟨"img-2", "c"⟩] []
        sample_leader = .ok w' ∧
      w'.trace = sample_leader.trace ++ events ∧
      leader_calls events = [.update_images "remote-uuid" added removed] ∧
      (added.Sorted (· < ·) ∧ added.Nodup ∧
        ∀ g, g ∈ added ↔
          ∃ image_id ∈ ([⟨"img-2", "a"⟩, ⟨"img-1", "b"⟩, ⟨"img-2", "c"⟩] : List ImageId),
            image_id.global_id = g) ∧
      (removed.Sorted (· < ·) ∧ removed.Nodup ∧
        ∀ g, g ∈ removed ↔ ∃ image_id ∈ ([] : List ImageId), image_id.global_id = g) ∧
      w'.nr = sample_leader.nr ∧ w'.pending = sample_leader.pending :=
  handle_update_forwards_global_id_sets "remote-uuid"
    [⟨"img-2", "a"⟩, ⟨"img-1", "b"⟩, ⟨"img-2", "c"⟩] [] sample_leader (by decide) (by decide)

/-- C22: `handle_update` called while leader publishes volume counts to the fleet-health
sink if and only if the namespace name is empty: then it publishes the local pool watcher's
image count under `image_local_count` and, when the remote pool watcher slot is
non-empty, the remote pool watcher's image count under `image_remote_count`, both keyed by
the local pool id; for a non-empty namespace it makes no sink call.  In both cases it
forwards to `update_images`. -/
theorem handle_update_publishes_counts_for_root_namespace (mirror_uuid : String)
    (added_image_ids removed_image_ids : List ImageId) (w : World)
    (him : w.nr.m_image_map = true) (hlp : w.nr.m_local_pool_watcher = true) :
    ∃ w' events,
      handle_update mirror_uuid added_image_ids removed_image_ids w = .ok w' ∧
      w'.trace = w.trace ++ events ∧
      sink_calls events =
        (if w.nr.m_local_io_ctx.nspace.isEmpty then
          [Event.add_or_update_attribute w.nr.m_local_io_ctx.pool_id "image_local_count"
            (.num w.env.local_image_count)] ++
          (if w.nr.m_remote_pool_watcher then
            [Event.add_or_update_attribute w.nr.m_local_io_ctx.pool_id "image_remote_count"
              (.num w.env.remote_image_count)] else [])
        else []) ∧
      (sink_calls events ≠ [] ↔ w.nr.m_local_io_ctx.nspace.isEmpty = true) ∧
      leader_calls events = [.update_images mirror_uuid (global_image_ids added_image_ids)
        (global_image_ids removed_image_ids)] := by
  refine ⟨_, _, handle_update_leader mirror_uuid added_image_ids removed_image_ids w him hlp,
    rfl, (handle_update_calls mirror_uuid _ _ _ _ _ _ _).2, ?_,
    (handle_update_calls mirror_uuid _ _ _ _ _ _ _).1⟩
  rw [(handle_update_calls mirror_uuid _ _ _ _ _ _ _).2]
  cases w.nr.m_local_io_ctx.nspace.isEmpty <;> simp

/-- C22 at a concrete input: the sample leader (root namespace of pool 1, both pool
watchers present). -/
theorem handle_update_publishes_counts_for_root_namespace_witness :
    ∃ w' events,
      handle_update "remote-uuid" [⟨"img-1", "a"⟩] [] sample_leader = .ok w' ∧
      w'.trace = sample_leader.trace ++ events ∧
      sink_calls events =
        [.add_or_update_attribute 1 "image_local_count" (.num 0),
         .add_or_update_attribute 1 "image_remote_count" (.num 0)] ∧
      leader_calls events = [.update_images "remote-uuid" ["img-1"] []] :=
  let ⟨w', events, hrun, htrace, hsink, _, hcalls⟩ :=
    handle_update_publishes_counts_for_root_namespace "remote-uuid" [⟨"img-1", "a"⟩] []
      sample_leader (by decide) (by decide)
  ⟨w', events, hrun, htrace, hsink, hcalls⟩

/-- C23: `handle_instances_added` and `handle_instances_removed` fail an assertion if and
only if the image map slot is empty; otherwise each returns after exactly one call to the
image map, `update_instances_added` respectively `update_instances_removed` with the
given instance ids unchanged, and nothing but the trace has changed. -/
theorem handle_instances_forwarded_or_asserted (instance_ids : List String) (w : World) :
    (handle_instances_added instance_ids w = .error .assertion ↔ w.nr.m_image_map = false) ∧
    (handle_instances_removed instance_ids w = .error .assertion ↔
      w.nr.m_image_map = false) ∧
    handle_instances_added instance_ids w =
      (if w.nr.m_image_map then
        .ok { w with trace := w.trace ++ [.update_instances_added instance_ids] }
      else .error .assertion) ∧
    handle_instances_removed instance_ids w =
      (if w.nr.m_image_map then
        .ok { w with trace := w.trace ++ [.update_instances_removed instance_ids] }
      else .error .assertion) := by
  unfold handle_instances_added handle_instances_removed
  cases w.nr.m_image_map
  · exact ⟨⟨fun _ => rfl, fun _ => rfl⟩, ⟨fun _ => rfl, fun _ => rfl⟩, rfl, rfl⟩
  · refine ⟨⟨fun h => ?_, fun h => ?_⟩, ⟨fun h => ?_, fun h => ?_⟩, rfl, rfl⟩
    · cases h
    · cases h
    · cases h
    · cases h

/-- C24: `handle_remove_image` fails an assertion if and only if `mirror_uuid` is the
empty string; for every non-empty `mirror_uuid`, on a root whose instance watcher slot is
non-empty, it returns after exactly one call, the instance watcher's
`notify_peer_image_removed` with that instance id, global image id, mirror uuid and the
caller's `on_finish`, and nothing but the trace has changed. -/
theorem handle_remove_image_notifies_or_asserts (mirror_uuid global_image_id instance_id : String)
    (on_finish : Context) (w : World) :
    (handle_remove_image mirror_uuid global_image_id instance_id on_finish w
        = .error .assertion ↔ mirror_uuid.isEmpty = true) ∧
    (mirror_uuid.isEmpty = false → w.nr.m_instance_watcher = true →
      handle_remove_image mirror_uuid global_image_id instance_id on_finish w =
        .ok { w with trace := w.trace ++
          [.notify_peer_image_removed instance_id global_image_id mirror_uuid on_finish] }) := by
  unfold handle_remove_image
  cases hu : mirror_uuid.isEmpty
  · refine ⟨⟨fun h => ?_, fun h => by cases h⟩, fun _ hw => ?_⟩
    · cases hw : w.nr.m_instance_watcher
      · rw [hw] at h; cases h
      · rw [hw] at h; cases h
    · rw [hw]; rfl
  · exact ⟨⟨fun _ => rfl, fun _ => rfl⟩, fun h => by cases h⟩

/-- C24 at a concrete input: the sample root after `init`, a removal reported by the peer
`remote-uuid`. -/
theorem handle_remove_image_notifies_or_asserts_witness :
    handle_remove_image "remote-uuid" "img-1" "instance-2" (.caller 5) sample_ready =
      .ok { sample_ready with trace := sample_ready.trace ++
        [.notify_peer_image_removed "instance-2" "img-1" "remote-uuid" (.caller 5)] } ∧
    handle_remove_image "" "img-1" "instance-2" (.caller 5) sample_ready = .error .assertion :=
  ⟨(handle_remove_image_notifies_or_asserts "remote-uuid" "img-1" "instance-2" (.caller 5)
      sample_ready).2 (by decide) (by decide),
    (handle_remove_image_notifies_or_asserts "" "img-1" "instance-2" (.caller 5)
      sample_ready).1.mpr (by decide)⟩

/-- C25: `is_blacklisted` returns true if and only if the local pool watcher slot is
non-empty and that watcher reports itself blacklisted, or the remote pool watcher slot is
non-empty and that watcher reports itself blacklisted; it returns false whenever both
slots are empty.  (It is a function of the state and returns nothing but the flag.) -/
theorem is_blacklisted_iff (w : World) :
    (is_blacklisted w = true ↔
      (w.nr.m_local_pool_watcher = true ∧ w.env.local_blacklisted = true) ∨
      (w.nr.m_remote_pool_watcher = true ∧ w.env.remote_blacklisted = true)) ∧
    (w.nr.m_local_pool_watcher = false → w.nr.m_remote_pool_watcher = false →
      is_blacklisted w = false) := by
  unfold is_blacklisted
  constructor
  · simp only [Bool.or_eq_true, Bool.and_eq_true]
  · intro h1 h2
    rw [h1, h2]
    rfl

/-- C27: `handle_release_leader` called when the image deleter and local pool watcher
slots are empty, so in particular when all four leader slots are empty (the instance
watcher slot being non-empty), calls the instance watcher's `handle_release_leader`, then
invokes the completion with 0, before it returns: no `shut_down` and no `release_all` is
called, nothing is left outstanding that was not, and every slot and field is unchanged. -/
theorem release_without_leader_slots (tag : Nat) (w : World)
    (hiw : w.nr.m_instance_watcher = true) (hlp : w.nr.m_local_pool_watcher = false)
    (hid : w.nr.m_image_deleter = false) :
    ∃ w' events, Sequence.start .handle_release_leader tag w = .ok w' ∧
      w'.trace = w.trace ++ events ∧
      events = [.handle_release_leader, .complete tag 0] ∧
      unwound events = [] ∧ teardown_events events = [.complete tag 0] ∧
      w'.nr = w.nr ∧ w'.pending = w.pending := by
  refine ⟨{ w with trace := w.trace ++ [.handle_release_leader, .complete tag 0] }, _,
    ?_, rfl, rfl, rfl, rfl, rfl, rfl⟩
  show handle_release_leader (.caller tag) w = _
  unfold handle_release_leader deref shut_down_image_deleter shut_down_pool_watchers
  simp [hiw, hid, hlp, World.emit, Context.complete]
  rfl

/-- C27 at a concrete input: the sample root after `init`, not leader, all four leader
slots empty. -/
theorem release_without_leader_slots_witness :
    sample_ready.nr.slots = Slots.base ∧
    ∃ w' events, Sequence.start .handle_release_leader 7 sample_ready = .ok w' ∧
      w'.trace = sample_ready.trace ++ events ∧
      events = [.handle_release_leader, .complete 7 0] ∧
      unwound events = [] ∧ teardown_events events = [.complete 7 0] ∧
      w'.nr = sample_ready.nr ∧ w'.pending = sample_ready.pending :=
  ⟨by decide, release_without_leader_slots 7 sample_ready (by decide) (by decide) (by decide)⟩

/-! ## The unwind of a failed acquire -/

theorem acquire_unwind_of_fails {orc : Oracle} {e : Int} (tag : Nat)
    (h : acquire_fails_with orc e) :
    started (acquire_trace orc tag) <+: creation_order ∧
      (∃ s, (started (acquire_trace orc tag)).getLast? = some s ∧ orc s .init = e) ∧
      teardown_events (acquire_trace orc tag) =
        (if Subsystem.image_deleter ∈ started (acquire_trace orc tag) then
          performed orc .image_deleter .shut_down else []) ++
        (if Subsystem.local_pool_watcher ∈ started (acquire_trace orc tag) then
          joined orc (decide (Subsystem.remote_pool_watcher ∈ started (acquire_trace orc tag)))
        else []) ++
        performed orc .image_map .shut_down ++
        performed orc .instance_replayer .release_all ++ [.complete tag e] ∧
      acquire_slots orc = Slots.base := by
  obtain ⟨he, h | ⟨h1, h⟩ | ⟨h1, h2, h, hne⟩ | ⟨h1, h2, h3, h⟩⟩ := h
  · subst h
    simp only [acquire_trace, acquire_slots, if_pos he]
    have hst : started (leader_startup orc 1 ++ map_teardown orc ++
        [.complete tag (orc .image_map .init)]) = [.image_map] := rfl
    rw [hst]
    exact ⟨⟨[.local_pool_watcher, .remote_pool_watcher, .image_deleter], rfl⟩,
      ⟨.image_map, rfl, rfl⟩, rfl, trivial⟩
  · subst h
    simp only [acquire_trace, acquire_slots, if_neg (not_lt.mpr h1), if_pos he]
    have hst : started (leader_startup orc 2 ++ joined orc false ++ map_teardown orc ++
        [.complete tag (orc .local_pool_watcher .init)]) =
        [.image_map, .local_pool_watcher] := rfl
    rw [hst]
    exact ⟨⟨[.remote_pool_watcher, .image_deleter], rfl⟩,
      ⟨.local_pool_watcher, rfl, rfl⟩, rfl, trivial⟩
  · subst h
    have hab : remote_aborts (orc .remote_pool_watcher .init) := ⟨he, hne⟩
    simp only [acquire_trace, acquire_slots, if_neg (not_lt.mpr h1), if_neg (not_lt.mpr h2),
      if_pos hab]
    have hst : started (leader_startup orc 3 ++ joined orc true ++ map_teardown orc ++
        [.complete tag (orc .remote_pool_watcher .init)]) =
        [.image_map, .local_pool_watcher, .remote_pool_watcher] := rfl
    rw [hst]
    exact ⟨⟨[.image_deleter], rfl⟩, ⟨.remote_pool_watcher, rfl, rfl⟩, rfl, trivial⟩
  · subst h
    have hab : ¬ remote_aborts (orc .remote_pool_watcher .init) := by
      rintro ⟨hlt, hne⟩
      rcases h3 with h3 | h3
      · exact hne h3
      · exact absurd hlt (not_lt.mpr h3)
    simp only [acquire_trace, acquire_slots, if_neg (not_lt.mpr h1), if_neg (not_lt.mpr h2),
      if_neg hab, if_pos he]
    have hst : started (leader_startup orc 4 ++ performed orc .image_deleter .shut_down ++
        joined orc true ++ map_teardown orc ++ [.complete tag (orc .image_deleter .init)]) =
        [.image_map, .local_pool_watcher, .remote_pool_watcher, .image_deleter] := rfl
    rw [hst]
    exact ⟨⟨[], rfl⟩, ⟨.image_deleter, rfl, rfl⟩, rfl, trivial⟩

/-! ## From which states `shut_down` completes -/

theorem shut_down_outcome (orc : Oracle) (tag : Nat) (lu ru : String) (lio rio : IoCtx)
    (env : Env) (trace : List Event) (rv : Int) (s : Slots) :
    (shut_down (.caller tag) (world_of lu ru lio rio env trace s none rv [] [])
        >>= run orc 16).toOption =
      if s.shut_down_ready then
        some (world_of lu ru lio rio env trace Slots.empty none 0 []
          (shut_down_steps orc s ++ [.complete tag rv]))
      else none := by
  obtain ⟨sw, ir, iw, im, lp, rp, id⟩ := s
  cases sw <;> cases ir <;> cases iw <;> cases im <;> cases lp <;> cases rp <;> cases id <;> rfl

theorem shut_down_from (tag : Nat) (orc : Oracle) (w : World) (hp : w.pending = [])
    (hfin : w.nr.m_on_finish = none) :
    (Sequence.exec .shut_down tag orc w).toOption =
      if w.nr.slots.shut_down_ready then
        some (w.settle Slots.empty none 0 []
          (shut_down_steps orc w.nr.slots ++ [.complete tag w.nr.m_ret_val]))
      else none := by
  have hw : w.settle w.nr.slots none w.nr.m_ret_val [] [] = w := by
    have h := settle_self w
    rw [hp, hfin] at h
    exact h
  have h : (shut_down (.caller tag) (w.settle w.nr.slots none w.nr.m_ret_val [] [])
      >>= run orc 16).toOption = _ :=
    shut_down_outcome orc tag w.nr.m_local_mirror_uuid w.nr.m_remote_mirror_uuid
      w.nr.m_local_io_ctx w.nr.m_remote_io_ctx w.env w.trace w.nr.m_ret_val w.nr.slots
  rw [hw] at h
  exact h

theorem ok_of_toOption {x : Except Fault World} {w : World} (h : x.toOption = some w) :
    x = .ok w := by
  cases x with
  | error f => cases h
  | ok w1 => cases h; rfl

theorem error_of_toOption {x : Except Fault World} (h : x.toOption = none) :
    ∃ f, x = .error f := by
  cases x with
  | error f => exact ⟨f, rfl⟩
  | ok w1 => cases h

theorem completions_shut_down_steps (tag : Nat) (orc : Oracle) (s : Slots) :
    completions tag (shut_down_steps orc s) = [] := by
  unfold shut_down_steps
  cases s.image_map <;> cases s.image_deleter <;> cases s.remote_pool_watcher <;>
    simp [completions, performed, joined, base_teardown, Event.completion]

theorem shut_down_pending_completion (on_finish c : Context) (w : World)
    (h : w.nr.m_on_finish = some c) : shut_down on_finish w = .error .assertion := by
  unfold shut_down
  rw [h]
  rfl

theorem init_slots_of_fails {orc : Oracle} {e : Int} (h : init_fails_with orc e) :
    init_slots orc = Slots.status_only ∨ init_slots orc = Slots.empty := by
  obtain ⟨he, h | ⟨h1, h⟩ | ⟨h1, h2, h⟩⟩ := h
  · subst h; exact Or.inl (by simp only [init_slots, if_pos he])
  · subst h; exact Or.inr (by simp only [init_slots, if_neg (not_lt.mpr h1), if_pos he])
  · subst h
    exact Or.inr (by
      simp only [init_slots, if_neg (not_lt.mpr h1), if_neg (not_lt.mpr h2), if_pos he])

/-! ## The claims on the unwind and on the start of `shut_down` -/

/-- C26: when an init step of `handle_acquire_leader` aborts with `e` (image map, local
pool watcher, remote pool watcher with a code other than `-ENOENT`, or image deleter),
the leader subsystems whose init was issued are the first ones in creation order up to
the one whose init returned `e`, and the unwind is: image deleter shutdown if its init was
issued, then the joined shutdown of the local pool watcher (if its init was issued) and
of the remote pool watcher (if its init was issued), then image map shutdown, then
`release_all` on the instance replayer, and only then the completion, invoked with `e`;
afterwards all four leader slots are empty. -/
theorem acquire_unwind_order (tag : Nat) (orc : Oracle) (w : World) (e : Int)
    (hpre : Sequence.pre .handle_acquire_leader w = true) (hfail : acquire_fails_with orc e) :
    ∃ w' events, Sequence.exec .handle_acquire_leader tag orc w = .ok w' ∧
      w'.trace = w.trace ++ events ∧
      started events <+: creation_order ∧
      (∃ s, (started events).getLast? = some s ∧ orc s .init = e) ∧
      teardown_events events =
        (if Subsystem.image_deleter ∈ started events then
          performed orc .image_deleter .shut_down else []) ++
        (if Subsystem.local_pool_watcher ∈ started events then
          joined orc (decide (Subsystem.remote_pool_watcher ∈ started events))
        else []) ++
        performed orc .image_map .shut_down ++
        performed orc .instance_replayer .release_all ++ [.complete tag e] ∧
      w'.nr.slots = Slots.base := by
  obtain ⟨hidle, hs⟩ := pre_acquire hpre
  obtain ⟨hfirst, hlast, hunwind, hslots⟩ := acquire_unwind_of_fails tag hfail
  exact ⟨_, _, acquire_run orc tag w hs hidle, settle_trace _ _ _ _ _ _, hfirst, hlast,
    hunwind, hslots⟩

/-- C26 at a concrete input: the remote pool watcher init fails with -5 on the sample
root after `init`. -/
theorem acquire_unwind_order_witness :
    ∃ w' events, Sequence.exec .handle_acquire_leader 7
        (failing .remote_pool_watcher .init (-5)) sample_ready = .ok w' ∧
      w'.trace = sample_ready.trace ++ events ∧
      started events <+: creation_order ∧
      (∃ s, (started events).getLast? = some s ∧
        failing .remote_pool_watcher .init (-5) s .init = -5) ∧
      teardown_events events =
        (if Subsystem.image_deleter ∈ started events then
          performed (failing .remote_pool_watcher .init (-5)) .image_deleter .shut_down
        else []) ++
        (if Subsystem.local_pool_watcher ∈ started events then
          joined (failing .remote_pool_watcher .init (-5))
            (decide (Subsystem.remote_pool_watcher ∈ started events))
        else []) ++
        performed (failing .remote_pool_watcher .init (-5)) .image_map .shut_down ++
        performed (failing .remote_pool_watcher .init (-5)) .instance_replayer .release_all ++
        [.complete 7 (-5)] ∧
      w'.nr.slots = Slots.base :=
  acquire_unwind_order 7 (failing .remote_pool_watcher .init (-5)) sample_ready (-5)
    (by decide) (by decide)

/-- C28, as stated, fails in the direction "if": with the pending completion null and the
status watcher, instance replayer and instance watcher slots non-empty, `shut_down` still
ends in a failed assertion when the image map slot is non-empty and the local pool
watcher slot is empty.  That is the state while the image map's init of a
`handle_acquire_leader` is outstanding, and the same slots with nothing outstanding. -/
theorem shut_down_with_image_map_only_asserts :
    (sample_acquiring.nr.m_on_finish = none ∧ sample_acquiring.nr.m_status_watcher = true ∧
      sample_acquiring.nr.m_instance_replayer = true ∧
      sample_acquiring.nr.m_instance_watcher = true ∧
      Sequence.exec .shut_down 9 all_ok sample_acquiring = .error .assertion) ∧
    ((sample_with_image_map false false false).idle = true ∧
      (sample_with_image_map false false false).nr.m_status_watcher = true ∧
      (sample_with_image_map false false false).nr.m_instance_replayer = true ∧
      (sample_with_image_map false false false).nr.m_instance_watcher = true ∧
      Sequence.exec .shut_down 9 all_ok (sample_with_image_map false false false)
        = .error .assertion) :=
  ⟨⟨rfl, rfl, rfl, rfl, rfl⟩, ⟨rfl, rfl, rfl, rfl, rfl⟩⟩

/-- C28, amended: `shut_down` started with nothing outstanding reaches its completion
without hitting an assertion or an empty-slot dereference if and only if it starts with
the pending completion null, the status watcher, instance replayer and instance watcher
slots non-empty, and the leader slots either all empty or holding at least the image map
and the local pool watcher; it then ends with all seven slots empty and the completion
invoked last, with the recorded error.  On the states reached by completed sequences the
condition on the slots is that the three base slots are non-empty.  In particular, from
every state left by an `init` that completed with an error, the call of `shut_down` itself
goes through the empty instance replayer slot, so its completion is never invoked. -/
theorem shut_down_completes_iff_ready (tag : Nat) (orc : Oracle) (w : World)
    (hp : w.pending = []) :
    (w.nr.m_on_finish = none ∧ w.nr.slots.shut_down_ready = true →
      ∃ w' events, Sequence.exec .shut_down tag orc w = .ok w' ∧ w'.idle = true ∧
        w'.trace = w.trace ++ events ++ [.complete tag w.nr.m_ret_val] ∧
        completions tag events = [] ∧ w'.nr.slots = Slots.empty) ∧
    (¬ (w.nr.m_on_finish = none ∧ w.nr.slots.shut_down_ready = true) →
      ∃ f, Sequence.exec .shut_down tag orc w = .error f) ∧
    (settled w →
      (w.nr.slots.shut_down_ready = true ↔
        w.nr.m_status_watcher = true ∧ w.nr.m_instance_replayer = true ∧
          w.nr.m_instance_watcher = true)) ∧
    ∀ (orc0 : Oracle) (tag0 : Nat) (w0 : World) (e : Int),
      Sequence.pre .init w0 = true → init_fails_with orc0 e →
      ∃ w1, Sequence.exec .init tag0 orc0 w0 = .ok w1 ∧ w1.idle = true ∧
        w1.nr.m_instance_replayer = false ∧
        Sequence.start .shut_down tag w1 = .error .null_deref := by
  refine ⟨fun ⟨hfin, hready⟩ => ?_, fun hnot => ?_, fun hw => ?_,
    fun orc0 tag0 w0 e hpre hfail => ?_⟩
  · have h := shut_down_from tag orc w hp hfin
    rw [hready, if_pos rfl] at h
    refine ⟨_, shut_down_steps orc w.nr.slots, ok_of_toOption h, rfl, ?_,
      completions_shut_down_steps tag orc w.nr.slots, rfl⟩
    rw [settle_trace, List.append_assoc]
  · cases hfin : w.nr.m_on_finish with
    | some c =>
      refine ⟨.assertion, ?_⟩
      show (shut_down (.caller tag) w >>= run orc 16) = .error .assertion
      rw [shut_down_pending_completion (.caller tag) c w hfin]
      rfl
    | none =>
      have h := shut_down_from tag orc w hp hfin
      have hready : w.nr.slots.shut_down_ready = false := by
        cases hr : w.nr.slots.shut_down_ready with
        | false => rfl
        | true => exact absurd ⟨hfin, hr⟩ hnot
      rw [hready] at h
      exact error_of_toOption h
  · obtain ⟨_, _, hs⟩ := hw
    show w.nr.slots.shut_down_ready = true ↔
      w.nr.slots.status_watcher = true ∧ w.nr.slots.instance_replayer = true ∧
        w.nr.slots.instance_watcher = true
    rcases hs with h | h | h | h <;> rw [h] <;> decide
  · obtain ⟨hidle, hs⟩ := pre_init hpre
    refine ⟨_, init_run orc0 tag0 w0 hs hidle, rfl, ?_, ?_⟩
    · show (init_slots orc0).instance_replayer = false
      rcases init_slots_of_fails hfail with h | h <;> rw [h] <;> rfl
    · show shut_down (.caller tag) (w0.settle (init_slots orc0) none _ [] _) = _
      rcases init_slots_of_fails hfail with h | h
      · rw [h]; rfl
      · rw [h]; rfl

/-- C28, amended, at a concrete input: the sample root after `init` with image map, local
pool watcher and image deleter present and the remote pool watcher absent. -/
theorem shut_down_completes_iff_ready_witness :
    (sample_with_image_map true false true).pending = [] ∧
    ∃ w' events, Sequence.exec .shut_down 7 all_ok (sample_with_image_map true false true)
        = .ok w' ∧ w'.idle = true ∧
      w'.trace = (sample_with_image_map true false true).trace ++ events ++
        [.complete 7 (sample_with_image_map true false true).nr.m_ret_val] ∧
      completions 7 events = [] ∧ w'.nr.slots = Slots.empty :=
  ⟨rfl, (shut_down_completes_iff_ready 7 all_ok (sample_with_image_map true false true) rfl).1
    ⟨rfl, rfl⟩⟩

/-! ## Release from a part of the leader subsystems -/

end rbd.mirror

namespace ceph

/-! ## The plugin registry -/

theorem find_assign {V : Type} (k1 k : String) (v : V) (m : StdMap V) :
    StdMap.find k1 (StdMap.assign k v m) = if k1 = k then some v else StdMap.find k1 m := by
  induction m with
  | nil => rfl
  | cons e m ih =>
    obtain ⟨k2, v2⟩ := e
    unfold StdMap.assign
    by_cases ha : k < k2
    · rw [if_pos ha]
      by_cases hk : k1 = k
      · simp [StdMap.find, hk]
      · simp [StdMap.find, hk]
    · rw [if_neg ha]
      by_cases hb : k = k2
      · rw [if_pos hb]
        subst hb
        by_cases hk : k1 = k
        · simp [StdMap.find, hk]
        · simp [StdMap.find, hk]
      · rw [if_neg hb]
        by_cases hk : k1 = k
        · subst hk
          simp [StdMap.find, hb, ih]
        · by_cases h4 : k1 = k2
          · subst h4
            simp [StdMap.find, hk]
          · simp [StdMap.find, h4, ih, hk]

theorem find_erase {V : Type} (k1 k : String) (m : StdMap V) :
    StdMap.find k1 (StdMap.erase k m) = if k1 = k then none else StdMap.find k1 m := by
  induction m with
  | nil => simp [StdMap.erase, StdMap.find]
  | cons e m ih =>
    obtain ⟨k2, v2⟩ := e
    unfold StdMap.erase
    by_cases hb : k = k2
    · rw [if_pos hb]
      subst hb
      by_cases hk : k1 = k
      · subst hk
        simpa using ih
      · simp [StdMap.find, hk, ih]
    · rw [if_neg hb]
      by_cases hk : k1 = k
      · subst hk
        simp [StdMap.find, hb, ih]
      · by_cases h4 : k1 = k2
        · subst h4
          simp [StdMap.find, hk]
        · simp [StdMap.find, h4, ih, hk]

theorem mem_assign {V : Type} (e : String × V) (k : String) (v : V) (m : StdMap V)
    (h : e ∈ StdMap.assign k v m) : e = (k, v) ∨ e ∈ m := by
  induction m with
  | nil => exact Or.inl (List.mem_singleton.mp h)
  | cons e2 m ih =>
    obtain ⟨k2, v2⟩ := e2
    unfold StdMap.assign at h
    split_ifs at h with h1 h2
    · rcases List.mem_cons.mp h with h | h
      · exact Or.inl h
      · exact Or.inr h
    · rcases List.mem_cons.mp h with h | h
      · exact Or.inl h
      · exact Or.inr (List.mem_cons_of_mem _ h)
    · rcases List.mem_cons.mp h with h | h
      · exact Or.inr (h ▸ List.mem_cons_self _ _)
      · rcases ih h with h | h
        · exact Or.inl h
        · exact Or.inr (List.mem_cons_of_mem _ h)

theorem mem_erase {V : Type} (e : String × V) (k : String) (m : StdMap V)
    (h : e ∈ StdMap.erase k m) : e ∈ m := by
  induction m with
  | nil => exact h
  | cons e2 m ih =>
    obtain ⟨k2, v2⟩ := e2
    unfold StdMap.erase at h
    split_ifs at h with h1
    · exact List.mem_cons_of_mem _ (ih h)
    · rcases List.mem_cons.mp h with h | h
      · exact h ▸ List.mem_cons_self _ _
      · exact List.mem_cons_of_mem _ (ih h)

theorem assign_ne_nil {V : Type} (k : String) (v : V) (m : StdMap V) :
    StdMap.assign k v m ≠ [] := by
  cases m with
  | nil => simp [StdMap.assign]
  | cons e m =>
    obtain ⟨k2, v2⟩ := e
    unfold StdMap.assign
    split_ifs <;> simp

/-- The entry of `(type, name)`: absent, or the pointer stored. -/
theorem get_eq (type name : String) (reg : PluginRegistry) (hlock : reg.lock = true) :
    PluginRegistry.get type name reg =
      .ok (((StdMap.find type reg.plugins).bind (StdMap.find name)).getD none) := by
  unfold PluginRegistry.get
  rw [hlock]
  cases h1 : StdMap.find type reg.plugins with
  | none => rfl
  | some names =>
    cases h2 : StdMap.find name names with
    | none => simp [h2]; rfl
    | some p => simp [h2]; rfl

theorem registered_eq (type name : String) (reg : PluginRegistry) :
    PluginRegistry.registered type name reg =
      ((StdMap.find type reg.plugins).bind (StdMap.find name)).isSome := by
  unfold PluginRegistry.registered
  cases StdMap.find type reg.plugins <;> rfl

theorem find_of_erase_nil {V : Type} (k1 k : String) (m : StdMap V)
    (h : StdMap.erase k m = []) (hne : ¬ k1 = k) : StdMap.find k1 m = none := by
  have e := find_erase k1 k m
  rw [h, if_neg hne] at e
  exact e.symm

theorem assert_held {α : Type} {c : Bool} (f : Unit → Except rbd.mirror.Fault α)
    (h : c = true) : (rbd.mirror.ceph_assert c >>= f) = f () := by
  subst h
  rfl

theorem assert_ok {α : Type} {c : Bool} {f : Unit → Except rbd.mirror.Fault α} {x : α}
    (h : (rbd.mirror.ceph_assert c >>= f) = .ok x) : c = true ∧ f () = .ok x := by
  cases c with
  | false => cases h
  | true => exact ⟨rfl, h⟩

theorem registered_cases (type name : String) (reg : PluginRegistry) :
    (PluginRegistry.registered type name reg = false ∧
        (StdMap.find type reg.plugins = none ∨
          ∃ names, StdMap.find type reg.plugins = some names ∧
            StdMap.find name names = none)) ∨
      (PluginRegistry.registered type name reg = true ∧
        ∃ names p, StdMap.find type reg.plugins = some names ∧
          StdMap.find name names = some p) := by
  unfold PluginRegistry.registered
  cases h1 : StdMap.find type reg.plugins with
  | none => exact Or.inl ⟨rfl, Or.inl rfl⟩
  | some names =>
    cases h2 : StdMap.find name names with
    | none => exact Or.inl ⟨by simp [h2], Or.inr ⟨names, rfl, h2⟩⟩
    | some p => exact Or.inr ⟨by simp [h2], names, p, rfl, h2⟩

/-- What `add` does when `(type, name)` is not registered. -/
theorem add_fresh (type name : String) (plugin : Option Plugin) (reg : PluginRegistry)
    (hlock : reg.lock = true) (hreg : PluginRegistry.registered type name reg = false) :
    PluginRegistry.add type name plugin reg =
      .ok (0, { reg with plugins := (StdMap.assign type
        (StdMap.assign name plugin ((StdMap.find type reg.plugins).getD [])) reg.plugins) }) := by
  unfold PluginRegistry.add
  rw [assert_held _ hlock]
  rcases registered_cases type name reg with ⟨_, h1 | ⟨names, h1, h2⟩⟩ | ⟨h, _⟩
  · simp [StdMap.count, h1, StdMap.find]
    rfl
  · simp [StdMap.count, h1, h2]
    rfl
  · rw [h] at hreg
    cases hreg

/-- What `add` does when `(type, name)` is registered. -/
theorem add_registered (type name : String) (plugin : Option Plugin) (reg : PluginRegistry)
    (hlock : reg.lock = true) (hreg : PluginRegistry.registered type name reg = true) :
    PluginRegistry.add type name plugin reg = .ok (-EEXIST, reg) := by
  unfold PluginRegistry.add
  rw [assert_held _ hlock]
  rcases registered_cases type name reg with ⟨h, _⟩ | ⟨_, names, p, h1, h2⟩
  · rw [h] at hreg
    cases hreg
  · simp [StdMap.count, h1, h2]
    rfl

/-- The entries after a successful `add`. -/
theorem find_after_add (type name t n : String) (plugin : Option Plugin)
    (plugins : StdMap (StdMap (Option Plugin))) :
    (StdMap.find t (StdMap.assign type
        (StdMap.assign name plugin ((StdMap.find type plugins).getD [])) plugins)).bind
        (StdMap.find n) =
      if t = type ∧ n = name then some plugin
      else (StdMap.find t plugins).bind (StdMap.find n) := by
  rw [find_assign]
  by_cases ht : t = type
  · subst ht
    rw [if_pos rfl, Option.some_bind, find_assign]
    by_cases hn : n = name
    · simp [hn]
    · simp only [hn, and_false, if_false]
      cases StdMap.find t plugins <;> rfl
  · simp [ht]

/-- What `remove` does when `(type, name)` is not registered. -/
theorem remove_missing (type name : String) (reg : PluginRegistry)
    (hlock : reg.lock = true) (hreg : PluginRegistry.registered type name reg = false) :
    PluginRegistry.remove type name reg = .ok (-ENOENT, reg) := by
  unfold PluginRegistry.remove
  rw [assert_held _ hlock]
  rcases registered_cases type name reg with ⟨_, h1 | ⟨names, h1, h2⟩⟩ | ⟨h, _⟩
  · simp [h1]
    rfl
  · simp [h1, h2]
    rfl
  · rw [h] at hreg
    cases hreg

/-- What `remove` does when `(type, name)` is registered with a plugin. -/
theorem remove_registered (type name : String) (reg : PluginRegistry)
    (names : StdMap (Option Plugin)) (plugin : Plugin) (hlock : reg.lock = true)
    (h1 : StdMap.find type reg.plugins = some names)
    (h2 : StdMap.find name names = some (some plugin)) :
    PluginRegistry.remove type name reg =
      .ok (0, { reg with
        plugins :=
          (if (StdMap.erase name names).isEmpty then StdMap.erase type reg.plugins
          else StdMap.assign type (StdMap.erase name names) reg.plugins)
        closed := reg.closed ++ [plugin.library] }) := by
  unfold PluginRegistry.remove
  rw [assert_held _ hlock]
  simp [h1, h2]
  rfl

/-- The entries after a successful `remove`. -/
theorem find_after_remove (type name t n : String)
    (plugins : StdMap (StdMap (Option Plugin))) (names : StdMap (Option Plugin))
    (h1 : StdMap.find type plugins = some names) :
    (StdMap.find t (if (StdMap.erase name names).isEmpty then StdMap.erase type plugins
        else StdMap.assign type (StdMap.erase name names) plugins)).bind (StdMap.find n) =
      if t = type ∧ n = name then none
      else (StdMap.find t plugins).bind (StdMap.find n) := by
  by_cases he : (StdMap.erase name names).isEmpty = true
  · rw [if_pos he, find_erase]
    by_cases ht : t = type
    · subst ht
      rw [if_pos rfl, h1, Option.some_bind]
      by_cases hn : n = name
      · simp [hn]
      · simp only [hn, and_false, if_false, Option.none_bind]
        exact (find_of_erase_nil n name names (List.isEmpty_iff.mp he) hn).symm
    · simp [ht]
  · rw [if_neg he, find_assign]
    by_cases ht : t = type
    · subst ht
      rw [if_pos rfl, h1, Option.some_bind, Option.some_bind, find_erase]
      by_cases hn : n = name
      · simp [hn]
      · simp [hn]
    · simp [ht]

theorem no_empty_type_after_add (type name : String) (plugin : Option Plugin)
    (reg : PluginRegistry) (h : reg.no_empty_type) :
    PluginRegistry.no_empty_type { reg with plugins := (StdMap.assign type
      (StdMap.assign name plugin ((StdMap.find type reg.plugins).getD [])) reg.plugins) } := by
  intro entry hmem
  rcases mem_assign entry _ _ _ hmem with rfl | hmem
  · exact assign_ne_nil _ _ _
  · exact h entry hmem

theorem no_empty_type_after_remove (type name : String) (reg : PluginRegistry)
    (names : StdMap (Option Plugin)) (closed : List Nat) (h : reg.no_empty_type) :
    PluginRegistry.no_empty_type { reg with
      plugins :=
        (if (StdMap.erase name names).isEmpty then StdMap.erase type reg.plugins
        else StdMap.assign type (StdMap.erase name names) reg.plugins)
      closed := closed } := by
  intro entry hmem
  by_cases he : (StdMap.erase name names).isEmpty = true
  · have hmem1 : entry ∈ StdMap.erase type reg.plugins := by simpa [he] using hmem
    exact h entry (mem_erase entry _ _ hmem1)
  · have hmem1 : entry ∈ StdMap.assign type (StdMap.erase name names) reg.plugins := by
      simpa [he] using hmem
    rcases mem_assign entry _ _ _ hmem1 with rfl | hmem2
    · exact fun hnil => he (List.isEmpty_iff.mpr hnil)
    · exact h entry hmem2

/-- Both `add` and `remove` keep every type's name map non-empty. -/
theorem no_empty_type_kept (type name : String) (reg : PluginRegistry)
    (h : reg.no_empty_type) :
    (∀ plugin r reg1, PluginRegistry.add type name plugin reg = .ok (r, reg1) →
      reg1.no_empty_type) ∧
    (∀ r reg1, PluginRegistry.remove type name reg = .ok (r, reg1) → reg1.no_empty_type) := by
  cases hlock : reg.lock with
  | false =>
    refine ⟨fun plugin r reg1 hadd => ?_, fun r reg1 hrem => ?_⟩
    · unfold PluginRegistry.add at hadd
      obtain ⟨hc, _⟩ := assert_ok hadd
      rw [hlock] at hc
      cases hc
    · unfold PluginRegistry.remove at hrem
      obtain ⟨hc, _⟩ := assert_ok hrem
      rw [hlock] at hc
      cases hc
  | true =>
    refine ⟨fun plugin r reg1 hadd => ?_, fun r reg1 hrem => ?_⟩
    · cases hreg : PluginRegistry.registered type name reg with
      | true =>
        rw [add_registered type name plugin reg hlock hreg] at hadd
        cases hadd
        exact h
      | false =>
        rw [add_fresh type name plugin reg hlock hreg] at hadd
        cases hadd
        exact no_empty_type_after_add type name plugin reg h
    · rcases registered_cases type name reg with ⟨hreg, _⟩ | ⟨_, names, p, h1, h2⟩
      · rw [remove_missing type name reg hlock hreg] at hrem
        cases hrem
        exact h
      · cases p with
        | none =>
          unfold PluginRegistry.remove at hrem
          rw [assert_held _ hlock] at hrem
          simp [h1, h2] at hrem
        | some plugin =>
          rw [remove_registered type name reg names plugin hlock h1 h2] at hrem
          cases hrem
          exact no_empty_type_after_remove type name reg names _ h

/-! ## The claims on the plugin registry -/

/-- C29: for every registry (with its lock held), type, name and plugin, `add` returns
`-EEXIST` and leaves the registry unchanged if `(type, name)` is already registered;
otherwise it returns 0, `get(type, name)` afterwards returns exactly that plugin, and for
every other pair `get` returns what it returned before (and the pair is registered
afterwards exactly when it was before). -/
theorem add_registers_once (type name : String) (plugin : Option Plugin)
    (reg : PluginRegistry) (hlock : reg.lock = true) :
    (PluginRegistry.registered type name reg = true →
      PluginRegistry.add type name plugin reg = .ok (-EEXIST, reg)) ∧
    (PluginRegistry.registered type name reg = false →
      ∃ reg1, PluginRegistry.add type name plugin reg = .ok (0, reg1) ∧
        PluginRegistry.get type name reg1 = .ok plugin ∧
        PluginRegistry.registered type name reg1 = true ∧
        ∀ t n, ¬ (t = type ∧ n = name) →
          PluginRegistry.get t n reg1 = PluginRegistry.get t n reg ∧
          PluginRegistry.registered t n reg1 = PluginRegistry.registered t n reg) := by
  refine ⟨add_registered type name plugin reg hlock, fun hreg => ?_⟩
  refine ⟨_, add_fresh type name plugin reg hlock hreg, ?_, ?_, fun t n hne => ⟨?_, ?_⟩⟩
  · refine (get_eq _ _ _ (by exact hlock)).trans ?_
    show Except.ok (((StdMap.find type (StdMap.assign type _ reg.plugins)).bind
      (StdMap.find name)).getD none) = _
    rw [find_after_add, if_pos ⟨rfl, rfl⟩]
    rfl
  · refine (registered_eq _ _ _).trans ?_
    show ((StdMap.find type (StdMap.assign type _ reg.plugins)).bind
      (StdMap.find name)).isSome = true
    rw [find_after_add, if_pos ⟨rfl, rfl⟩]
    rfl
  · rw [get_eq t n reg hlock]
    refine (get_eq _ _ _ (by exact hlock)).trans ?_
    show Except.ok (((StdMap.find t (StdMap.assign type _ reg.plugins)).bind
      (StdMap.find n)).getD none) = _
    rw [find_after_add, if_neg hne]
  · rw [registered_eq t n reg]
    refine (registered_eq _ _ _).trans ?_
    show ((StdMap.find t (StdMap.assign type _ reg.plugins)).bind
      (StdMap.find n)).isSome = _
    rw [find_after_add, if_neg hne]

/-- C29 at a concrete input: `erasure-code/lrc` is added to the sample registry, and
`erasure-code/isa` is added again. -/
theorem add_registers_once_witness :
    PluginRegistry.add "erasure-code" "isa" (some ⟨40⟩) sample_registry
        = .ok (-17, sample_registry) ∧
      ∃ reg1, PluginRegistry.add "erasure-code" "lrc" (some ⟨40⟩) sample_registry
          = .ok (0, reg1) ∧
        PluginRegistry.get "erasure-code" "lrc" reg1 = .ok (some ⟨40⟩) ∧
        PluginRegistry.registered "erasure-code" "lrc" reg1 = true ∧
        ∀ t n, ¬ (t = "erasure-code" ∧ n = "lrc") →
          PluginRegistry.get t n reg1 = PluginRegistry.get t n sample_registry ∧
          PluginRegistry.registered t n reg1 = PluginRegistry.registered t n sample_registry :=
  ⟨(add_registers_once "erasure-code" "isa" (some ⟨40⟩) sample_registry rfl).1 (by decide),
    (add_registers_once "erasure-code" "lrc" (some ⟨40⟩) sample_registry rfl).2 (by decide)⟩

/-- C30 as stated fails for a registered null plugin: `add` accepts a null pointer and
registers it, and `remove` then goes through that pointer to read `library`. -/
theorem remove_null_plugin_faults :
    ∃ reg1, PluginRegistry.add "compressor" "zlib" none (PluginRegistry.create true)
        = .ok (0, reg1) ∧
      PluginRegistry.registered "compressor" "zlib" reg1 = true ∧
      PluginRegistry.remove "compressor" "zlib" reg1 = .error .null_deref :=
  ⟨_, rfl, rfl, rfl⟩

/-- C30, amended: for every registry (with its lock held), type and name, `remove` returns
`-ENOENT` and leaves the registry unchanged if `(type, name)` is not registered; if it is
registered with a non-null plugin, `remove` returns 0, closes that plugin's library,
`get(type, name)` afterwards returns null, and every other pair is registered afterwards
exactly when it was before, with the same plugin; if it is registered with a null pointer,
`remove` goes through the null pointer.  A registry in which no type maps to an empty name
map stays so under both `add` and `remove`, and the constructor builds one. -/
theorem remove_unregisters (type name : String) (reg : PluginRegistry)
    (hlock : reg.lock = true) :
    (PluginRegistry.registered type name reg = false →
      PluginRegistry.remove type name reg = .ok (-ENOENT, reg)) ∧
    (∀ plugin, PluginRegistry.get type name reg = .ok (some plugin) →
      ∃ reg1, PluginRegistry.remove type name reg = .ok (0, reg1) ∧
        reg1.closed = reg.closed ++ [plugin.library] ∧
        PluginRegistry.get type name reg1 = .ok none ∧
        PluginRegistry.registered type name reg1 = false ∧
        ∀ t n, ¬ (t = type ∧ n = name) →
          PluginRegistry.get t n reg1 = PluginRegistry.get t n reg ∧
          PluginRegistry.registered t n reg1 = PluginRegistry.registered t n reg) ∧
    (PluginRegistry.registered type name reg = true →
      PluginRegistry.get type name reg = .ok none →
      PluginRegistry.remove type name reg = .error .null_deref) ∧
    (reg.no_empty_type →
      (∀ plugin r reg1, PluginRegistry.add type name plugin reg = .ok (r, reg1) →
        reg1.no_empty_type) ∧
      (∀ r reg1, PluginRegistry.remove type name reg = .ok (r, reg1) →
        reg1.no_empty_type)) ∧
    ∀ lock, (PluginRegistry.create lock).no_empty_type := by
  refine ⟨remove_missing type name reg hlock, fun plugin hget => ?_, fun hreg hget => ?_,
    no_empty_type_kept type name reg, fun lock entry hmem => by cases hmem⟩
  swap
  · rw [get_eq _ _ _ hlock] at hget
    have hget1 := Except.ok.inj hget
    rcases registered_cases type name reg with ⟨h, _⟩ | ⟨_, names, p, h1, h2⟩
    · rw [h] at hreg
      cases hreg
    · rw [h1, Option.some_bind, h2] at hget1
      have hp : p = none := hget1
      subst hp
      unfold PluginRegistry.remove
      rw [assert_held _ hlock]
      simp [h1, h2]
      rfl
  rw [get_eq _ _ _ hlock] at hget
  have hget1 := Except.ok.inj hget
  rcases registered_cases type name reg with ⟨_, h1 | ⟨names, h1, h2⟩⟩ | ⟨_, names, p, h1, h2⟩
  · rw [h1] at hget1
    cases hget1
  · rw [h1, Option.some_bind, h2] at hget1
    cases hget1
  · rw [h1, Option.some_bind, h2] at hget1
    have hp : p = some plugin := hget1
    subst hp
    refine ⟨_, remove_registered type name reg names plugin hlock h1 h2, rfl, ?_, ?_,
      fun t n hne => ⟨?_, ?_⟩⟩
    · refine (get_eq _ _ _ (by exact hlock)).trans ?_
      show Except.ok (((StdMap.find type (if (StdMap.erase name names).isEmpty then _
        else _)).bind (StdMap.find name)).getD none) = _
      rw [find_after_remove type name type name reg.plugins names h1, if_pos ⟨rfl, rfl⟩]
      rfl
    · refine (registered_eq _ _ _).trans ?_
      show ((StdMap.find type (if (StdMap.erase name names).isEmpty then _
        else _)).bind (StdMap.find name)).isSome = false
      rw [find_after_remove type name type name reg.plugins names h1, if_pos ⟨rfl, rfl⟩]
      rfl
    · rw [get_eq t n reg hlock]
      refine (get_eq _ _ _ (by exact hlock)).trans ?_
      show Except.ok (((StdMap.find t (if (StdMap.erase name names).isEmpty then _
        else _)).bind (StdMap.find n)).getD none) = _
      rw [find_after_remove type name t n reg.plugins names h1, if_neg hne]
    · rw [registered_eq t n reg]
      refine (registered_eq _ _ _).trans ?_
      show ((StdMap.find t (if (StdMap.erase name names).isEmpty then _
        else _)).bind (StdMap.find n)).isSome = _
      rw [find_after_remove type name t n reg.plugins names h1, if_neg hne]

/-- C30, amended, at a concrete input: `compressor/zlib`, the only plugin of its type, is removed
from the sample registry, and the type goes with it; `compressor/snappy` is not there. -/
theorem remove_unregisters_witness :
    PluginRegistry.remove "compressor" "snappy" sample_registry
        = .ok (-2, sample_registry) ∧
      ∃ reg1, PluginRegistry.remove "compressor" "zlib" sample_registry = .ok (0, reg1) ∧
        reg1.closed = sample_registry.closed ++ [30] ∧
        PluginRegistry.get "compressor" "zlib" reg1 = .ok none ∧
        PluginRegistry.registered "compressor" "zlib" reg1 = false ∧
        ∀ t n, ¬ (t = "compressor" ∧ n = "zlib") →
          PluginRegistry.get t n reg1 = PluginRegistry.get t n sample_registry ∧
          PluginRegistry.registered t n reg1 = PluginRegistry.registered t n sample_registry :=
  ⟨(remove_unregisters "compressor" "snappy" sample_registry rfl).1 (by decide),
    (remove_unregisters "compressor" "zlib" sample_registry rfl).2.1 ⟨30⟩ rfl⟩

end ceph
